import Mathlib

/-!
# BlueNRG1Gap: GAP role controller

A shallow embedding of `TARGET_ST_BLUENRG1/BlueNRG1Gap.cpp`.

* The member variables of the `BlueNRG1Gap` object (its own and the ones it
  inherits from `Gap`) are the fields of `BlueNRG1Gap`.
* Everything outside the object that a member function can touch is collected
  in `World`: the list of radio commands issued so far, the reports handed to
  the application, the number of `signalEventsToProcess` requests and the
  `wait_ms` delays.
* The radio coprocessor is a function `Radio` giving the status of a command
  from the commands issued before it and the command itself.  A member
  function is a Lean function `World → ble_error_t × World`.
* Constants of headers that are not part of the sources are the fields of
  `Header`.
* The timeout callbacks are embedded as compiled without `AST_FOR_MBED_OS`
  (the flag-then-process variant).
-/

namespace BlueNRG1

/-- The application-facing error taxonomy `ble_error_t` (the values the file returns). -/
inductive ble_error_t where
  | BLE_ERROR_NONE
  | BLE_ERROR_BUFFER_OVERFLOW
  | BLE_ERROR_NOT_IMPLEMENTED
  | BLE_ERROR_PARAM_OUT_OF_RANGE
  | BLE_ERROR_INVALID_PARAM
  | BLE_STACK_BUSY
  | BLE_ERROR_INVALID_STATE
  | BLE_ERROR_NO_MEM
  | BLE_ERROR_OPERATION_NOT_PERMITTED
  | BLE_ERROR_UNSPECIFIED
  deriving DecidableEq, Repr

/-- The enumeration `GapAdvertisingParams::AdvertisingType_t`. -/
inductive AdvertisingType_t where
  | ADV_CONNECTABLE_UNDIRECTED
  | ADV_CONNECTABLE_DIRECTED
  | ADV_SCANNABLE_UNDIRECTED
  | ADV_NON_CONNECTABLE_UNDIRECTED
  deriving DecidableEq, Repr

/-- The enumeration `Gap::AdvertisingPolicyMode_t`. -/
inductive AdvertisingPolicyMode_t where
  | ADV_POLICY_IGNORE_WHITELIST
  | ADV_POLICY_FILTER_SCAN_REQS
  | ADV_POLICY_FILTER_CONN_REQS
  | ADV_POLICY_FILTER_ALL_REQS
  deriving DecidableEq, Repr

/-- The enumeration `Gap::ScanningPolicyMode_t`. -/
inductive ScanningPolicyMode_t where
  | SCAN_POLICY_IGNORE_WHITELIST
  | SCAN_POLICY_FILTER_ALL_ADV
  deriving DecidableEq, Repr

/-- The enumeration `Reason_t` of `Discovery_CB`. -/
inductive Reason_t where
  | DEVICE_FOUND
  | DISCOVERY_COMPLETE
  deriving DecidableEq, Repr

/-- The value object `GapAdvertisingParams`: type, interval in advertising units
(`getIntervalInADVUnits`) and timeout in seconds (`getTimeout`). -/
structure GapAdvertisingParams where
  advertisingType : AdvertisingType_t
  intervalInADVUnits : Nat
  timeout : Nat
  deriving DecidableEq, Repr

/-- The value object `GapScanningParams`. -/
structure GapScanningParams where
  interval : Nat
  window : Nat
  timeout : Nat
  activeScanning : Bool
  deriving DecidableEq, Repr

/-- The value object `GapAdvertisingData`: the serialized payload (`getPayload`, its length is
`getPayloadLen`) and the appearance (`getAppearance`). -/
structure GapAdvertisingData where
  payload : List Nat
  appearance : Nat
  deriving DecidableEq, Repr

/-- The length `getPayloadLen` of a payload. -/
def GapAdvertisingData.getPayloadLen (d : GapAdvertisingData) : Nat := d.payload.length

/-- The bit-field record `Gap::GapState_t`. -/
structure GapState_t where
  advertising : Bool
  connected : Bool
  deriving DecidableEq, Repr

/-- Constants the file takes from headers that are not among the sources, together with the
two global GATT handles and the helper `getHighPowerAndPALevelValue` of `ble_utils.h` (status,
`enHighPower` and `paLevel` for a power in dBm) that it declares from there. -/
structure Header where
  GAP_ADV_PARAMS_INTERVAL_MIN : Nat
  GAP_ADV_PARAMS_INTERVAL_MIN_NONCON : Nat
  GAP_ADV_PARAMS_INTERVAL_MAX : Nat
  GAP_ADV_PARAMS_TIMEOUT_MAX : Nat
  GAP_ADVERTISING_DATA_MAX_PAYLOAD : Nat
  BLE_STATUS_TIMEOUT : Nat
  BLE_STATUS_INVALID_CID : Nat
  ERR_COMMAND_DISALLOWED : Nat
  NO_WHITE_LIST_USE : Nat
  WHITE_LIST_FOR_ONLY_SCAN : Nat
  WHITE_LIST_FOR_ONLY_CONN : Nat
  WHITE_LIST_FOR_ALL : Nat
  RESOLVABLE_PRIVATE_ADDR : Nat
  NON_RESOLVABLE_PRIVATE_ADDR : Nat
  ADV_IND : Nat
  ADV_DIRECT_IND : Nat
  ADV_SCAN_IND : Nat
  SCAN_RSP : Nat
  ADV_NONCONN_IND : Nat
  GAP_OBSERVATION_PROC : Nat
  GUARD_INT : Nat
  SUPERV_TIMEOUT : Nat
  CONN_L1 : Nat
  BLE_CONN_HANDLE_INVALID : Nat
  CONFIG_DATA_PUBADDR_OFFSET : Nat
  CONFIG_DATA_PUBADDR_LEN : Nat
  BLE_STATUS_INVALID_HANDLE : Nat
  BLE_STATUS_INVALID_PARAMETER : Nat
  BLE_STATUS_INSUFFICIENT_RESOURCES : Nat
  TX_POWER_LEVEL : Nat
  APPEARANCE : Nat
  g_gap_service_handle : Nat
  g_appearance_char_handle : Nat
  getHighPowerAndPALevelValue : Int → Nat × Int × Int

/-- Modelled from the spec: the vendor status header is not among the sources; the success
status is zero, the value the file itself tests with `if (err)` and `if (ret)`. -/
def BLE_STATUS_SUCCESS : Nat := 0

/-- Modelled from the spec: `MSEC_TO_ADVERTISEMENT_DURATION_UNITS` of the absent
`GapAdvertisingParams` header, milliseconds to protocol time units of 0.625 ms, on 32 bits. -/
def MSEC_TO_ADVERTISEMENT_DURATION_UNITS (durationInMillis : Nat) : Nat :=
  ((durationInMillis * 1000) % 2 ^ 32) / 625

/-- Radio commands (the ACI/HCI calls of the file) with their arguments. -/
inductive Cmd where
  | aci_gap_configure_whitelist
  | hci_le_set_scan_response_data (len : Nat) (data : List Nat)
  | hci_le_set_advertising_data (len : Nat) (data : List Nat)
  | hci_le_set_advertising_parameters (advIntervalMin advIntervalMax : Nat)
      (advType : AdvertisingType_t) (ownAddrType directAddrType : Nat) (directAddr : List Nat)
      (channelMap filterPolicy : Nat)
  | hci_le_set_advertise_enable (enable : Nat)
  | btleStartRadioScan (active : Bool) (interval window ownAddrType : Nat)
  | aci_gap_terminate_gap_proc (procedure : Nat)
  | aci_gap_create_connection (scanInterval scanWindow peerAddrType : Nat) (peerAddr : List Nat)
      (ownAddrType connMin connMax latency supervision lenMin lenMax : Nat)
  | aci_gap_terminate (connectionHandle reason : Nat)
  | aci_hal_write_config_data (offset len : Nat) (data : List Nat)
  | aci_hal_read_config_data (offset : Nat)
  | hci_le_set_random_address (address : List Nat)
  | aci_hal_set_tx_power_level (enHighPower paLevel : Int)
  | aci_gatt_update_char_value (serviceHandle charHandle offset len : Nat) (data : List Nat)
  deriving DecidableEq, Repr

/-- The radio coprocessor: the status of a command, given the commands issued before it. -/
abbrev Radio := List Cmd → Cmd → Nat

/-- An advertisement report as `processAdvertisementReport` receives it. -/
structure Report where
  peerAddr : List Nat
  rssi : Int
  isScanResponse : Bool
  type : AdvertisingType_t
  advertisingDataLen : Nat
  advertisingData : List Nat
  deriving DecidableEq, Repr

/-- The member variables of the `BlueNRG1Gap` object. `advTimeout` and `scanTimeout` are the
two `Timeout` members: `some d` when attached with a duration of `d` seconds. -/
structure BlueNRG1Gap where
  state : GapState_t
  _scanning : Bool
  _connecting : Bool
  AdvToFlag : Bool
  ScanToFlag : Bool
  advertisingPolicyMode : AdvertisingPolicyMode_t
  scanningPolicyMode : ScanningPolicyMode_t
  whitelistSize : Nat
  addr_type : Nat
  bdaddr : List Nat
  isSetAddress : Bool
  _advData : GapAdvertisingData
  _scanResponse : GapAdvertisingData
  _advParams : GapAdvertisingParams
  _scanningParams : GapScanningParams
  advInterval : Nat
  scanInterval : Nat
  scanWindow : Nat
  conn_min_interval : Nat
  conn_max_interval : Nat
  _peerAddr : List Nat
  _peerAddrType : Nat
  m_connectionHandle : Nat
  gapRole : Nat
  deviceAppearance : List Nat
  advTimeout : Option Nat
  scanTimeout : Option Nat
  deriving DecidableEq, Repr

/-- The controller together with what it acts on: the radio commands issued so far (oldest
first), the reports forwarded to the application, the number of `signalEventsToProcess`
calls, and the durations of the `wait_ms` calls. -/
structure World where
  gap : BlueNRG1Gap
  issued : List Cmd
  reports : List Report
  eventsSignalled : Nat
  waits : List Nat
  deriving DecidableEq, Repr

/-- Issue one radio command: it is appended to the log and its status is returned. -/
def issue (radio : Radio) (c : Cmd) (w : World) : Nat × World :=
  (radio w.issued c, { w with issued := w.issued ++ [c] })

/-- The member function `BlueNRG1Gap::setAdvParameters`.  The product by 1.25 and the
subtraction are exact in double precision; the conversion to `uint32_t` truncates, and a
negative difference is taken to 0. -/
def setAdvParameters (K : Header) (g : BlueNRG1Gap) : BlueNRG1Gap :=
  if g.state.connected then
    let advIntMS := ((5 * g.conn_min_interval - 4 * K.GUARD_INT) / 4) % 2 ^ 32
    { g with advInterval := MSEC_TO_ADVERTISEMENT_DURATION_UNITS advIntMS % 2 ^ 16 }
  else
    { g with advInterval := g._advParams.intervalInADVUnits }

/-- The filter policy chosen by the `switch (mode)` of `startAdvertising`. -/
def advFilterPolicy (K : Header) (mode : AdvertisingPolicyMode_t) : Nat :=
  match mode with
  | .ADV_POLICY_FILTER_SCAN_REQS => K.WHITE_LIST_FOR_ONLY_SCAN
  | .ADV_POLICY_FILTER_CONN_REQS => K.WHITE_LIST_FOR_ONLY_CONN
  | .ADV_POLICY_FILTER_ALL_REQS => K.WHITE_LIST_FOR_ALL
  | _ => K.NO_WHITE_LIST_USE

/-- The interval test of `startAdvertising` ("Check interval range"). -/
def intervalOutOfRange (K : Header) (params : GapAdvertisingParams) : Bool :=
  if params.advertisingType = .ADV_NON_CONNECTABLE_UNDIRECTED then
    params.intervalInADVUnits < K.GAP_ADV_PARAMS_INTERVAL_MIN_NONCON ||
      params.intervalInADVUnits > K.GAP_ADV_PARAMS_INTERVAL_MAX
  else
    params.intervalInADVUnits < K.GAP_ADV_PARAMS_INTERVAL_MIN ||
      params.intervalInADVUnits > K.GAP_ADV_PARAMS_INTERVAL_MAX

/-- The end of `startAdvertising` (source lines 328-345): enable advertising, then attach the
timeout when it is not zero. -/
def startAdvertising_enable (radio : Radio) (params : GapAdvertisingParams) (w : World) :
    ble_error_t × World :=
  let r := issue radio (.hci_le_set_advertise_enable 1) w
  if r.1 ≠ 0 then (.BLE_ERROR_UNSPECIFIED, r.2)
  else if params.timeout ≠ 0 then
    (.BLE_ERROR_NONE, { r.2 with gap := { r.2.gap with advTimeout := some params.timeout } })
  else (.BLE_ERROR_NONE, r.2)

/-- The `uint16_t` value `advIntervalMin` of `startAdvertising`. -/
def advIntervalMin (K : Header) (advInterval : Nat) : Nat :=
  if advInterval = K.GAP_ADV_PARAMS_INTERVAL_MAX then (advInterval + (2 ^ 16 - 1)) % 2 ^ 16
  else advInterval % 2 ^ 16

/-- The `uint16_t` value `advIntervalMax` of `startAdvertising`. -/
def advIntervalMax (K : Header) (advInterval : Nat) : Nat :=
  (advIntervalMin K advInterval + 1) % 2 ^ 16

/-- The part of `startAdvertising` from the advertising parameters on (source lines 306-345). -/
def startAdvertising_parameters (K : Header) (radio : Radio) (params : GapAdvertisingParams)
    (filterPolicy : Nat) (w : World) : ble_error_t × World :=
  let r := issue radio (.hci_le_set_advertising_parameters
    (advIntervalMin K w.gap.advInterval) (advIntervalMax K w.gap.advInterval)
    params.advertisingType w.gap.addr_type 0 [0, 0, 0, 0, 0, 0] 7 filterPolicy) w
  if r.1 ≠ 0 then (.BLE_ERROR_INVALID_PARAM, r.2)
  else startAdvertising_enable radio params r.2

/-- The part of `startAdvertising` from `setAdvParameters` on (source lines 296-345). -/
def startAdvertising_data (K : Header) (radio : Radio) (params : GapAdvertisingParams)
    (filterPolicy : Nat) (w : World) : ble_error_t × World :=
  let w1 : World := { w with gap := setAdvParameters K w.gap }
  let r := issue radio (.hci_le_set_advertising_data w1.gap._advData.getPayloadLen
    w1.gap._advData.payload) w1
  if r.1 ≠ 0 then (.BLE_ERROR_UNSPECIFIED, r.2)
  else startAdvertising_parameters K radio params filterPolicy r.2

/-- The part of `startAdvertising` from the scan response data on (source lines 275-345). -/
def startAdvertising_scanResponse (K : Header) (radio : Radio) (params : GapAdvertisingParams)
    (filterPolicy : Nat) (w : World) : ble_error_t × World :=
  if params.advertisingType = .ADV_CONNECTABLE_UNDIRECTED ∨
      params.advertisingType = .ADV_SCANNABLE_UNDIRECTED then
    let r := issue radio (.hci_le_set_scan_response_data w.gap._scanResponse.getPayloadLen
      w.gap._scanResponse.payload) w
    if BLE_STATUS_SUCCESS ≠ r.1 then
      if r.1 = K.BLE_STATUS_TIMEOUT then (.BLE_STACK_BUSY, r.2)
      else (.BLE_ERROR_UNSPECIFIED, r.2)
    else startAdvertising_data K radio params filterPolicy r.2
  else
    startAdvertising_data K radio params filterPolicy
      (issue radio (.hci_le_set_scan_response_data 0 []) w).2

/-- The part of `startAdvertising` after the parameter checks (source lines 246-345): the
whitelist configuration and the choice of the filter policy. -/
def startAdvertising_policy (K : Header) (radio : Radio) (params : GapAdvertisingParams)
    (w : World) : ble_error_t × World :=
  let mode := w.gap.advertisingPolicyMode
  if mode ≠ .ADV_POLICY_IGNORE_WHITELIST then
    let r := issue radio .aci_gap_configure_whitelist w
    if r.1 ≠ BLE_STATUS_SUCCESS then (.BLE_ERROR_OPERATION_NOT_PERMITTED, r.2)
    else startAdvertising_scanResponse K radio params (advFilterPolicy K mode) r.2
  else startAdvertising_scanResponse K radio params (advFilterPolicy K mode) w

/-- The member function `BlueNRG1Gap::startAdvertising(const GapAdvertisingParams &)`; the
body after the parameter checks is `startAdvertising_policy`. -/
def startAdvertising (K : Header) (radio : Radio) (params : GapAdvertisingParams) (w : World) :
    ble_error_t × World :=
  -- Make sure we support the advertising type
  if params.advertisingType = .ADV_CONNECTABLE_DIRECTED then
    (.BLE_ERROR_NOT_IMPLEMENTED, w)
  -- Check interval range
  else if intervalOutOfRange K params then
    (.BLE_ERROR_PARAM_OUT_OF_RANGE, w)
  -- Check timeout is zero for Connectable Directed
  else if params.advertisingType = .ADV_CONNECTABLE_DIRECTED ∧ params.timeout ≠ 0 then
    (.BLE_ERROR_PARAM_OUT_OF_RANGE, w)
  -- Check timeout for other advertising types
  else if params.advertisingType ≠ .ADV_CONNECTABLE_DIRECTED ∧
      params.timeout > K.GAP_ADV_PARAMS_TIMEOUT_MAX then
    (.BLE_ERROR_PARAM_OUT_OF_RANGE, w)
  else startAdvertising_policy K radio params w

/-- The member function `BlueNRG1Gap::stopAdvertising`. -/
def stopAdvertising (radio : Radio) (w : World) : ble_error_t × World :=
  if w.gap.state.advertising then
    let r := issue radio (.hci_le_set_advertise_enable 0) w
    if r.1 ≠ 0 then (.BLE_ERROR_OPERATION_NOT_PERMITTED, r.2)
    else
      (.BLE_ERROR_NONE,
        { r.2 with gap := { r.2.gap with state := { r.2.gap.state with advertising := false } } })
  else (.BLE_ERROR_NONE, w)

/-- The member function `BlueNRG1Gap::startRadioScan`; `whiteListSize` is a `uint8_t`. -/
def startRadioScan (K : Header) (radio : Radio) (scanningParams : GapScanningParams)
    (w : World) : ble_error_t × World :=
  let mode := w.gap.scanningPolicyMode
  let whiteListSize := w.gap.whitelistSize % 2 ^ 8
  if whiteListSize = 0 ∧ mode = .SCAN_POLICY_FILTER_ALL_ADV then
    (.BLE_ERROR_OPERATION_NOT_PERMITTED, w)
  else
    let r := issue radio (.btleStartRadioScan scanningParams.activeScanning
      scanningParams.interval scanningParams.window w.gap.addr_type) w
    if BLE_STATUS_SUCCESS = r.1 then
      let w1 : World := { r.2 with gap := { r.2.gap with _scanning := true } }
      if scanningParams.timeout ≠ 0 then
        (.BLE_ERROR_NONE,
          { w1 with gap := { w1.gap with scanTimeout := some scanningParams.timeout } })
      else (.BLE_ERROR_NONE, w1)
    else if r.1 = K.BLE_STATUS_INVALID_CID then (.BLE_ERROR_NOT_IMPLEMENTED, r.2)
    else (.BLE_ERROR_UNSPECIFIED, r.2)

/-- The member function `BlueNRG1Gap::stopScan`. -/
def stopScan (K : Header) (radio : Radio) (w : World) : ble_error_t × World :=
  if w.gap._scanning then
    let r := issue radio (.aci_gap_terminate_gap_proc K.GAP_OBSERVATION_PROC) w
    if r.1 ≠ BLE_STATUS_SUCCESS then (.BLE_ERROR_UNSPECIFIED, r.2)
    else (.BLE_ERROR_NONE, r.2)
  else (.BLE_ERROR_NONE, w)

/-- The member function `BlueNRG1Gap::Process`. -/
def Process (K : Header) (radio : Radio) (w : World) : World :=
  let w1 := if w.gap.AdvToFlag then
      (stopAdvertising radio { w with gap := { w.gap with AdvToFlag := false } }).2
    else w
  if w1.gap.ScanToFlag then
    (stopScan K radio { w1 with gap := { w1.gap with ScanToFlag := false } }).2
  else w1

/-- The member function `BlueNRG1Gap::setAdvToFlag`. -/
def setAdvToFlag (w : World) : World :=
  { w with gap := { w.gap with AdvToFlag := true }, eventsSignalled := w.eventsSignalled + 1 }

/-- The timer callback `advTimeoutCB`: sets the flag and detaches the timer. -/
def advTimeoutCB (w : World) : World :=
  let w1 := setAdvToFlag w
  { w1 with gap := { w1.gap with advTimeout := none } }

/-- The member function `BlueNRG1Gap::setScanToFlag`. -/
def setScanToFlag (w : World) : World :=
  { w with gap := { w.gap with ScanToFlag := true }, eventsSignalled := w.eventsSignalled + 1 }

/-- The timer callback `scanTimeoutCB`: sets the flag and detaches the timer. -/
def scanTimeoutCB (w : World) : World :=
  let w1 := setScanToFlag w
  { w1 with gap := { w1.gap with scanTimeout := none } }

/-- The member function `BlueNRG1Gap::setConnectionParameters`, an empty stub. -/
def setConnectionParameters (w : World) : World := w

/-- The member function `BlueNRG1Gap::createConnection`. -/
def createConnection (K : Header) (radio : Radio) (w : World) : ble_error_t × World :=
  let w0 := setConnectionParameters w
  let r := issue radio (.aci_gap_create_connection w0.gap.scanInterval w0.gap.scanWindow
    w0.gap._peerAddrType w0.gap._peerAddr w0.gap.addr_type w0.gap.conn_min_interval
    w0.gap.conn_max_interval 0 K.SUPERV_TIMEOUT K.CONN_L1 K.CONN_L1) w0
  if r.1 ≠ BLE_STATUS_SUCCESS then (.BLE_ERROR_UNSPECIFIED, r.2)
  else (.BLE_ERROR_NONE, { r.2 with gap := { r.2.gap with _connecting := false } })

/-- The static function `makeConnection`: `createConnection` with its result dropped. -/
def makeConnection (K : Header) (radio : Radio) (w : World) : World :=
  (createConnection K radio w).2

/-- The method `processAdvertisementReport` of the base class: the report reaches the
application report handler, here the log `reports`. -/
def processAdvertisementReport (peerAddr : List Nat) (rssi : Int) (isScanResponse : Bool)
    (type : AdvertisingType_t) (advertisingDataLen : Nat) (advertisingData : List Nat)
    (w : World) : World :=
  { w with reports := w.reports ++
      [⟨peerAddr, rssi, isScanResponse, type, advertisingDataLen, advertisingData⟩] }

/-- The `switch (adv_type)` of `Discovery_CB`: the advertising-type tag and `isScanResponse`. -/
def advTypeTag (K : Header) (adv_type : Nat) : AdvertisingType_t × Bool :=
  if adv_type = K.ADV_IND then (.ADV_CONNECTABLE_UNDIRECTED, false)
  else if adv_type = K.ADV_DIRECT_IND then (.ADV_CONNECTABLE_DIRECTED, false)
  else if adv_type = K.ADV_SCAN_IND ∨ adv_type = K.SCAN_RSP then
    (.ADV_SCANNABLE_UNDIRECTED, true)
  else if adv_type = K.ADV_NONCONN_IND then (.ADV_NON_CONNECTABLE_UNDIRECTED, false)
  else (.ADV_CONNECTABLE_UNDIRECTED, false)

/-- The member function `BlueNRG1Gap::Discovery_CB`. -/
def Discovery_CB (K : Header) (radio : Radio) (reason : Reason_t) (adv_type addr_type : Nat)
    (addr : List Nat) (data_length : Nat) (data : List Nat) (RSSI : Int) (w : World) : World :=
  match reason with
  | .DEVICE_FOUND =>
    let mode := w.gap.scanningPolicyMode
    if mode = .SCAN_POLICY_FILTER_ALL_ADV ∨
        (addr_type = K.RESOLVABLE_PRIVATE_ADDR ∨ addr_type = K.NON_RESOLVABLE_PRIVATE_ADDR) then
      w
    else
      let tag := advTypeTag K adv_type
      if ¬ w.gap._connecting then
        processAdvertisementReport addr RSSI tag.2 tag.1 data_length data w
      else w
  | .DISCOVERY_COMPLETE =>
    let w1 : World := { w with gap := { w.gap with _scanning := false } }
    let delay := (w1.gap._scanningParams.interval * 5 / 8) % 2 ^ 16
    let w2 : World := { w1 with waits := w1.waits ++ [delay] }
    if w2.gap._connecting then makeConnection K radio w2 else w2

/-- Modelled from the spec: `BDADDR_SIZE` of the absent vendor header, the size in bytes of a
device address ("6-byte value"); it is also the size of `tBDAddr` and of the member `bdaddr`. -/
def BDADDR_SIZE : Nat := 6

/-- Modelled from the spec: `Gap::setScanParams` of the absent base class, which "records the
requested scan parameters onto the controller's scan state", the member `_scanningParams`
that `getScanningParams` returns. -/
def setScanParams (interval window timeout : Nat) (activeScanning : Bool) (w : World) : World :=
  { w with gap := { w.gap with _scanningParams := ⟨interval, window, timeout, activeScanning⟩ } }

/-- The member function `BlueNRG1Gap::connect`; the loop overwrites the `BDADDR_SIZE` bytes of
the member `_peerAddr` with those of `peerAddr`, `connectionParams` is unused. -/
def connect (K : Header) (radio : Radio) (peerAddr : List Nat) (peerAddrType : Nat)
    (scanParams : GapScanningParams) (w : World) : ble_error_t × World :=
  let w1 := setScanParams scanParams.interval scanParams.window scanParams.timeout
    scanParams.activeScanning w
  -- Save the peer address
  let w2 : World := { w1 with gap := { w1.gap with
    _peerAddr := peerAddr.take BDADDR_SIZE } }
  let w3 : World := { w2 with gap := { w2.gap with _peerAddrType := peerAddrType } }
  let w4 : World := { w3 with gap := { w3.gap with _connecting := true } }
  if w4.gap._scanning then
    (.BLE_ERROR_NONE, (stopScan K radio w4).2)
  else
    createConnection K radio w4

/-- The member function `BlueNRG1Gap::disconnect(Handle_t, DisconnectionReason_t)`. -/
def disconnect (K : Header) (radio : Radio) (connectionHandle reason : Nat) (w : World) :
    ble_error_t × World :=
  let r := issue radio (.aci_gap_terminate connectionHandle reason) w
  if BLE_STATUS_SUCCESS ≠ r.1 then
    if r.1 = K.ERR_COMMAND_DISALLOWED then (.BLE_ERROR_OPERATION_NOT_PERMITTED, r.2)
    else if r.1 = K.BLE_STATUS_TIMEOUT then (.BLE_STACK_BUSY, r.2)
    else (.BLE_ERROR_UNSPECIFIED, r.2)
  else (.BLE_ERROR_NONE, r.2)

/-- The member function `BlueNRG1Gap::disconnect(DisconnectionReason_t)`. -/
def disconnect_reason (K : Header) (radio : Radio) (reason : Nat) (w : World) :
    ble_error_t × World :=
  disconnect K radio w.gap.m_connectionHandle reason w

/-- Modelled from the spec: the value `PUBLIC` of the enumeration `BLEProtocol::AddressType`
of the absent header; the four address types are numbered in the order of the spec (public,
random-static, random-private-resolvable, random-private-non-resolvable). -/
def AddressType.PUBLIC : Nat := 0

/-- Modelled from the spec: the value `RANDOM_STATIC` of `BLEProtocol::AddressType`. -/
def AddressType.RANDOM_STATIC : Nat := 1

/-- Modelled from the spec: the value `RANDOM_PRIVATE_RESOLVABLE` of
`BLEProtocol::AddressType`. -/
def AddressType.RANDOM_PRIVATE_RESOLVABLE : Nat := 2

/-- Modelled from the spec: the value `RANDOM_PRIVATE_NON_RESOLVABLE` of
`BLEProtocol::AddressType`, the last one. -/
def AddressType.RANDOM_PRIVATE_NON_RESOLVABLE : Nat := 3

/-- The end of `setAddress` (source lines 499-503): commit the type and mark the address set. -/
def setAddress_commit (type : Nat) (w : World) : ble_error_t × World :=
  (.BLE_ERROR_NONE, { w with gap := { w.gap with addr_type := type, isSetAddress := true } })

/-- The member function `BlueNRG1Gap::setAddress`; `type` is the numeric value of the
`AddressType_t` argument and `address` the bytes behind the pointer.  The `memcpy` calls
overwrite all `BDADDR_SIZE` bytes of `random_address` and of the member `bdaddr`. -/
def setAddress (K : Header) (radio : Radio) (type : Nat) (address : List Nat) (w : World) :
    ble_error_t × World :=
  if type > AddressType.RANDOM_PRIVATE_NON_RESOLVABLE then
    (.BLE_ERROR_PARAM_OUT_OF_RANGE, w)
  else if type = AddressType.PUBLIC then
    let r := issue radio (.aci_hal_write_config_data K.CONFIG_DATA_PUBADDR_OFFSET
      K.CONFIG_DATA_PUBADDR_LEN address) w
    if r.1 ≠ BLE_STATUS_SUCCESS then (.BLE_ERROR_OPERATION_NOT_PERMITTED, r.2)
    else setAddress_commit type r.2
  else if type = AddressType.RANDOM_STATIC then
    -- ensure that the random static address is well formed
    if (address.getD 5 0) &&& 0xC0 ≠ 0xC0 then
      (.BLE_ERROR_PARAM_OUT_OF_RANGE, w)
    else
      let random_address := address.take BDADDR_SIZE
      let r := issue radio (.hci_le_set_random_address random_address) w
      if r.1 ≠ 0 then (.BLE_ERROR_OPERATION_NOT_PERMITTED, r.2)
      else
        setAddress_commit type { r.2 with gap := { r.2.gap with
          bdaddr := address.take BDADDR_SIZE } }
  else
    (.BLE_ERROR_NOT_IMPLEMENTED, w)

/-- The member function `BlueNRG1Gap::getIsSetAddress`. -/
def getIsSetAddress (w : World) : Bool := w.gap.isSetAddress

/-- The answer of the radio to `aci_hal_read_config_data`: the output length `data_len_out`
and the bytes written to the buffer, given the commands issued before. -/
abbrev ConfigData := List Cmd → Nat × List Nat

/-- The member function `BlueNRG1Gap::getAddress`.  The two pointer arguments are `none` for
`NULL` and otherwise hold the content of the storage of the caller; the result gives the
content of that storage after the call. -/
def getAddress (K : Header) (radio : Radio) (configData : ConfigData) (typeP : Option Nat)
    (address : Option (List Nat)) (w : World) :
    ble_error_t × Option Nat × Option (List Nat) × World :=
  -- precondition, check that pointers in input are valid
  if typeP = none ∨ address = none then
    (.BLE_ERROR_INVALID_PARAM, typeP, address, w)
  else if w.gap.addr_type = AddressType.PUBLIC then
    let r := issue radio (.aci_hal_read_config_data K.CONFIG_DATA_PUBADDR_OFFSET) w
    let data_len_out := (configData w.issued).1 % 2 ^ 8
    let bdaddr := (configData w.issued).2
    if r.1 ≠ BLE_STATUS_SUCCESS ∨ data_len_out ≠ BDADDR_SIZE then
      (.BLE_ERROR_UNSPECIFIED, typeP, address, r.2)
    else
      (.BLE_ERROR_NONE, some w.gap.addr_type,
        address.map (fun buf => bdaddr.take BDADDR_SIZE ++ buf.drop BDADDR_SIZE), r.2)
  else if w.gap.addr_type = AddressType.RANDOM_STATIC then
    let bdaddr := w.gap.bdaddr.take BDADDR_SIZE
    (.BLE_ERROR_NONE, some w.gap.addr_type,
      address.map (fun buf => bdaddr.take BDADDR_SIZE ++ buf.drop BDADDR_SIZE), w)
  else
    (.BLE_ERROR_NOT_IMPLEMENTED, typeP, address, w)

/-- Modelled from the spec: `STORE_LE_16` of the absent vendor header, the two bytes of a
16-bit value, "little-endian". -/
def STORE_LE_16 (val : Nat) : List Nat := [val % 2 ^ 8, (val / 2 ^ 8) % 2 ^ 8]

/-- The member function `BlueNRG1Gap::setAppearance`. -/
def setAppearance (K : Header) (radio : Radio) (appearance : Nat) (w : World) :
    ble_error_t × World :=
  let deviceAppearance := STORE_LE_16 appearance
  let r := issue radio (.aci_gatt_update_char_value K.g_gap_service_handle
    K.g_appearance_char_handle 0 2 deviceAppearance) w
  if BLE_STATUS_SUCCESS = r.1 then (.BLE_ERROR_NONE, r.2)
  else if r.1 = K.BLE_STATUS_INVALID_HANDLE ∨ r.1 = K.BLE_STATUS_INVALID_PARAMETER then
    (.BLE_ERROR_INVALID_PARAM, r.2)
  else if r.1 = K.BLE_STATUS_INSUFFICIENT_RESOURCES then (.BLE_ERROR_NO_MEM, r.2)
  else if r.1 = K.BLE_STATUS_TIMEOUT then (.BLE_STACK_BUSY, r.2)
  else (.BLE_ERROR_UNSPECIFIED, r.2)

/-- One element of an advertising payload as `PayloadPtr::getUnitAtIndex` gives it: the
length byte, the type byte and the value bytes. -/
structure PayloadUnit where
  len : Nat
  adType : Nat
  data : List Nat
  deriving DecidableEq, Repr

/-- Modelled from the spec: the elements of a payload as the class `PayloadPtr` of the absent
`ble_payload.h` splits it, an "ordered sequence of (type, length, value) elements", each laid
out as a length byte followed by that many bytes, the first of which is the type.  The first
argument bounds the number of elements; the length of the payload is always enough. -/
def payloadUnits : Nat → List Nat → List PayloadUnit
  | 0, _ => []
  | _ + 1, [] => []
  | fuel + 1, len :: rest =>
    ⟨len, rest.getD 0 0, (rest.drop 1).take (len - 1)⟩ :: payloadUnits fuel (rest.drop len)

/-- The value of a byte read as `int8_t`. -/
def int8 (b : Nat) : Int :=
  if b % 2 ^ 8 < 2 ^ 7 then (b % 2 ^ 8 : Nat) else (b % 2 ^ 8 : Nat) - 2 ^ 8

/-- The body of the loop of `setAdvertisingData` for one element (source lines 78-118). -/
def setAdvertisingData_unit (K : Header) (radio : Radio) (w : World) (u : PayloadUnit) : World :=
  if u.adType = K.TX_POWER_LEVEL then
    let dbm := int8 (u.data.getD 0 0)
    let r := K.getHighPowerAndPALevelValue dbm
    if r.1 = BLE_STATUS_SUCCESS then
      (issue radio (.aci_hal_set_tx_power_level r.2.1 r.2.2) w).2
    else w
  else if u.adType = K.APPEARANCE then
    let d0 := u.data.getD 0 0
    let d1 := u.data.getD 1 0
    let w1 : World := { w with gap := { w.gap with
      deviceAppearance := [d0, d1] ++ w.gap.deviceAppearance.drop 2 } }
    (setAppearance K radio ((d1 <<< 8) ||| d0) w1).2
  else w

/-- The block of `setAdvertisingData` run for a non-empty payload (source lines 66-122): the
appearance of the payload is stored and pushed, then the elements are walked. -/
def setAdvertisingData_elements (K : Header) (radio : Radio) (advData : GapAdvertisingData)
    (w : World) : World :=
  let stored := STORE_LE_16 advData.appearance
  let w1 : World := { w with gap := { w.gap with
    deviceAppearance := stored ++ w.gap.deviceAppearance.drop 2 } }
  let w2 := (setAppearance K radio ((w1.gap.deviceAppearance.getD 1 0 <<< 8) |||
    w1.gap.deviceAppearance.getD 0 0) w1).2
  (payloadUnits advData.getPayloadLen advData.payload).foldl (setAdvertisingData_unit K radio) w2

/-- The end of `setAdvertisingData` (source lines 145-148): cache both payloads. -/
def setAdvertisingData_cache (advData scanResponse : GapAdvertisingData) (w : World) :
    ble_error_t × World :=
  (.BLE_ERROR_NONE, { w with gap := { w.gap with _advData := advData,
                                                  _scanResponse := scanResponse } })

/-- The part of `setAdvertisingData` from the live update on (source lines 124-148). -/
def setAdvertisingData_update (K : Header) (radio : Radio)
    (advData scanResponse : GapAdvertisingData) (w : World) : ble_error_t × World :=
  -- update the advertising data in the shield if advertising is running
  if w.gap.state.advertising then
    let r := issue radio (.hci_le_set_scan_response_data scanResponse.getPayloadLen
      scanResponse.payload) w
    if BLE_STATUS_SUCCESS ≠ r.1 then
      if r.1 = K.BLE_STATUS_TIMEOUT then (.BLE_STACK_BUSY, r.2)
      else (.BLE_ERROR_UNSPECIFIED, r.2)
    else
      let r2 := issue radio (.hci_le_set_advertising_data advData.getPayloadLen
        advData.payload) r.2
      if r2.1 ≠ 0 then (.BLE_ERROR_UNSPECIFIED, r2.2)
      else setAdvertisingData_cache advData scanResponse r2.2
  else setAdvertisingData_cache advData scanResponse w

/-- The member function `BlueNRG1Gap::setAdvertisingData`. -/
def setAdvertisingData (K : Header) (radio : Radio)
    (advData scanResponse : GapAdvertisingData) (w : World) : ble_error_t × World :=
  -- Make sure we don't exceed the advertising payload length
  if advData.getPayloadLen > K.GAP_ADVERTISING_DATA_MAX_PAYLOAD then
    (.BLE_ERROR_BUFFER_OVERFLOW, w)
  -- Make sure we have a payload!
  else if advData.getPayloadLen ≠ 0 then
    setAdvertisingData_update K radio advData scanResponse
      (setAdvertisingData_elements K radio advData w)
  else setAdvertisingData_update K radio advData scanResponse w

/-- The member function `BlueNRG1Gap::setAdvertisingPolicyMode`. -/
def setAdvertisingPolicyMode (mode : AdvertisingPolicyMode_t) (w : World) :
    ble_error_t × World :=
  (.BLE_ERROR_NONE, { w with gap := { w.gap with advertisingPolicyMode := mode } })

/-- The member function `BlueNRG1Gap::setScanningPolicyMode`. -/
def setScanningPolicyMode (mode : ScanningPolicyMode_t) (w : World) : ble_error_t × World :=
  (.BLE_ERROR_NONE, { w with gap := { w.gap with scanningPolicyMode := mode } })

/-- The member function `BlueNRG1Gap::getAdvertisingPolicyMode`. -/
def getAdvertisingPolicyMode (w : World) : AdvertisingPolicyMode_t := w.gap.advertisingPolicyMode

/-- The member function `BlueNRG1Gap::getScanningPolicyMode`. -/
def getScanningPolicyMode (w : World) : ScanningPolicyMode_t := w.gap.scanningPolicyMode

/-- Modelled from the spec: `Gap::reset` of the absent base class.  By the comment at its call
it clears "all state that is from the parent", of which the controller carries the GAP state
record (the flags `advertising` and `connected`), and it reports success. -/
def Gap_reset (w : World) : ble_error_t × World :=
  (.BLE_ERROR_NONE, { w with gap := { w.gap with state := ⟨false, false⟩ } })

/-- The member function `BlueNRG1Gap::reset`; `parent` is the reset of the base class. -/
def reset (K : Header) (parent : World → ble_error_t × World) (w : World) :
    ble_error_t × World :=
  -- Clear all state that is from the parent, including private members
  let r := parent w
  if r.1 ≠ .BLE_ERROR_NONE then (.BLE_ERROR_INVALID_STATE, r.2)
  else
    (.BLE_ERROR_NONE, { r.2 with gap := { r.2.gap with
      AdvToFlag := false
      ScanToFlag := false
      -- Clear derived class members
      m_connectionHandle := K.BLE_CONN_HANDLE_INVALID
      -- Set the whitelist policy filter modes to IGNORE_WHITELIST
      advertisingPolicyMode := .ADV_POLICY_IGNORE_WHITELIST
      scanningPolicyMode := .SCAN_POLICY_IGNORE_WHITELIST } })

/-- The value object `Gap::ConnectionParams_t`. -/
structure ConnectionParams_t where
  minConnectionInterval : Nat
  maxConnectionInterval : Nat
  slaveLatency : Nat
  connectionSupervisionTimeout : Nat
  deriving DecidableEq, Repr

/-- The member function `BlueNRG1Gap::getPreferredConnectionParams`: its body is one `PRINTF`
and it ends without a `return` statement, so no `ble_error_t` value is returned (`none`). -/
def getPreferredConnectionParams (_params : Option ConnectionParams_t) (w : World) :
    Option ble_error_t × World :=
  (none, w)

/-- The member function `BlueNRG1Gap::setPreferredConnectionParams`: one `PRINTF` and no
`return` statement. -/
def setPreferredConnectionParams (_params : Option ConnectionParams_t) (w : World) :
    Option ble_error_t × World :=
  (none, w)

/-- The member function `BlueNRG1Gap::updateConnectionParams`: one `PRINTF` and no `return`
statement. -/
def updateConnectionParams (_handle : Nat) (_params : Option ConnectionParams_t) (w : World) :
    Option ble_error_t × World :=
  (none, w)

/-- The member function `BlueNRG1Gap::setDeviceName`: one `PRINTF` and no `return`
statement. -/
def setDeviceName (_deviceName : Option (List Nat)) (w : World) : Option ble_error_t × World :=
  (none, w)

/-- The member function `BlueNRG1Gap::getDeviceName`: one `PRINTF` and no `return` statement;
the storage behind the two pointers is not written. -/
def getDeviceName (_deviceName : Option (List Nat)) (_lengthP : Option Nat) (w : World) :
    Option ble_error_t × World :=
  (none, w)

/-- The member function `BlueNRG1Gap::getAppearance`: one `PRINTF` and no `return` statement;
the storage behind the pointer is not written. -/
def getAppearance (_appearanceP : Option Nat) (w : World) : Option ble_error_t × World :=
  (none, w)

/-- The member function `BlueNRG1Gap::setTxPower`: one `PRINTF` and no `return` statement. -/
def setTxPower (_txPower : Int) (w : World) : Option ble_error_t × World :=
  (none, w)

/-- The commands that a call of `startAdvertising` issues when it passes the parameter checks
and no command fails, in order, read off the controller `g` the call starts from: the
whitelist configuration (unless the policy is to ignore the whitelist), the scan response
data, the advertising data, the advertising parameters and the enable command. -/
def startAdvertising_commands (K : Header) (params : GapAdvertisingParams) (g : BlueNRG1Gap) :
    List Cmd :=
  (if g.advertisingPolicyMode ≠ .ADV_POLICY_IGNORE_WHITELIST then
      [Cmd.aci_gap_configure_whitelist] else []) ++
    [ (if params.advertisingType = .ADV_CONNECTABLE_UNDIRECTED ∨
          params.advertisingType = .ADV_SCANNABLE_UNDIRECTED then
        Cmd.hci_le_set_scan_response_data g._scanResponse.getPayloadLen g._scanResponse.payload
      else Cmd.hci_le_set_scan_response_data 0 []),
      Cmd.hci_le_set_advertising_data g._advData.getPayloadLen g._advData.payload,
      Cmd.hci_le_set_advertising_parameters
        (advIntervalMin K (setAdvParameters K g).advInterval)
        (advIntervalMax K (setAdvParameters K g).advInterval)
        params.advertisingType g.addr_type 0 [0, 0, 0, 0, 0, 0] 7
        (advFilterPolicy K g.advertisingPolicyMode),
      Cmd.hci_le_set_advertise_enable 1 ]

/-- In the words of the spec: whether a failure of the command aborts `startAdvertising`.
Every command does, except the scan response data of a type that permits no scan response
(only for connectable-undirected and scannable-undirected is its status looked at). -/
def startAdvertising_spec_checked (params : GapAdvertisingParams) : Cmd → Bool
  | .hci_le_set_scan_response_data _ _ =>
    decide (params.advertisingType = .ADV_CONNECTABLE_UNDIRECTED ∨
      params.advertisingType = .ADV_SCANNABLE_UNDIRECTED)
  | _ => true

/-- In the words of the spec: the error that `startAdvertising` returns when the command
fails with status `s`. -/
def startAdvertising_spec_error (K : Header) : Cmd → Nat → ble_error_t
  | .aci_gap_configure_whitelist, _ => .BLE_ERROR_OPERATION_NOT_PERMITTED
  | .hci_le_set_scan_response_data _ _, s =>
    if s = K.BLE_STATUS_TIMEOUT then .BLE_STACK_BUSY else .BLE_ERROR_UNSPECIFIED
  | .hci_le_set_advertising_data _ _, _ => .BLE_ERROR_UNSPECIFIED
  | .hci_le_set_advertising_parameters _ _ _ _ _ _ _ _, _ => .BLE_ERROR_INVALID_PARAM
  | .hci_le_set_advertise_enable _, _ => .BLE_ERROR_UNSPECIFIED
  | _, _ => .BLE_ERROR_UNSPECIFIED

/-- In the words of the spec: the commands are issued in order up to the first one whose
failure aborts the call; the result is the error of that command, or `BLE_ERROR_NONE` when
there is none, with the log of the commands issued, in which no later command appears. -/
def startAdvertising_spec_run (K : Header) (radio : Radio) (params : GapAdvertisingParams) :
    List Cmd → List Cmd → ble_error_t × List Cmd
  | log, [] => (.BLE_ERROR_NONE, log)
  | log, c :: cs =>
    if startAdvertising_spec_checked params c = true ∧ radio log c ≠ BLE_STATUS_SUCCESS then
      (startAdvertising_spec_error K c (radio log c), log ++ [c])
    else startAdvertising_spec_run K radio params (log ++ [c]) cs

/-- The number of disable-advertising commands (`hci_le_set_advertise_enable(0)`) in a log. -/
def disableCount (l : List Cmd) : Nat := l.count (.hci_le_set_advertise_enable 0)

/-- A radio on which every command succeeds. -/
def radioOk : Radio := fun _ _ => BLE_STATUS_SUCCESS

/-- A radio on which every command fails with status `s`. -/
def radioFail (s : Nat) : Radio := fun _ _ => s

/-- A radio on which the `n`-th command of the log (counted from 0) fails with status `s` and
every other command succeeds. -/
def radioFailAt (n s : Nat) : Radio := fun l _ => if l.length = n then s else BLE_STATUS_SUCCESS

/-- A header instance with the usual values of the constants, for concrete evaluation. -/
def sampleHeader : Header where
  GAP_ADV_PARAMS_INTERVAL_MIN := 0x0020
  GAP_ADV_PARAMS_INTERVAL_MIN_NONCON := 0x00A0
  GAP_ADV_PARAMS_INTERVAL_MAX := 0x4000
  GAP_ADV_PARAMS_TIMEOUT_MAX := 0x3FFF
  GAP_ADVERTISING_DATA_MAX_PAYLOAD := 31
  BLE_STATUS_TIMEOUT := 0xFF
  BLE_STATUS_INVALID_CID := 0x50
  ERR_COMMAND_DISALLOWED := 0x0C
  NO_WHITE_LIST_USE := 0
  WHITE_LIST_FOR_ONLY_SCAN := 1
  WHITE_LIST_FOR_ONLY_CONN := 2
  WHITE_LIST_FOR_ALL := 3
  RESOLVABLE_PRIVATE_ADDR := 2
  NON_RESOLVABLE_PRIVATE_ADDR := 3
  ADV_IND := 0
  ADV_DIRECT_IND := 1
  ADV_SCAN_IND := 2
  SCAN_RSP := 4
  ADV_NONCONN_IND := 3
  GAP_OBSERVATION_PROC := 0x80
  GUARD_INT := 5
  SUPERV_TIMEOUT := 60
  CONN_L1 := 2
  BLE_CONN_HANDLE_INVALID := 0xFFFF
  CONFIG_DATA_PUBADDR_OFFSET := 0
  CONFIG_DATA_PUBADDR_LEN := 6
  BLE_STATUS_INVALID_HANDLE := 0x60
  BLE_STATUS_INVALID_PARAMETER := 0x61
  BLE_STATUS_INSUFFICIENT_RESOURCES := 0x64
  TX_POWER_LEVEL := 0x0A
  APPEARANCE := 0x19
  g_gap_service_handle := 5
  g_appearance_char_handle := 8
  getHighPowerAndPALevelValue := fun dbm => if dbm ≤ 8 then (0, 1, 7) else (0x42, 0, 0)

/-- A controller at rest: no role active, no timer attached, public address, empty payloads. -/
def idleGap : BlueNRG1Gap where
  state := ⟨false, false⟩
  _scanning := false
  _connecting := false
  AdvToFlag := false
  ScanToFlag := false
  advertisingPolicyMode := .ADV_POLICY_IGNORE_WHITELIST
  scanningPolicyMode := .SCAN_POLICY_IGNORE_WHITELIST
  whitelistSize := 0
  addr_type := 0
  bdaddr := [0, 0, 0, 0, 0, 0]
  isSetAddress := false
  _advData := ⟨[], 0⟩
  _scanResponse := ⟨[], 0⟩
  _advParams := ⟨.ADV_CONNECTABLE_UNDIRECTED, 160, 5⟩
  _scanningParams := ⟨16, 16, 0, false⟩
  advInterval := 0
  scanInterval := 0
  scanWindow := 0
  conn_min_interval := 0
  conn_max_interval := 0
  _peerAddr := [0, 0, 0, 0, 0, 0]
  _peerAddrType := 0
  m_connectionHandle := 0xFFFF
  gapRole := 0
  deviceAppearance := [0, 0]
  advTimeout := none
  scanTimeout := none

/-- The idle controller with nothing issued, reported, signalled or waited for yet. -/
def idleWorld : World := ⟨idleGap, [], [], 0, []⟩

/-- The idle world with the scanning flag set. -/
def scanningWorld : World := { idleWorld with gap := { idleGap with _scanning := true } }

/-- The idle world with the advertising flag set. -/
def advertisingWorld : World :=
  { idleWorld with gap := { idleGap with state := ⟨true, false⟩ } }

/-- The idle world with the scanning policy mode filter-all-advertisements. -/
def filterAllWorld : World :=
  { idleWorld with gap := { idleGap with scanningPolicyMode := .SCAN_POLICY_FILTER_ALL_ADV } }

/-- The parameters connectable-undirected, interval 100 ms (160 units), timeout 5 s. -/
def sampleAdvParams : GapAdvertisingParams := ⟨.ADV_CONNECTABLE_UNDIRECTED, 160, 5⟩

/-- A peer address of six bytes. -/
def samplePeer : List Nat := [0x11, 0x22, 0x33, 0x44, 0x55, 0x66]

/-- A well-formed random static address: the two top bits of the last byte are set. -/
def sampleStatic : List Nat := [1, 2, 3, 4, 5, 0xC6]

/-- A payload of three elements: flags, TX power level 4 dBm, appearance 0x0340. -/
def samplePayload : GapAdvertisingData := ⟨[2, 1, 6, 2, 0x0A, 4, 3, 0x19, 0x40, 0x03], 0x0340⟩

/-- A scan response payload with one element, a shortened local name. -/
def sampleScanResponse : GapAdvertisingData := ⟨[3, 8, 0x48, 0x52], 0⟩

/-- A payload of 32 bytes, one more than the maximum of the sample header. -/
def oversizePayload : GapAdvertisingData := ⟨31 :: 0xFF :: List.replicate 30 0, 0⟩

/-- A payload of exactly 31 bytes. -/
def fullPayload : GapAdvertisingData := ⟨30 :: 0xFF :: List.replicate 29 0, 0⟩

/-- A radio configuration store answering every read with six bytes. -/
def sampleConfigData : ConfigData := fun _ => (6, [0xA1, 0xA2, 0xA3, 0xA4, 0xA5, 0xA6])

/-- The idle world with the advertising policy mode filter-all-requests. -/
def filterReqsWorld : World :=
  { idleWorld with gap := { idleGap with advertisingPolicyMode := .ADV_POLICY_FILTER_ALL_REQS } }

/-- A connected controller with minimum connection interval 80 (100 ms). -/
def connectedWorld : World :=
  { idleWorld with gap := { idleGap with state := ⟨false, true⟩, conn_min_interval := 80,
                                          conn_max_interval := 80, m_connectionHandle := 1 } }

/-- A controller in the middle of everything: advertising, connected, scanning and connecting,
both timeout flags raised, connection handle 1, both policies filtering, one whitelist
entry. -/
def busyWorld : World :=
  { idleWorld with gap := { idleGap with
      state := ⟨true, true⟩
      _scanning := true
      _connecting := true
      AdvToFlag := true
      ScanToFlag := true
      m_connectionHandle := 1
      whitelistSize := 1
      advertisingPolicyMode := .ADV_POLICY_FILTER_ALL_REQS
      scanningPolicyMode := .SCAN_POLICY_FILTER_ALL_ADV } }

/-- One step of a trace of the controller: a call of a member function, a radio event
delivered to `Discovery_CB`, or the firing of a timer. -/
inductive GapCall where
  | stopScan
  | stopAdvertising
  | disconnect (connectionHandle reason : Nat)
  | Process
  | reset
  | setAdvertisingPolicyMode (mode : AdvertisingPolicyMode_t)
  | setScanningPolicyMode (mode : ScanningPolicyMode_t)
  | deviceFound (adv_type addr_type : Nat) (addr : List Nat) (data_length : Nat)
      (data : List Nat) (RSSI : Int)
  | discoveryComplete
  | createConnection
  | connect (peerAddr : List Nat) (peerAddrType : Nat) (scanParams : GapScanningParams)
  | startRadioScan (scanningParams : GapScanningParams)
  | advTimeoutCB
  | scanTimeoutCB
  deriving DecidableEq, Repr

/-- The world after one step of a trace; the result of a call is dropped.  `parent` is the
reset of the base class. -/
def applyCall (K : Header) (radio : Radio) (parent : World → ble_error_t × World)
    (c : GapCall) (w : World) : World :=
  match c with
  | .stopScan => (stopScan K radio w).2
  | .stopAdvertising => (stopAdvertising radio w).2
  | .disconnect connectionHandle reason => (disconnect K radio connectionHandle reason w).2
  | .Process => Process K radio w
  | .reset => (reset K parent w).2
  | .setAdvertisingPolicyMode mode => (setAdvertisingPolicyMode mode w).2
  | .setScanningPolicyMode mode => (setScanningPolicyMode mode w).2
  | .deviceFound adv_type addr_type addr data_length data RSSI =>
    Discovery_CB K radio .DEVICE_FOUND adv_type addr_type addr data_length data RSSI w
  | .discoveryComplete => Discovery_CB K radio .DISCOVERY_COMPLETE 0 0 [] 0 [] 0 w
  | .createConnection => (createConnection K radio w).2
  | .connect peerAddr peerAddrType scanParams =>
    (connect K radio peerAddr peerAddrType scanParams w).2
  | .startRadioScan scanningParams => (startRadioScan K radio scanningParams w).2
  | .advTimeoutCB => advTimeoutCB w
  | .scanTimeoutCB => scanTimeoutCB w

/-- The world after the steps of a trace, in order. -/
def runCalls (K : Header) (radio : Radio) (parent : World → ble_error_t × World)
    (calls : List GapCall) (w : World) : World :=
  calls.foldl (fun v c => applyCall K radio parent c v) w

/-- A radio on which the command `c` fails with status `s` whenever it is issued and every
other command succeeds. -/
def radioFailOn (c : Cmd) (s : Nat) : Radio :=
  fun _ c2 => if c2 = c then s else BLE_STATUS_SUCCESS

/-- The parameters non-connectable-undirected, interval 100 ms (160 units), no timeout. -/
def sampleNonConnParams : GapAdvertisingParams := ⟨.ADV_NON_CONNECTABLE_UNDIRECTED, 0xA0, 0⟩

/-- The idle world with a connection attempt pending: the connecting flag is set. -/
def connectingWorld : World := { idleWorld with gap := { idleGap with _connecting := true } }

/-- A controller that advertises and scans, with both timers fired: both timeout flags set. -/
def timedOutWorld : World :=
  { idleWorld with gap := { idleGap with
      state := ⟨true, false⟩
      _scanning := true
      AdvToFlag := true
      ScanToFlag := true } }

/-- The idle world with the random static address of the sample selected. -/
def staticWorld : World :=
  { idleWorld with gap := { idleGap with
      addr_type := AddressType.RANDOM_STATIC
      bdaddr := sampleStatic
      isSetAddress := true } }

/-- The parameters connectable-undirected with the interval at the ceiling 0x4000 of the
sample header, timeout 5 s. -/
def ceilingAdvParams : GapAdvertisingParams := ⟨.ADV_CONNECTABLE_UNDIRECTED, 0x4000, 5⟩

/-- The idle world whose stored advertising parameters are `ceilingAdvParams`. -/
def ceilingWorld : World :=
  { idleWorld with gap := { idleGap with _advParams := ceilingAdvParams } }

/-! ## Advertising lifecycle -/

/-- The enable step leaves the GAP state record alone. -/
theorem startAdvertising_enable_state (radio : Radio) (params : GapAdvertisingParams)
    (w : World) : (startAdvertising_enable radio params w).2.gap.state = w.gap.state := by
  unfold startAdvertising_enable
  simp only [issue]
  split_ifs <;> rfl

/-- The steps from the advertising parameters on leave the GAP state record alone. -/
theorem startAdvertising_parameters_state (K : Header) (radio : Radio)
    (params : GapAdvertisingParams) (f : Nat) (w : World) :
    (startAdvertising_parameters K radio params f w).2.gap.state = w.gap.state := by
  simp only [startAdvertising_parameters, issue]
  split_ifs
  · rfl
  · rw [startAdvertising_enable_state]

/-- The steps from `setAdvParameters` on leave the GAP state record alone. -/
theorem startAdvertising_data_state (K : Header) (radio : Radio)
    (params : GapAdvertisingParams) (f : Nat) (w : World) :
    (startAdvertising_data K radio params f w).2.gap.state = w.gap.state := by
  have hs : (setAdvParameters K w.gap).state = w.gap.state := by
    unfold setAdvParameters; split_ifs <;> rfl
  simp only [startAdvertising_data, issue]
  split_ifs
  · exact hs
  · rw [startAdvertising_parameters_state]; exact hs

/-- The steps from the scan response on leave the GAP state record alone. -/
theorem startAdvertising_scanResponse_state (K : Header) (radio : Radio)
    (params : GapAdvertisingParams) (f : Nat) (w : World) :
    (startAdvertising_scanResponse K radio params f w).2.gap.state = w.gap.state := by
  simp only [startAdvertising_scanResponse, issue]
  split_ifs
  · rfl
  · rfl
  · rw [startAdvertising_data_state]
  · rw [startAdvertising_data_state]

/-- The steps after the parameter checks leave the GAP state record alone. -/
theorem startAdvertising_policy_state (K : Header) (radio : Radio)
    (params : GapAdvertisingParams) (w : World) :
    (startAdvertising_policy K radio params w).2.gap.state = w.gap.state := by
  simp only [startAdvertising_policy, issue]
  split_ifs
  · rfl
  · rw [startAdvertising_scanResponse_state]
  · rw [startAdvertising_scanResponse_state]

/-- On a radio that always succeeds the steps after the parameter checks return
`BLE_ERROR_NONE`. -/
theorem startAdvertising_policy_ok (K : Header) (radio : Radio)
    (params : GapAdvertisingParams) (w : World) (hok : ∀ l c, radio l c = BLE_STATUS_SUCCESS) :
    (startAdvertising_policy K radio params w).1 = .BLE_ERROR_NONE := by
  have h0 : ∀ l c, radio l c = 0 := hok
  simp only [startAdvertising_policy, startAdvertising_scanResponse, startAdvertising_data,
    startAdvertising_parameters, startAdvertising_enable, issue, h0, BLE_STATUS_SUCCESS]
  split_ifs <;> simp_all

/-- The GAP state record is the same after `startAdvertising` as before it, whatever the
outcome: the function writes `advInterval` and `advTimeout` only. -/
theorem startAdvertising_state (K : Header) (radio : Radio) (params : GapAdvertisingParams)
    (w : World) : (startAdvertising K radio params w).2.gap.state = w.gap.state := by
  unfold startAdvertising
  split_ifs
  any_goals rfl
  exact startAdvertising_policy_state K radio params w

/-- C1: for every advertising type other than connectable-directed, an interval below the
minimum of the type or above the maximum, or a timeout above the maximum, makes
`startAdvertising` return `BLE_ERROR_PARAM_OUT_OF_RANGE` with the world (command log, timers,
controller) unchanged; with interval and timeout within the bounds and every radio command
succeeding it returns `BLE_ERROR_NONE`. -/
theorem startAdvertising_range_check (K : Header) (radio : Radio)
    (params : GapAdvertisingParams) (w : World)
    (hty : params.advertisingType ≠ .ADV_CONNECTABLE_DIRECTED) :
    ((params.intervalInADVUnits <
          (if params.advertisingType = .ADV_NON_CONNECTABLE_UNDIRECTED then
            K.GAP_ADV_PARAMS_INTERVAL_MIN_NONCON else K.GAP_ADV_PARAMS_INTERVAL_MIN) ∨
        params.intervalInADVUnits > K.GAP_ADV_PARAMS_INTERVAL_MAX ∨
        params.timeout > K.GAP_ADV_PARAMS_TIMEOUT_MAX) →
      startAdvertising K radio params w = (.BLE_ERROR_PARAM_OUT_OF_RANGE, w)) ∧
    (¬ (params.intervalInADVUnits <
          (if params.advertisingType = .ADV_NON_CONNECTABLE_UNDIRECTED then
            K.GAP_ADV_PARAMS_INTERVAL_MIN_NONCON else K.GAP_ADV_PARAMS_INTERVAL_MIN) ∨
        params.intervalInADVUnits > K.GAP_ADV_PARAMS_INTERVAL_MAX ∨
        params.timeout > K.GAP_ADV_PARAMS_TIMEOUT_MAX) →
      (∀ l c, radio l c = BLE_STATUS_SUCCESS) →
      (startAdvertising K radio params w).1 = .BLE_ERROR_NONE) := by
  constructor
  · intro h
    unfold startAdvertising
    rw [if_neg hty]
    by_cases hr : intervalOutOfRange K params = true
    · rw [if_pos hr]
    · rw [if_neg hr, if_neg (fun hc => hty hc.1)]
      have ht : params.timeout > K.GAP_ADV_PARAMS_TIMEOUT_MAX := by
        rcases h with h | h | h
        · exfalso; apply hr
          unfold intervalOutOfRange
          split <;> simp_all
        · exfalso; apply hr
          unfold intervalOutOfRange
          split <;> simp_all
        · exact h
      rw [if_pos ⟨hty, ht⟩]
  · intro h hok
    have hr : ¬ intervalOutOfRange K params = true := by
      unfold intervalOutOfRange
      split <;> simp_all
    have ht : ¬ (params.advertisingType ≠ .ADV_CONNECTABLE_DIRECTED ∧
        params.timeout > K.GAP_ADV_PARAMS_TIMEOUT_MAX) := by
      intro hc; exact h (Or.inr (Or.inr hc.2))
    unfold startAdvertising
    rw [if_neg hty, if_neg hr, if_neg (fun hc => hty hc.1), if_neg ht]
    exact startAdvertising_policy_ok K radio params w hok

/-- Witness of C1: a non-connectable advertisement with interval 0x20 (below 0xA0) is rejected
and the world is untouched; the sample parameters are accepted on a radio that succeeds. -/
theorem startAdvertising_range_check_witness :
    startAdvertising sampleHeader radioOk ⟨.ADV_NON_CONNECTABLE_UNDIRECTED, 0x20, 0⟩ idleWorld
        = (.BLE_ERROR_PARAM_OUT_OF_RANGE, idleWorld) ∧
      (startAdvertising sampleHeader radioOk sampleAdvParams idleWorld).1 = .BLE_ERROR_NONE :=
  ⟨(startAdvertising_range_check sampleHeader radioOk
      ⟨.ADV_NON_CONNECTABLE_UNDIRECTED, 0x20, 0⟩ idleWorld (by decide)).1 (by decide),
   (startAdvertising_range_check sampleHeader radioOk sampleAdvParams idleWorld
      (by decide)).2 (by decide) (fun _ _ => rfl)⟩

/-- C2: with the advertising type connectable-directed, `startAdvertising` returns
`BLE_ERROR_NOT_IMPLEMENTED` for every controller, interval and timeout, and the world
(command log, timers, controller) is unchanged. -/
theorem startAdvertising_directed (K : Header) (radio : Radio) (interval timeout : Nat)
    (w : World) :
    startAdvertising K radio ⟨.ADV_CONNECTABLE_DIRECTED, interval, timeout⟩ w
      = (.BLE_ERROR_NOT_IMPLEMENTED, w) := by
  simp [startAdvertising]

/-- Counterexample to C3: on the idle controller the sample call returns `BLE_ERROR_NONE`
(the enable command was issued and succeeded) and the advertising flag is still false. -/
theorem startAdvertising_flag_not_set :
    (startAdvertising sampleHeader radioOk sampleAdvParams idleWorld).1 = .BLE_ERROR_NONE ∧
      (startAdvertising sampleHeader radioOk sampleAdvParams idleWorld).2.issued.getLast?
        = some (.hci_le_set_advertise_enable 1) ∧
      (startAdvertising sampleHeader radioOk sampleAdvParams idleWorld).2.gap.state.advertising
        = false := by
  decide

/-- C3 (amended): `startAdvertising` does not write the advertising flag: after every call,
in particular one that returns `BLE_ERROR_NONE`, the flag has the value it had before. -/
theorem startAdvertising_flag_unchanged (K : Header) (radio : Radio)
    (params : GapAdvertisingParams) (w : World) :
    (startAdvertising K radio params w).2.gap.state.advertising = w.gap.state.advertising := by
  rw [startAdvertising_state]

/-- Counterexample to C4: with the scanning flag set and a radio that succeeds, the first
`stopScan` returns `BLE_ERROR_NONE`, and a second `stopScan` right after it is not a no-op:
it issues the terminate command again. -/
theorem stopScan_second_stop_reissues :
    (stopScan sampleHeader radioOk scanningWorld).1 = .BLE_ERROR_NONE ∧
      (stopScan sampleHeader radioOk (stopScan sampleHeader radioOk scanningWorld).2).2.issued
        = (stopScan sampleHeader radioOk scanningWorld).2.issued ++
            [.aci_gap_terminate_gap_proc sampleHeader.GAP_OBSERVATION_PROC] ∧
      stopScan sampleHeader radioOk (stopScan sampleHeader radioOk scanningWorld).2
        ≠ (.BLE_ERROR_NONE, (stopScan sampleHeader radioOk scanningWorld).2) := by
  decide

/-- C4 (amended): `stopAdvertising` with the advertising flag false and `stopScan` with the
scanning flag false return `BLE_ERROR_NONE` and leave the world (command log, controller)
unchanged; a second `stopAdvertising` after a `stopAdvertising` that returned
`BLE_ERROR_NONE` is such a no-op. -/
theorem stop_inactive_noop (K : Header) (radio : Radio) (w : World) :
    (w.gap.state.advertising = false → stopAdvertising radio w = (.BLE_ERROR_NONE, w)) ∧
    (w.gap._scanning = false → stopScan K radio w = (.BLE_ERROR_NONE, w)) ∧
    ((stopAdvertising radio w).1 = .BLE_ERROR_NONE →
      stopAdvertising radio (stopAdvertising radio w).2
        = (.BLE_ERROR_NONE, (stopAdvertising radio w).2)) := by
  refine ⟨?_, ?_, ?_⟩
  · intro h
    simp [stopAdvertising, h]
  · intro h
    simp [stopScan, h]
  · intro h
    have hflag : (stopAdvertising radio w).2.gap.state.advertising = false := by
      revert h
      simp only [stopAdvertising, issue]
      split_ifs <;> simp_all
    generalize stopAdvertising radio w = r at hflag
    simp [stopAdvertising, hflag]

/-- Witness of C4 (amended): the idle world for the two inactive stops, the advertising world
on a radio that succeeds for the second stop. -/
theorem stop_inactive_noop_witness :
    stopAdvertising radioOk idleWorld = (.BLE_ERROR_NONE, idleWorld) ∧
      stopScan sampleHeader radioOk idleWorld = (.BLE_ERROR_NONE, idleWorld) ∧
      stopAdvertising radioOk (stopAdvertising radioOk advertisingWorld).2
        = (.BLE_ERROR_NONE, (stopAdvertising radioOk advertisingWorld).2) :=
  ⟨(stop_inactive_noop sampleHeader radioOk idleWorld).1 (by decide),
   (stop_inactive_noop sampleHeader radioOk idleWorld).2.1 (by decide),
   (stop_inactive_noop sampleHeader radioOk advertisingWorld).2.2 (by decide)⟩

/-- C5: `stopAdvertising` with the advertising flag true issues exactly one command, the
disable-advertising command; when it succeeds the result is `BLE_ERROR_NONE` and the flag is
false, when it fails the result is `BLE_ERROR_OPERATION_NOT_PERMITTED` and the flag is still
true. -/
theorem stopAdvertising_active (radio : Radio) (w : World)
    (h : w.gap.state.advertising = true) :
    (stopAdvertising radio w).2.issued = w.issued ++ [.hci_le_set_advertise_enable 0] ∧
    (radio w.issued (.hci_le_set_advertise_enable 0) = BLE_STATUS_SUCCESS →
      (stopAdvertising radio w).1 = .BLE_ERROR_NONE ∧
      (stopAdvertising radio w).2.gap.state.advertising = false) ∧
    (radio w.issued (.hci_le_set_advertise_enable 0) ≠ BLE_STATUS_SUCCESS →
      (stopAdvertising radio w).1 = .BLE_ERROR_OPERATION_NOT_PERMITTED ∧
      (stopAdvertising radio w).2.gap.state.advertising = true) := by
  simp only [stopAdvertising, issue, h, BLE_STATUS_SUCCESS]
  refine ⟨?_, ?_, ?_⟩
  · split_ifs <;> rfl
  · intro hs
    simp [hs]
  · intro hs
    simp [hs, h]

/-- Witness of C5: the advertising world, on a radio that succeeds and on one that fails. -/
theorem stopAdvertising_active_witness :
    ((stopAdvertising radioOk advertisingWorld).2.issued = [.hci_le_set_advertise_enable 0] ∧
      (stopAdvertising radioOk advertisingWorld).1 = .BLE_ERROR_NONE ∧
      (stopAdvertising radioOk advertisingWorld).2.gap.state.advertising = false) ∧
    ((stopAdvertising (radioFail 1) advertisingWorld).1 = .BLE_ERROR_OPERATION_NOT_PERMITTED ∧
      (stopAdvertising (radioFail 1) advertisingWorld).2.gap.state.advertising = true) :=
  ⟨⟨(stopAdvertising_active radioOk advertisingWorld (by decide)).1,
    (stopAdvertising_active radioOk advertisingWorld (by decide)).2.1 (by decide)⟩,
   (stopAdvertising_active (radioFail 1) advertisingWorld (by decide)).2.2 (by decide)⟩

/-- Appending a command other than the disable-advertising command keeps `disableCount`. -/
theorem disableCount_append_other (l : List Cmd) (c : Cmd)
    (hc : c ≠ .hci_le_set_advertise_enable 0) : disableCount (l ++ [c]) = disableCount l := by
  unfold disableCount
  rw [List.count_append, List.count_singleton]
  have : ¬ (c == Cmd.hci_le_set_advertise_enable 0) = true := by simpa using hc
  simp [this]

/-- The enable step issues no disable-advertising command. -/
theorem startAdvertising_enable_disableCount (radio : Radio) (params : GapAdvertisingParams)
    (w : World) :
    disableCount (startAdvertising_enable radio params w).2.issued = disableCount w.issued := by
  simp only [startAdvertising_enable, issue]
  split_ifs <;> exact disableCount_append_other _ _ (by simp)

/-- The steps from the advertising parameters on issue no disable-advertising command. -/
theorem startAdvertising_parameters_disableCount (K : Header) (radio : Radio)
    (params : GapAdvertisingParams) (f : Nat) (w : World) :
    disableCount (startAdvertising_parameters K radio params f w).2.issued
      = disableCount w.issued := by
  simp only [startAdvertising_parameters, issue]
  split_ifs
  · exact disableCount_append_other _ _ (by simp)
  · rw [startAdvertising_enable_disableCount]
    exact disableCount_append_other _ _ (by simp)

/-- The steps from `setAdvParameters` on issue no disable-advertising command. -/
theorem startAdvertising_data_disableCount (K : Header) (radio : Radio)
    (params : GapAdvertisingParams) (f : Nat) (w : World) :
    disableCount (startAdvertising_data K radio params f w).2.issued
      = disableCount w.issued := by
  simp only [startAdvertising_data, issue]
  split_ifs
  · exact disableCount_append_other _ _ (by simp)
  · rw [startAdvertising_parameters_disableCount]
    exact disableCount_append_other _ _ (by simp)

/-- The steps from the scan response on issue no disable-advertising command. -/
theorem startAdvertising_scanResponse_disableCount (K : Header) (radio : Radio)
    (params : GapAdvertisingParams) (f : Nat) (w : World) :
    disableCount (startAdvertising_scanResponse K radio params f w).2.issued
      = disableCount w.issued := by
  simp only [startAdvertising_scanResponse, issue]
  split_ifs
  · exact disableCount_append_other _ _ (by simp)
  · exact disableCount_append_other _ _ (by simp)
  · rw [startAdvertising_data_disableCount]
    exact disableCount_append_other _ _ (by simp)
  · rw [startAdvertising_data_disableCount]
    exact disableCount_append_other _ _ (by simp)

/-- A call of `startAdvertising` issues no disable-advertising command. -/
theorem startAdvertising_disableCount (K : Header) (radio : Radio)
    (params : GapAdvertisingParams) (w : World) :
    disableCount (startAdvertising K radio params w).2.issued = disableCount w.issued := by
  unfold startAdvertising
  split_ifs
  any_goals rfl
  simp only [startAdvertising_policy, issue]
  split_ifs
  · exact disableCount_append_other _ _ (by simp)
  · rw [startAdvertising_scanResponse_disableCount]
    exact disableCount_append_other _ _ (by simp)
  · rw [startAdvertising_scanResponse_disableCount]

/-- A call of `stopScan` issues no disable-advertising command and keeps the GAP state
record. -/
theorem stopScan_disableCount_state (K : Header) (radio : Radio) (w : World) :
    disableCount (stopScan K radio w).2.issued = disableCount w.issued ∧
      (stopScan K radio w).2.gap.state = w.gap.state := by
  simp only [stopScan, issue]
  split_ifs
  · exact ⟨disableCount_append_other _ _ (by simp), rfl⟩
  · exact ⟨disableCount_append_other _ _ (by simp), rfl⟩
  · exact ⟨rfl, rfl⟩

/-- After the advertising timer fired, `Process` changes the advertising flag and the number
of disable-advertising commands exactly as the `stopAdvertising` it calls does. -/
theorem Process_after_advTimeoutCB (K : Header) (radio : Radio) (w : World) :
    (Process K radio (advTimeoutCB w)).gap.state
        = (stopAdvertising radio w).2.gap.state ∧
      disableCount (Process K radio (advTimeoutCB w)).issued
        = disableCount (stopAdvertising radio w).2.issued := by
  have key : ∀ v : World,
      (stopAdvertising radio
          { v with gap := { v.gap with AdvToFlag := false, advTimeout := none },
                   eventsSignalled := v.eventsSignalled + 1 }).2.gap.state
          = (stopAdvertising radio v).2.gap.state ∧
        (stopAdvertising radio
          { v with gap := { v.gap with AdvToFlag := false, advTimeout := none },
                   eventsSignalled := v.eventsSignalled + 1 }).2.issued
          = (stopAdvertising radio v).2.issued := by
    intro v
    simp only [stopAdvertising, issue]
    split_ifs <;> exact ⟨rfl, rfl⟩
  simp only [Process, advTimeoutCB, setAdvToFlag, if_true]
  split_ifs
  · rw [(stopScan_disableCount_state K radio _).1, (stopScan_disableCount_state K radio _).2]
    exact ⟨(key w).1, by rw [(key w).2]⟩
  · exact ⟨(key w).1, by rw [(key w).2]⟩

/-- Counterexample to C6: from the idle controller, the sample `startAdvertising` returns
`BLE_ERROR_NONE`; after the timer callback and one `Process` call the advertising flag is
false, but no disable-advertising command at all has been issued, not exactly one. -/
theorem advertising_timeout_no_disable :
    (startAdvertising sampleHeader radioOk sampleAdvParams idleWorld).1 = .BLE_ERROR_NONE ∧
      (Process sampleHeader radioOk (advTimeoutCB
        (startAdvertising sampleHeader radioOk sampleAdvParams idleWorld).2)).gap.state.advertising
        = false ∧
      disableCount (Process sampleHeader radioOk (advTimeoutCB
        (startAdvertising sampleHeader radioOk sampleAdvParams idleWorld).2)).issued = 0 := by
  decide

/-- C6 (amended): from a controller that is not advertising, `startAdvertising` with type
connectable-undirected, an in-range interval and a non-zero in-range timeout returns
`BLE_ERROR_NONE` on a radio that succeeds.  After the timer callback and one `Process` call
the advertising flag is false and no disable-advertising command has been issued, because
`startAdvertising` does not set the flag.  When the flag is set to true after the start (as
the caller of `startAdvertising` has to do), the timer callback and one `Process` call leave
it false and issue exactly one disable-advertising command. -/
theorem advertising_timeout_end_to_end (K : Header) (radio : Radio) (interval timeout : Nat)
    (w : World) (hok : ∀ l c, radio l c = BLE_STATUS_SUCCESS)
    (hidle : w.gap.state.advertising = false)
    (hlo : K.GAP_ADV_PARAMS_INTERVAL_MIN ≤ interval)
    (hhi : interval ≤ K.GAP_ADV_PARAMS_INTERVAL_MAX)
    (ht0 : timeout ≠ 0) (ht : timeout ≤ K.GAP_ADV_PARAMS_TIMEOUT_MAX) :
    (startAdvertising K radio ⟨.ADV_CONNECTABLE_UNDIRECTED, interval, timeout⟩ w).1
        = .BLE_ERROR_NONE ∧
      (startAdvertising K radio ⟨.ADV_CONNECTABLE_UNDIRECTED, interval, timeout⟩ w).2.gap.advTimeout
        = some timeout ∧
      ((Process K radio (advTimeoutCB
          (startAdvertising K radio ⟨.ADV_CONNECTABLE_UNDIRECTED, interval, timeout⟩ w).2)
          ).gap.state.advertising = false ∧
        disableCount (Process K radio (advTimeoutCB
          (startAdvertising K radio ⟨.ADV_CONNECTABLE_UNDIRECTED, interval, timeout⟩ w).2)
          ).issued = disableCount w.issued) ∧
      ((Process K radio (advTimeoutCB
          { (startAdvertising K radio ⟨.ADV_CONNECTABLE_UNDIRECTED, interval, timeout⟩ w).2 with
            gap := { (startAdvertising K radio
                ⟨.ADV_CONNECTABLE_UNDIRECTED, interval, timeout⟩ w).2.gap with
              state := { (startAdvertising K radio
                  ⟨.ADV_CONNECTABLE_UNDIRECTED, interval, timeout⟩ w).2.gap.state with
                advertising := true } } })).gap.state.advertising = false ∧
        disableCount (Process K radio (advTimeoutCB
          { (startAdvertising K radio ⟨.ADV_CONNECTABLE_UNDIRECTED, interval, timeout⟩ w).2 with
            gap := { (startAdvertising K radio
                ⟨.ADV_CONNECTABLE_UNDIRECTED, interval, timeout⟩ w).2.gap with
              state := { (startAdvertising K radio
                  ⟨.ADV_CONNECTABLE_UNDIRECTED, interval, timeout⟩ w).2.gap.state with
                advertising := true } } })).issued = disableCount w.issued + 1) := by
  have hstart : (startAdvertising K radio ⟨.ADV_CONNECTABLE_UNDIRECTED, interval, timeout⟩ w).1
      = .BLE_ERROR_NONE := by
    have hr : ¬ intervalOutOfRange K ⟨.ADV_CONNECTABLE_UNDIRECTED, interval, timeout⟩ = true := by
      simp [intervalOutOfRange]; omega
    unfold startAdvertising
    rw [if_neg (by simp), if_neg hr, if_neg (by simp), if_neg (by simp; omega)]
    exact startAdvertising_policy_ok K radio _ w hok
  have htimer : (startAdvertising K radio
      ⟨.ADV_CONNECTABLE_UNDIRECTED, interval, timeout⟩ w).2.gap.advTimeout = some timeout := by
    have hr : ¬ intervalOutOfRange K ⟨.ADV_CONNECTABLE_UNDIRECTED, interval, timeout⟩ = true := by
      simp [intervalOutOfRange]; omega
    have h0 : ∀ l c, radio l c = 0 := hok
    unfold startAdvertising
    rw [if_neg (by simp), if_neg hr, if_neg (by simp), if_neg (by simp; omega)]
    simp only [startAdvertising_policy, startAdvertising_scanResponse, startAdvertising_data,
      startAdvertising_parameters, startAdvertising_enable, issue, h0, BLE_STATUS_SUCCESS]
    split_ifs <;> simp_all
  have hcount := startAdvertising_disableCount K radio
    ⟨.ADV_CONNECTABLE_UNDIRECTED, interval, timeout⟩ w
  have hflag := congrArg GapState_t.advertising (startAdvertising_state K radio
    ⟨.ADV_CONNECTABLE_UNDIRECTED, interval, timeout⟩ w)
  generalize startAdvertising K radio ⟨.ADV_CONNECTABLE_UNDIRECTED, interval, timeout⟩ w = s
    at hstart htimer hcount hflag
  refine ⟨hstart, htimer, ?_, ?_⟩
  · rw [(Process_after_advTimeoutCB K radio s.2).1, (Process_after_advTimeoutCB K radio s.2).2]
    have hs : s.2.gap.state.advertising = false := by rw [hflag, hidle]
    simp [stopAdvertising, hs, hcount]
  · rw [(Process_after_advTimeoutCB K radio _).1, (Process_after_advTimeoutCB K radio _).2]
    have h0 : ∀ l c, radio l c = 0 := hok
    simp only [stopAdvertising, issue, h0]
    simp [disableCount, List.count_append] at hcount ⊢
    exact hcount

/-- Witness of C6 (amended): the idle controller, interval 160 units and timeout 5 s. -/
theorem advertising_timeout_end_to_end_witness :
    (startAdvertising sampleHeader radioOk ⟨.ADV_CONNECTABLE_UNDIRECTED, 160, 5⟩ idleWorld).1
        = .BLE_ERROR_NONE ∧
      disableCount (Process sampleHeader radioOk (advTimeoutCB
        (startAdvertising sampleHeader radioOk
          ⟨.ADV_CONNECTABLE_UNDIRECTED, 160, 5⟩ idleWorld).2)).issued
        = disableCount idleWorld.issued :=
  ⟨(advertising_timeout_end_to_end sampleHeader radioOk 160 5 idleWorld (fun _ _ => rfl)
      (by decide) (by decide) (by decide) (by decide) (by decide)).1,
   (advertising_timeout_end_to_end sampleHeader radioOk 160 5 idleWorld (fun _ _ => rfl)
      (by decide) (by decide) (by decide) (by decide) (by decide)).2.2.1.2⟩

/-! ## Scanning lifecycle and report filtering -/

/-- C7: with the scanning policy mode filter-all-advertisements and an empty whitelist,
`startRadioScan` returns `BLE_ERROR_OPERATION_NOT_PERMITTED` for every scanning-parameter
value and leaves the world unchanged: no start-scan command, no timer, same scanning flag. -/
theorem startRadioScan_empty_whitelist (K : Header) (radio : Radio)
    (scanningParams : GapScanningParams) (w : World)
    (hmode : w.gap.scanningPolicyMode = .SCAN_POLICY_FILTER_ALL_ADV)
    (hempty : w.gap.whitelistSize = 0) :
    startRadioScan K radio scanningParams w = (.BLE_ERROR_OPERATION_NOT_PERMITTED, w) := by
  simp [startRadioScan, hmode, hempty]

/-- Witness of C7: the policy filter-all-advertisements with the empty whitelist. -/
theorem startRadioScan_empty_whitelist_witness :
    startRadioScan sampleHeader radioOk ⟨16, 16, 10, true⟩ filterAllWorld
      = (.BLE_ERROR_OPERATION_NOT_PERMITTED, filterAllWorld) :=
  startRadioScan_empty_whitelist sampleHeader radioOk ⟨16, 16, 10, true⟩ filterAllWorld
    (by decide) (by decide)

/-- C8: when the whitelist check of `startRadioScan` passes, exactly one command is issued,
the start-scan command with the active flag, interval and window of the argument and the
local address type.  On the success status the result is `BLE_ERROR_NONE`, the scanning flag
is set, and the scan timer is attached with the timeout as duration when the timeout is not
zero and left as it was when it is zero.  On the status `BLE_STATUS_INVALID_CID` the result is
`BLE_ERROR_NOT_IMPLEMENTED` and on any other failure status `BLE_ERROR_UNSPECIFIED`; in both
cases the controller (scanning flag, timers) is unchanged. -/
theorem startRadioScan_outcomes (K : Header) (radio : Radio)
    (scanningParams : GapScanningParams) (w : World)
    (hcheck : ¬ (w.gap.whitelistSize % 2 ^ 8 = 0 ∧
      w.gap.scanningPolicyMode = .SCAN_POLICY_FILTER_ALL_ADV)) :
    (startRadioScan K radio scanningParams w).2.issued
        = w.issued ++ [.btleStartRadioScan scanningParams.activeScanning
            scanningParams.interval scanningParams.window w.gap.addr_type] ∧
    (radio w.issued (.btleStartRadioScan scanningParams.activeScanning
          scanningParams.interval scanningParams.window w.gap.addr_type) = BLE_STATUS_SUCCESS →
      (startRadioScan K radio scanningParams w).1 = .BLE_ERROR_NONE ∧
      (startRadioScan K radio scanningParams w).2.gap
        = { w.gap with
            _scanning := true
            scanTimeout := if scanningParams.timeout ≠ 0 then some scanningParams.timeout
              else w.gap.scanTimeout }) ∧
    (radio w.issued (.btleStartRadioScan scanningParams.activeScanning
          scanningParams.interval scanningParams.window w.gap.addr_type) ≠ BLE_STATUS_SUCCESS →
      (startRadioScan K radio scanningParams w).2.gap = w.gap ∧
      (radio w.issued (.btleStartRadioScan scanningParams.activeScanning
            scanningParams.interval scanningParams.window w.gap.addr_type)
          = K.BLE_STATUS_INVALID_CID →
        (startRadioScan K radio scanningParams w).1 = .BLE_ERROR_NOT_IMPLEMENTED) ∧
      (radio w.issued (.btleStartRadioScan scanningParams.activeScanning
            scanningParams.interval scanningParams.window w.gap.addr_type)
          ≠ K.BLE_STATUS_INVALID_CID →
        (startRadioScan K radio scanningParams w).1 = .BLE_ERROR_UNSPECIFIED)) := by
  simp only [startRadioScan, issue, if_neg hcheck]
  refine ⟨?_, ?_, ?_⟩
  · split_ifs <;> rfl
  · intro hs
    rw [if_pos hs.symm]
    split_ifs <;> exact ⟨rfl, rfl⟩
  · intro hs
    rw [if_neg (fun h => hs h.symm)]
    refine ⟨?_, ?_, ?_⟩
    · split_ifs <;> rfl
    · intro hc
      rw [if_pos hc]
    · intro hc
      rw [if_neg hc]

/-- Witness of C8: the idle world with timeout 10 s on a radio that succeeds, and on radios
that fail with `BLE_STATUS_INVALID_CID` and with another status. -/
theorem startRadioScan_outcomes_witness :
    ((startRadioScan sampleHeader radioOk ⟨16, 16, 10, true⟩ idleWorld).2.issued
        = [.btleStartRadioScan true 16 16 0] ∧
      (startRadioScan sampleHeader radioOk ⟨16, 16, 10, true⟩ idleWorld).1 = .BLE_ERROR_NONE ∧
      (startRadioScan sampleHeader radioOk ⟨16, 16, 10, true⟩ idleWorld).2.gap
        = { idleGap with _scanning := true, scanTimeout := some 10 }) ∧
    (startRadioScan sampleHeader (radioFail 0x50) ⟨16, 16, 10, true⟩ idleWorld).1
        = .BLE_ERROR_NOT_IMPLEMENTED ∧
    (startRadioScan sampleHeader (radioFail 0x41) ⟨16, 16, 10, true⟩ idleWorld).1
        = .BLE_ERROR_UNSPECIFIED :=
  ⟨⟨(startRadioScan_outcomes sampleHeader radioOk ⟨16, 16, 10, true⟩ idleWorld
        (by decide)).1,
    (startRadioScan_outcomes sampleHeader radioOk ⟨16, 16, 10, true⟩ idleWorld
        (by decide)).2.1 (by decide)⟩,
   ((startRadioScan_outcomes sampleHeader (radioFail 0x50) ⟨16, 16, 10, true⟩ idleWorld
        (by decide)).2.2 (by decide)).2.1 (by decide),
   ((startRadioScan_outcomes sampleHeader (radioFail 0x41) ⟨16, 16, 10, true⟩ idleWorld
        (by decide)).2.2 (by decide)).2.2 (by decide)⟩

/-- A DiscoveryComplete event leaves the scanning flag false. -/
theorem Discovery_CB_complete_scanning (K : Header) (radio : Radio) (adv_type addr_type : Nat)
    (addr : List Nat) (data_length : Nat) (data : List Nat) (RSSI : Int) (w : World) :
    (Discovery_CB K radio .DISCOVERY_COMPLETE adv_type addr_type addr data_length data RSSI
      w).gap._scanning = false := by
  simp only [Discovery_CB, makeConnection, createConnection, setConnectionParameters, issue]
  split_ifs <;> rfl

/-- Counterexample to C9: with the scanning flag set and a radio that succeeds, `stopScan`
returns `BLE_ERROR_NONE` and the scanning flag is still true when it returns. -/
theorem stopScan_success_keeps_flag :
    (stopScan sampleHeader radioOk scanningWorld).1 = .BLE_ERROR_NONE ∧
      (stopScan sampleHeader radioOk scanningWorld).2.gap._scanning = true := by
  decide

/-- C9 (amended): `stopScan` with the scanning flag true issues exactly one command, the
terminate-procedure command for the observation procedure; when it succeeds the result is
`BLE_ERROR_NONE`, when it fails `BLE_ERROR_UNSPECIFIED`; in both cases the controller is
unchanged, so the scanning flag is still true when `stopScan` returns.  The flag is false
after the DiscoveryComplete event that follows. -/
theorem stopScan_active (K : Header) (radio : Radio) (w : World)
    (h : w.gap._scanning = true) :
    (stopScan K radio w).2.issued
        = w.issued ++ [.aci_gap_terminate_gap_proc K.GAP_OBSERVATION_PROC] ∧
    (radio w.issued (.aci_gap_terminate_gap_proc K.GAP_OBSERVATION_PROC) = BLE_STATUS_SUCCESS →
      (stopScan K radio w).1 = .BLE_ERROR_NONE) ∧
    (radio w.issued (.aci_gap_terminate_gap_proc K.GAP_OBSERVATION_PROC) ≠ BLE_STATUS_SUCCESS →
      (stopScan K radio w).1 = .BLE_ERROR_UNSPECIFIED) ∧
    (stopScan K radio w).2.gap = w.gap ∧
    (stopScan K radio w).2.gap._scanning = true ∧
    (∀ adv_type addr_type addr data_length data RSSI,
      (Discovery_CB K radio .DISCOVERY_COMPLETE adv_type addr_type addr data_length data RSSI
        (stopScan K radio w).2).gap._scanning = false) := by
  refine ⟨?_, ?_, ?_, ?_, ?_, ?_⟩
  · simp only [stopScan, issue, h, if_true]
    split_ifs <;> rfl
  · intro hs
    simp [stopScan, issue, h, hs]
  · intro hs
    simp [stopScan, issue, h, hs]
  · simp only [stopScan, issue, h, if_true]
    split_ifs <;> rfl
  · simp only [stopScan, issue, h, if_true]
    split_ifs <;> exact h
  · intro adv_type addr_type addr data_length data RSSI
    exact Discovery_CB_complete_scanning K radio adv_type addr_type addr data_length data RSSI _

/-- Witness of C9 (amended): the scanning world on a radio that succeeds. -/
theorem stopScan_active_witness :
    (stopScan sampleHeader radioOk scanningWorld).2.issued
        = [.aci_gap_terminate_gap_proc 0x80] ∧
      (stopScan sampleHeader radioOk scanningWorld).1 = .BLE_ERROR_NONE ∧
      (stopScan sampleHeader (radioFail 0x41) scanningWorld).1 = .BLE_ERROR_UNSPECIFIED ∧
      (stopScan sampleHeader radioOk scanningWorld).2.gap._scanning = true :=
  ⟨(stopScan_active sampleHeader radioOk scanningWorld (by decide)).1,
   (stopScan_active sampleHeader radioOk scanningWorld (by decide)).2.1 (by decide),
   (stopScan_active sampleHeader (radioFail 0x41) scanningWorld (by decide)).2.2.1 (by decide),
   (stopScan_active sampleHeader radioOk scanningWorld (by decide)).2.2.2.2.1⟩

/-- C10: a DeviceFound event whose peer address type is private resolvable or private
non-resolvable is never forwarded: for every scanning policy mode, connecting flag and PDU
type the list of reports handed to the application (and the whole world) is unchanged. -/
theorem Discovery_CB_private_address_dropped (K : Header) (radio : Radio)
    (adv_type addr_type : Nat) (addr : List Nat) (data_length : Nat) (data : List Nat)
    (RSSI : Int) (w : World)
    (hpriv : addr_type = K.RESOLVABLE_PRIVATE_ADDR ∨ addr_type = K.NON_RESOLVABLE_PRIVATE_ADDR) :
    (Discovery_CB K radio .DEVICE_FOUND adv_type addr_type addr data_length data RSSI w).reports
        = w.reports ∧
      Discovery_CB K radio .DEVICE_FOUND adv_type addr_type addr data_length data RSSI w = w := by
  simp [Discovery_CB, hpriv]

/-- Witness of C10: an `ADV_IND` report from a private resolvable address (type 2) on the idle
world, where policy and connecting flag would otherwise let the report through. -/
theorem Discovery_CB_private_address_dropped_witness :
    (Discovery_CB sampleHeader radioOk .DEVICE_FOUND 0 2 [1, 2, 3, 4, 5, 6] 3 [2, 1, 6] (-40)
        idleWorld).reports = [] ∧
      (Discovery_CB sampleHeader radioOk .DEVICE_FOUND 0 0 [1, 2, 3, 4, 5, 6] 3 [2, 1, 6] (-40)
        idleWorld).reports ≠ [] :=
  ⟨(Discovery_CB_private_address_dropped sampleHeader radioOk 0 2 [1, 2, 3, 4, 5, 6] 3
      [2, 1, 6] (-40) idleWorld (by decide)).1,
   by decide⟩

/-! ## Connection establishment -/

/-- With the scanning flag false, `connect` is `createConnection` run on the controller in
which the scan parameters, the peer address and type and the connecting flag are recorded. -/
theorem connect_not_scanning_eq (K : Header) (radio : Radio) (peerAddr : List Nat)
    (peerAddrType : Nat) (scanParams : GapScanningParams) (w : World)
    (hscan : w.gap._scanning = false) :
    connect K radio peerAddr peerAddrType scanParams w
      = createConnection K radio { w with gap := { w.gap with
          _scanningParams := scanParams
          _peerAddr := peerAddr.take BDADDR_SIZE
          _peerAddrType := peerAddrType
          _connecting := true } } := by
  simp [connect, setScanParams, hscan]

/-- The outcome of `createConnection`: one create-connection command with the members of the
controller; on success the connecting flag is cleared, on failure nothing else changes. -/
theorem createConnection_eq (K : Header) (radio : Radio) (w : World) :
    createConnection K radio w
      = if radio w.issued (.aci_gap_create_connection w.gap.scanInterval w.gap.scanWindow
            w.gap._peerAddrType w.gap._peerAddr w.gap.addr_type w.gap.conn_min_interval
            w.gap.conn_max_interval 0 K.SUPERV_TIMEOUT K.CONN_L1 K.CONN_L1)
          = BLE_STATUS_SUCCESS then
          (.BLE_ERROR_NONE, { w with
            gap := { w.gap with _connecting := false }
            issued := w.issued ++ [.aci_gap_create_connection w.gap.scanInterval
              w.gap.scanWindow w.gap._peerAddrType w.gap._peerAddr w.gap.addr_type
              w.gap.conn_min_interval w.gap.conn_max_interval 0 K.SUPERV_TIMEOUT K.CONN_L1
              K.CONN_L1] })
        else
          (.BLE_ERROR_UNSPECIFIED, { w with
            issued := w.issued ++ [.aci_gap_create_connection w.gap.scanInterval
              w.gap.scanWindow w.gap._peerAddrType w.gap._peerAddr w.gap.addr_type
              w.gap.conn_min_interval w.gap.conn_max_interval 0 K.SUPERV_TIMEOUT K.CONN_L1
              K.CONN_L1] }) := by
  simp only [createConnection, setConnectionParameters, issue]
  split_ifs <;> simp_all

/-- C11, the code at the failing input: on the idle controller, `connect` to the sample peer
with scan parameters of interval 48 and window 32 issues one create-connection command with
the given peer address and type, but with scan interval 0 and scan window 0, the values of
the members `scanInterval` and `scanWindow` that `setConnectionParameters` was to set; the
given scan parameters are recorded and not used. -/
theorem connect_ignores_scan_parameters :
    (connect sampleHeader radioOk samplePeer 1 ⟨48, 32, 0, false⟩ idleWorld).2.issued
        = [.aci_gap_create_connection 0 0 1 samplePeer 0 0 0 0 60 2 2] ∧
      (connect sampleHeader radioOk samplePeer 1 ⟨48, 32, 0, false⟩ idleWorld).2.gap._scanningParams
        = ⟨48, 32, 0, false⟩ := by
  decide

/-- The command of `connect` with the scanning flag false, for every input: exactly one
create-connection command, with the given peer address and peer address type; its scan
interval and window are read from the members `scanInterval` and `scanWindow`, which
`connect` does not write.  When that command succeeds `connect` returns `BLE_ERROR_NONE`
and the connecting flag is false. -/
theorem connect_not_scanning (K : Header) (radio : Radio) (peerAddr : List Nat)
    (peerAddrType : Nat) (scanParams : GapScanningParams) (w : World)
    (hlen : peerAddr.length = BDADDR_SIZE) (hscan : w.gap._scanning = false) :
    (connect K radio peerAddr peerAddrType scanParams w).2.issued
        = w.issued ++ [.aci_gap_create_connection w.gap.scanInterval w.gap.scanWindow
            peerAddrType peerAddr w.gap.addr_type w.gap.conn_min_interval
            w.gap.conn_max_interval 0 K.SUPERV_TIMEOUT K.CONN_L1 K.CONN_L1] ∧
    (radio w.issued (.aci_gap_create_connection w.gap.scanInterval w.gap.scanWindow
          peerAddrType peerAddr w.gap.addr_type w.gap.conn_min_interval
          w.gap.conn_max_interval 0 K.SUPERV_TIMEOUT K.CONN_L1 K.CONN_L1)
        = BLE_STATUS_SUCCESS →
      (connect K radio peerAddr peerAddrType scanParams w).1 = .BLE_ERROR_NONE ∧
      (connect K radio peerAddr peerAddrType scanParams w).2.gap._connecting = false) := by
  have htake : peerAddr.take BDADDR_SIZE = peerAddr := by
    rw [← hlen]; exact List.take_length _
  rw [connect_not_scanning_eq K radio peerAddr peerAddrType scanParams w hscan,
    createConnection_eq]
  simp only [htake]
  refine ⟨?_, ?_⟩
  · split_ifs <;> rfl
  · intro hs
    rw [if_pos hs]
    exact ⟨rfl, rfl⟩

/-- The command of `connect` on the idle controller with the sample peer, on a radio that
succeeds. -/
theorem connect_not_scanning_witness :
    (connect sampleHeader radioOk samplePeer 1 ⟨48, 32, 0, false⟩ idleWorld).2.issued
        = [] ++ [.aci_gap_create_connection 0 0 1 samplePeer 0 0 0 0 60 2 2] ∧
      (connect sampleHeader radioOk samplePeer 1 ⟨48, 32, 0, false⟩ idleWorld).1
        = .BLE_ERROR_NONE ∧
      (connect sampleHeader radioOk samplePeer 1 ⟨48, 32, 0, false⟩ idleWorld).2.gap._connecting
        = false :=
  ⟨(connect_not_scanning sampleHeader radioOk samplePeer 1 ⟨48, 32, 0, false⟩ idleWorld
      (by decide) (by decide)).1,
   (connect_not_scanning sampleHeader radioOk samplePeer 1 ⟨48, 32, 0, false⟩ idleWorld
      (by decide) (by decide)).2 (by decide)⟩

/-- C12: when the create-connection command returns a non-success status, `createConnection`
returns `BLE_ERROR_UNSPECIFIED` and changes nothing but the command log, so the connecting
flag keeps its value; `connect` called with the scanning flag false then returns
`BLE_ERROR_UNSPECIFIED` and the connecting flag it has set is still true. -/
theorem createConnection_failure (K : Header) (radio : Radio) (w : World) :
    (radio w.issued (.aci_gap_create_connection w.gap.scanInterval w.gap.scanWindow
          w.gap._peerAddrType w.gap._peerAddr w.gap.addr_type w.gap.conn_min_interval
          w.gap.conn_max_interval 0 K.SUPERV_TIMEOUT K.CONN_L1 K.CONN_L1)
        ≠ BLE_STATUS_SUCCESS →
      (createConnection K radio w).1 = .BLE_ERROR_UNSPECIFIED ∧
      (createConnection K radio w).2.gap = w.gap) ∧
    (∀ (peerAddr : List Nat) (peerAddrType : Nat) (scanParams : GapScanningParams),
      w.gap._scanning = false →
      radio w.issued (.aci_gap_create_connection w.gap.scanInterval w.gap.scanWindow
          peerAddrType (peerAddr.take BDADDR_SIZE) w.gap.addr_type w.gap.conn_min_interval
          w.gap.conn_max_interval 0 K.SUPERV_TIMEOUT K.CONN_L1 K.CONN_L1)
        ≠ BLE_STATUS_SUCCESS →
      (connect K radio peerAddr peerAddrType scanParams w).1 = .BLE_ERROR_UNSPECIFIED ∧
      (connect K radio peerAddr peerAddrType scanParams w).2.gap._connecting = true) := by
  refine ⟨?_, ?_⟩
  · intro hs
    rw [createConnection_eq, if_neg hs]
    exact ⟨rfl, rfl⟩
  · intro peerAddr peerAddrType scanParams hscan hs
    rw [connect_not_scanning_eq K radio peerAddr peerAddrType scanParams w hscan,
      createConnection_eq, if_neg hs]
    exact ⟨rfl, rfl⟩

/-- Witness of C12: the idle controller on a radio that fails every command with 0x41. -/
theorem createConnection_failure_witness :
    ((createConnection sampleHeader (radioFail 0x41) idleWorld).1 = .BLE_ERROR_UNSPECIFIED ∧
      (createConnection sampleHeader (radioFail 0x41) idleWorld).2.gap = idleWorld.gap) ∧
    ((connect sampleHeader (radioFail 0x41) samplePeer 1 ⟨48, 32, 0, false⟩ idleWorld).1
        = .BLE_ERROR_UNSPECIFIED ∧
      (connect sampleHeader (radioFail 0x41) samplePeer 1 ⟨48, 32, 0, false⟩
        idleWorld).2.gap._connecting = true) :=
  ⟨(createConnection_failure sampleHeader (radioFail 0x41) idleWorld).1 (by decide),
   (createConnection_failure sampleHeader (radioFail 0x41) idleWorld).2 samplePeer 1
      ⟨48, 32, 0, false⟩ (by decide) (by decide)⟩

/-- Counterexample to C13: on the idle controller with a radio that fails the
create-connection command, `connect` returns `BLE_ERROR_UNSPECIFIED` and the connecting flag
is true, not false, after it. -/
theorem connect_failure_keeps_connecting :
    (connect sampleHeader (radioFail 0x41) samplePeer 1 ⟨48, 32, 0, false⟩ idleWorld).1
        = .BLE_ERROR_UNSPECIFIED ∧
      (connect sampleHeader (radioFail 0x41) samplePeer 1 ⟨48, 32, 0, false⟩
        idleWorld).2.gap._connecting = true := by
  decide

/-- C13 (amended): `connect` sets the connecting flag before the connection attempt; after
`connect` called with the scanning flag false returns, the flag is false when the
create-connection command succeeded and still true when it failed. -/
theorem connect_connecting_flag (K : Header) (radio : Radio) (peerAddr : List Nat)
    (peerAddrType : Nat) (scanParams : GapScanningParams) (w : World)
    (hscan : w.gap._scanning = false) :
    (radio w.issued (.aci_gap_create_connection w.gap.scanInterval w.gap.scanWindow
          peerAddrType (peerAddr.take BDADDR_SIZE) w.gap.addr_type w.gap.conn_min_interval
          w.gap.conn_max_interval 0 K.SUPERV_TIMEOUT K.CONN_L1 K.CONN_L1)
        = BLE_STATUS_SUCCESS →
      (connect K radio peerAddr peerAddrType scanParams w).2.gap._connecting = false) ∧
    (radio w.issued (.aci_gap_create_connection w.gap.scanInterval w.gap.scanWindow
          peerAddrType (peerAddr.take BDADDR_SIZE) w.gap.addr_type w.gap.conn_min_interval
          w.gap.conn_max_interval 0 K.SUPERV_TIMEOUT K.CONN_L1 K.CONN_L1)
        ≠ BLE_STATUS_SUCCESS →
      (connect K radio peerAddr peerAddrType scanParams w).2.gap._connecting = true) := by
  rw [connect_not_scanning_eq K radio peerAddr peerAddrType scanParams w hscan,
    createConnection_eq]
  refine ⟨?_, ?_⟩
  · intro hs
    rw [if_pos hs]
  · intro hs
    rw [if_neg hs]

/-- Witness of C13 (amended): the idle controller, on a radio that succeeds and on one that
fails. -/
theorem connect_connecting_flag_witness :
    (connect sampleHeader radioOk samplePeer 1 ⟨48, 32, 0, false⟩ idleWorld).2.gap._connecting
        = false ∧
      (connect sampleHeader (radioFail 0x41) samplePeer 1 ⟨48, 32, 0, false⟩
        idleWorld).2.gap._connecting = true :=
  ⟨(connect_connecting_flag sampleHeader radioOk samplePeer 1 ⟨48, 32, 0, false⟩ idleWorld
      (by decide)).1 (by decide),
   (connect_connecting_flag sampleHeader (radioFail 0x41) samplePeer 1 ⟨48, 32, 0, false⟩
      idleWorld (by decide)).2 (by decide)⟩

/-- C14: `connect` called with the scanning flag true stores the peer address and type, sets
the connecting flag, issues exactly one command, the terminate-procedure command for the
observation procedure (so no create-connection command), and returns `BLE_ERROR_NONE`
whatever the status of that command. -/
theorem connect_while_scanning (K : Header) (radio : Radio) (peerAddr : List Nat)
    (peerAddrType : Nat) (scanParams : GapScanningParams) (w : World)
    (hlen : peerAddr.length = BDADDR_SIZE) (hscan : w.gap._scanning = true) :
    (connect K radio peerAddr peerAddrType scanParams w).1 = .BLE_ERROR_NONE ∧
    (connect K radio peerAddr peerAddrType scanParams w).2.issued
        = w.issued ++ [.aci_gap_terminate_gap_proc K.GAP_OBSERVATION_PROC] ∧
    (connect K radio peerAddr peerAddrType scanParams w).2.gap._peerAddr = peerAddr ∧
    (connect K radio peerAddr peerAddrType scanParams w).2.gap._peerAddrType = peerAddrType ∧
    (connect K radio peerAddr peerAddrType scanParams w).2.gap._connecting = true := by
  have htake : peerAddr.take BDADDR_SIZE = peerAddr := by
    rw [← hlen]; exact List.take_length _
  simp only [connect, setScanParams, stopScan, issue, hscan, if_true, htake]
  refine ⟨trivial, ?_, ?_, ?_, ?_⟩ <;> split_ifs <;> rfl

/-- Witness of C14: the scanning controller, on a radio that fails the terminate command. -/
theorem connect_while_scanning_witness :
    (connect sampleHeader (radioFail 0x41) samplePeer 1 ⟨48, 32, 0, false⟩ scanningWorld).1
        = .BLE_ERROR_NONE ∧
      (connect sampleHeader (radioFail 0x41) samplePeer 1 ⟨48, 32, 0, false⟩
        scanningWorld).2.issued
        = scanningWorld.issued ++ [.aci_gap_terminate_gap_proc sampleHeader.GAP_OBSERVATION_PROC] :=
  ⟨(connect_while_scanning sampleHeader (radioFail 0x41) samplePeer 1 ⟨48, 32, 0, false⟩
      scanningWorld (by decide) (by decide)).1,
   (connect_while_scanning sampleHeader (radioFail 0x41) samplePeer 1 ⟨48, 32, 0, false⟩
      scanningWorld (by decide) (by decide)).2.1⟩

/-- C20: `disconnect(handle, reason)` issues exactly one command, the terminate-connection
command with that handle and reason, and changes nothing else in the world.  A success status
gives `BLE_ERROR_NONE`; among the failure statuses `ERR_COMMAND_DISALLOWED` gives
`BLE_ERROR_OPERATION_NOT_PERMITTED`, `BLE_STATUS_TIMEOUT` gives `BLE_STACK_BUSY` and every
other one `BLE_ERROR_UNSPECIFIED`.  `disconnect(reason)` is `disconnect` with the connection
handle of the controller.  The two `case` labels are different constants. -/
theorem disconnect_translation (K : Header) (radio : Radio) (connectionHandle reason : Nat)
    (w : World) (hlabels : K.ERR_COMMAND_DISALLOWED ≠ K.BLE_STATUS_TIMEOUT) :
    (disconnect K radio connectionHandle reason w).2
        = { w with issued := w.issued ++ [.aci_gap_terminate connectionHandle reason] } ∧
    (radio w.issued (.aci_gap_terminate connectionHandle reason) = BLE_STATUS_SUCCESS →
      (disconnect K radio connectionHandle reason w).1 = .BLE_ERROR_NONE) ∧
    (radio w.issued (.aci_gap_terminate connectionHandle reason) ≠ BLE_STATUS_SUCCESS →
      (radio w.issued (.aci_gap_terminate connectionHandle reason) = K.ERR_COMMAND_DISALLOWED →
        (disconnect K radio connectionHandle reason w).1
          = .BLE_ERROR_OPERATION_NOT_PERMITTED) ∧
      (radio w.issued (.aci_gap_terminate connectionHandle reason) = K.BLE_STATUS_TIMEOUT →
        (disconnect K radio connectionHandle reason w).1 = .BLE_STACK_BUSY) ∧
      (radio w.issued (.aci_gap_terminate connectionHandle reason) ≠ K.ERR_COMMAND_DISALLOWED →
        radio w.issued (.aci_gap_terminate connectionHandle reason) ≠ K.BLE_STATUS_TIMEOUT →
        (disconnect K radio connectionHandle reason w).1 = .BLE_ERROR_UNSPECIFIED)) ∧
    disconnect_reason K radio reason w
        = disconnect K radio w.gap.m_connectionHandle reason w := by
  simp only [disconnect, disconnect_reason, issue]
  refine ⟨?_, ?_, ?_, trivial⟩
  · split_ifs <;> rfl
  · intro hs
    rw [if_neg (fun h => h hs.symm)]
  · intro hs
    rw [if_pos (fun h => hs h.symm)]
    refine ⟨?_, ?_, ?_⟩
    · intro hc
      rw [if_pos hc]
    · intro ht
      rw [if_neg (fun hc => hlabels (hc.symm.trans ht)), if_pos ht]
    · intro hc ht
      rw [if_neg hc, if_neg ht]

/-- Witness of C20: handle 1 and reason 0x13 on the idle controller, on radios answering with
success, command disallowed (0x0C), timeout (0xFF) and another failure (0x41). -/
theorem disconnect_translation_witness :
    (disconnect sampleHeader radioOk 1 0x13 idleWorld).1 = .BLE_ERROR_NONE ∧
      (disconnect sampleHeader (radioFail 0x0C) 1 0x13 idleWorld).1
        = .BLE_ERROR_OPERATION_NOT_PERMITTED ∧
      (disconnect sampleHeader (radioFail 0xFF) 1 0x13 idleWorld).1 = .BLE_STACK_BUSY ∧
      (disconnect sampleHeader (radioFail 0x41) 1 0x13 idleWorld).1 = .BLE_ERROR_UNSPECIFIED :=
  ⟨(disconnect_translation sampleHeader radioOk 1 0x13 idleWorld (by decide)).2.1 (by decide),
   ((disconnect_translation sampleHeader (radioFail 0x0C) 1 0x13 idleWorld
      (by decide)).2.2.1 (by decide)).1 (by decide),
   ((disconnect_translation sampleHeader (radioFail 0xFF) 1 0x13 idleWorld
      (by decide)).2.2.1 (by decide)).2.1 (by decide),
   ((disconnect_translation sampleHeader (radioFail 0x41) 1 0x13 idleWorld
      (by decide)).2.2.1 (by decide)).2.2 (by decide) (by decide)⟩

/-! ## Address management -/

/-- C15: for every six-byte address whose last byte has not both top bits set
(`(address[5] & 0xC0) != 0xC0`), `setAddress` with type random-static returns
`BLE_ERROR_PARAM_OUT_OF_RANGE` and leaves the world unchanged: no radio command, same cached
address, same address-type selector, same is-set indicator. -/
theorem setAddress_static_malformed (K : Header) (radio : Radio) (address : List Nat)
    (w : World) (hlen : address.length = BDADDR_SIZE)
    (hbits : (address.getD 5 0) &&& 0xC0 ≠ 0xC0) :
    setAddress K radio AddressType.RANDOM_STATIC address w
      = (.BLE_ERROR_PARAM_OUT_OF_RANGE, w) := by
  have _ := hlen
  simp only [List.getD_eq_getElem?_getD] at hbits
  simp [setAddress, AddressType.RANDOM_STATIC, AddressType.RANDOM_PRIVATE_NON_RESOLVABLE,
    AddressType.PUBLIC, hbits]

/-- Witness of C15: the address 01:02:03:04:05:86, whose last byte 0x86 has top bits 10. -/
theorem setAddress_static_malformed_witness :
    setAddress sampleHeader radioOk AddressType.RANDOM_STATIC [1, 2, 3, 4, 5, 0x86] idleWorld
      = (.BLE_ERROR_PARAM_OUT_OF_RANGE, idleWorld) :=
  setAddress_static_malformed sampleHeader radioOk [1, 2, 3, 4, 5, 0x86] idleWorld
    (by decide) (by decide)

/-- C16: round trip.  For every six-byte address `a` with `(a[5] & 0xC0) == 0xC0`, when the
set-random-address command succeeds `setAddress(RANDOM_STATIC, a)` returns `BLE_ERROR_NONE`,
and a `getAddress` right after it, with non-null pointers to a type and to six bytes of
storage, returns `BLE_ERROR_NONE`, writes the type random-static and exactly the bytes of
`a`, and leaves the world, command log included, as it was: no radio read is issued. -/
theorem setAddress_getAddress_roundtrip (K : Header) (radio : Radio) (a : List Nat) (w : World)
    (hlen : a.length = BDADDR_SIZE) (hbits : (a.getD 5 0) &&& 0xC0 = 0xC0)
    (hok : radio w.issued (.hci_le_set_random_address a) = BLE_STATUS_SUCCESS) :
    (setAddress K radio AddressType.RANDOM_STATIC a w).1 = .BLE_ERROR_NONE ∧
    ∀ (radio2 : Radio) (configData : ConfigData) (t : Nat) (buf : List Nat),
      buf.length = BDADDR_SIZE →
      getAddress K radio2 configData (some t) (some buf)
          (setAddress K radio AddressType.RANDOM_STATIC a w).2
        = (.BLE_ERROR_NONE, some AddressType.RANDOM_STATIC, some a,
            (setAddress K radio AddressType.RANDOM_STATIC a w).2) := by
  have htake : a.take BDADDR_SIZE = a := by
    rw [← hlen]; exact List.take_length _
  have h0 : radio w.issued (.hci_le_set_random_address a) = 0 := hok
  simp only [List.getD_eq_getElem?_getD] at hbits
  have hset : setAddress K radio AddressType.RANDOM_STATIC a w
      = (.BLE_ERROR_NONE, { w with
          gap := { w.gap with bdaddr := a, addr_type := AddressType.RANDOM_STATIC,
                              isSetAddress := true }
          issued := w.issued ++ [.hci_le_set_random_address a] }) := by
    simp [setAddress, setAddress_commit, issue, AddressType.RANDOM_STATIC,
      AddressType.RANDOM_PRIVATE_NON_RESOLVABLE, AddressType.PUBLIC, hbits, htake, h0]
  rw [hset]
  refine ⟨rfl, ?_⟩
  intro radio2 configData t buf hbuf
  have hdrop : buf.drop BDADDR_SIZE = [] := by
    rw [← hbuf]; exact List.drop_length _
  simp [getAddress, AddressType.RANDOM_STATIC, AddressType.PUBLIC, htake, hdrop]

/-- Witness of C16: the sample static address on the idle controller. -/
theorem setAddress_getAddress_roundtrip_witness :
    (setAddress sampleHeader radioOk AddressType.RANDOM_STATIC sampleStatic idleWorld).1
        = .BLE_ERROR_NONE ∧
      getAddress sampleHeader radioOk sampleConfigData (some 0) (some [0, 0, 0, 0, 0, 0])
          (setAddress sampleHeader radioOk AddressType.RANDOM_STATIC sampleStatic idleWorld).2
        = (.BLE_ERROR_NONE, some AddressType.RANDOM_STATIC, some sampleStatic,
            (setAddress sampleHeader radioOk AddressType.RANDOM_STATIC sampleStatic
              idleWorld).2) :=
  ⟨(setAddress_getAddress_roundtrip sampleHeader radioOk sampleStatic idleWorld (by decide)
      (by decide) (by decide)).1,
   (setAddress_getAddress_roundtrip sampleHeader radioOk sampleStatic idleWorld (by decide)
      (by decide) (by decide)).2 radioOk sampleConfigData 0 [0, 0, 0, 0, 0, 0] (by decide)⟩

/-- C17: the outcome of `setAddress` by type.  A type past the last value of the enumeration
gives `BLE_ERROR_PARAM_OUT_OF_RANGE` and the two random-private types give
`BLE_ERROR_NOT_IMPLEMENTED`, with the world unchanged (no radio command).  A public address,
or a well-formed random-static one, whose radio command fails gives
`BLE_ERROR_OPERATION_NOT_PERMITTED`.  The address-type selector is the requested type after
every call that returns `BLE_ERROR_NONE` and is unchanged after every call that returns an
error. -/
theorem setAddress_outcomes (K : Header) (radio : Radio) (type : Nat) (address : List Nat)
    (w : World) :
    (type > AddressType.RANDOM_PRIVATE_NON_RESOLVABLE →
      setAddress K radio type address w = (.BLE_ERROR_PARAM_OUT_OF_RANGE, w)) ∧
    (type = AddressType.RANDOM_PRIVATE_RESOLVABLE ∨
        type = AddressType.RANDOM_PRIVATE_NON_RESOLVABLE →
      setAddress K radio type address w = (.BLE_ERROR_NOT_IMPLEMENTED, w)) ∧
    (type = AddressType.PUBLIC →
      radio w.issued (.aci_hal_write_config_data K.CONFIG_DATA_PUBADDR_OFFSET
        K.CONFIG_DATA_PUBADDR_LEN address) ≠ BLE_STATUS_SUCCESS →
      (setAddress K radio type address w).1 = .BLE_ERROR_OPERATION_NOT_PERMITTED) ∧
    (type = AddressType.RANDOM_STATIC → (address.getD 5 0) &&& 0xC0 = 0xC0 →
      radio w.issued (.hci_le_set_random_address (address.take BDADDR_SIZE))
        ≠ BLE_STATUS_SUCCESS →
      (setAddress K radio type address w).1 = .BLE_ERROR_OPERATION_NOT_PERMITTED) ∧
    ((setAddress K radio type address w).1 = .BLE_ERROR_NONE →
      (setAddress K radio type address w).2.gap.addr_type = type) ∧
    ((setAddress K radio type address w).1 ≠ .BLE_ERROR_NONE →
      (setAddress K radio type address w).2.gap.addr_type = w.gap.addr_type) := by
  refine ⟨?_, ?_, ?_, ?_, ?_, ?_⟩
  · intro h
    simp [setAddress, h]
  · intro h
    rcases h with h | h <;>
      simp [setAddress, h, AddressType.RANDOM_PRIVATE_RESOLVABLE,
        AddressType.RANDOM_PRIVATE_NON_RESOLVABLE, AddressType.PUBLIC,
        AddressType.RANDOM_STATIC]
  · intro h hs
    simp [setAddress, h, issue, hs, AddressType.RANDOM_PRIVATE_NON_RESOLVABLE,
      AddressType.PUBLIC]
  · intro h hb hs
    have hs0 : ¬ radio w.issued (.hci_le_set_random_address (address.take BDADDR_SIZE)) = 0 :=
      hs
    simp only [List.getD_eq_getElem?_getD] at hb
    simp [setAddress, h, issue, hs0, hb, AddressType.RANDOM_PRIVATE_NON_RESOLVABLE,
      AddressType.PUBLIC, AddressType.RANDOM_STATIC]
  · simp only [setAddress, setAddress_commit, issue]
    split_ifs <;> simp
  · simp only [setAddress, setAddress_commit, issue]
    split_ifs <;> simp

/-- Witness of C17: types 4, 2 and 3 on the idle controller, a public and a static address
on a radio that fails, and a static address on a radio that succeeds. -/
theorem setAddress_outcomes_witness :
    setAddress sampleHeader radioOk 4 samplePeer idleWorld
        = (.BLE_ERROR_PARAM_OUT_OF_RANGE, idleWorld) ∧
      setAddress sampleHeader radioOk 2 samplePeer idleWorld
        = (.BLE_ERROR_NOT_IMPLEMENTED, idleWorld) ∧
      (setAddress sampleHeader (radioFail 0x41) 0 samplePeer idleWorld).1
        = .BLE_ERROR_OPERATION_NOT_PERMITTED ∧
      (setAddress sampleHeader (radioFail 0x41) 1 sampleStatic idleWorld).1
        = .BLE_ERROR_OPERATION_NOT_PERMITTED ∧
      (setAddress sampleHeader radioOk 1 sampleStatic idleWorld).2.gap.addr_type = 1 ∧
      (setAddress sampleHeader (radioFail 0x41) 1 sampleStatic idleWorld).2.gap.addr_type
        = idleWorld.gap.addr_type :=
  ⟨(setAddress_outcomes sampleHeader radioOk 4 samplePeer idleWorld).1 (by decide),
   (setAddress_outcomes sampleHeader radioOk 2 samplePeer idleWorld).2.1 (by decide),
   (setAddress_outcomes sampleHeader (radioFail 0x41) 0 samplePeer idleWorld).2.2.1
      (by decide) (by decide),
   (setAddress_outcomes sampleHeader (radioFail 0x41) 1 sampleStatic idleWorld).2.2.2.1
      (by decide) (by decide) (by decide),
   (setAddress_outcomes sampleHeader radioOk 1 sampleStatic idleWorld).2.2.2.2.1 (by decide),
   (setAddress_outcomes sampleHeader (radioFail 0x41) 1 sampleStatic idleWorld).2.2.2.2.2
      (by decide)⟩

/-! ## Advertising payload -/

/-- The function `setAdvParameters` writes `advInterval` only. -/
theorem setAdvParameters_frame (K : Header) (g : BlueNRG1Gap) :
    (setAdvParameters K g).addr_type = g.addr_type ∧
      (setAdvParameters K g)._advData = g._advData ∧
      (setAdvParameters K g).state = g.state := by
  unfold setAdvParameters
  split_ifs <;> exact ⟨rfl, rfl, rfl⟩

/-- The commands of the steps of `startAdvertising` from the advertising parameters on are
an initial part of: advertising parameters, enable. -/
theorem startAdvertising_parameters_issued (K : Header) (radio : Radio)
    (params : GapAdvertisingParams) (f : Nat) (w : World) :
    ∃ n, (startAdvertising_parameters K radio params f w).2.issued
      = w.issued ++ List.take n
          [Cmd.hci_le_set_advertising_parameters (advIntervalMin K w.gap.advInterval)
            (advIntervalMax K w.gap.advInterval) params.advertisingType w.gap.addr_type 0
            [0, 0, 0, 0, 0, 0] 7 f,
           Cmd.hci_le_set_advertise_enable 1] := by
  simp only [startAdvertising_parameters, startAdvertising_enable, issue]
  split_ifs
  · exact ⟨1, rfl⟩
  · exact ⟨2, by simp⟩
  · exact ⟨2, by simp⟩
  · exact ⟨2, by simp⟩

/-- The commands of the steps of `startAdvertising` from `setAdvParameters` on are an initial
part of: advertising data, advertising parameters, enable. -/
theorem startAdvertising_data_issued (K : Header) (radio : Radio)
    (params : GapAdvertisingParams) (f : Nat) (w : World) :
    ∃ n, (startAdvertising_data K radio params f w).2.issued
      = w.issued ++ List.take n
          [Cmd.hci_le_set_advertising_data w.gap._advData.getPayloadLen w.gap._advData.payload,
           Cmd.hci_le_set_advertising_parameters
            (advIntervalMin K (setAdvParameters K w.gap).advInterval)
            (advIntervalMax K (setAdvParameters K w.gap).advInterval) params.advertisingType
            w.gap.addr_type 0 [0, 0, 0, 0, 0, 0] 7 f,
           Cmd.hci_le_set_advertise_enable 1] := by
  obtain ⟨ha, hd, -⟩ := setAdvParameters_frame K w.gap
  simp only [startAdvertising_data, issue, hd]
  split_ifs
  · exact ⟨1, rfl⟩
  · obtain ⟨n, hn⟩ := startAdvertising_parameters_issued K radio params f
      { w with gap := setAdvParameters K w.gap
               issued := w.issued ++ [Cmd.hci_le_set_advertising_data
                 w.gap._advData.getPayloadLen w.gap._advData.payload] }
    refine ⟨n + 1, ?_⟩
    rw [hn]
    simp [ha]

/-- The commands of the steps of `startAdvertising` from the scan response on are an initial
part of: scan response data, advertising data, advertising parameters, enable. -/
theorem startAdvertising_scanResponse_issued (K : Header) (radio : Radio)
    (params : GapAdvertisingParams) (f : Nat) (w : World) :
    ∃ n, (startAdvertising_scanResponse K radio params f w).2.issued
      = w.issued ++ List.take n
          [(if params.advertisingType = .ADV_CONNECTABLE_UNDIRECTED ∨
                params.advertisingType = .ADV_SCANNABLE_UNDIRECTED then
              Cmd.hci_le_set_scan_response_data w.gap._scanResponse.getPayloadLen
                w.gap._scanResponse.payload
            else Cmd.hci_le_set_scan_response_data 0 []),
           Cmd.hci_le_set_advertising_data w.gap._advData.getPayloadLen w.gap._advData.payload,
           Cmd.hci_le_set_advertising_parameters
            (advIntervalMin K (setAdvParameters K w.gap).advInterval)
            (advIntervalMax K (setAdvParameters K w.gap).advInterval) params.advertisingType
            w.gap.addr_type 0 [0, 0, 0, 0, 0, 0] 7 f,
           Cmd.hci_le_set_advertise_enable 1] := by
  simp only [startAdvertising_scanResponse, issue]
  split_ifs with hty hfail hto
  · exact ⟨1, rfl⟩
  · exact ⟨1, rfl⟩
  · obtain ⟨n, hn⟩ := startAdvertising_data_issued K radio params f
      { w with issued := w.issued ++ [Cmd.hci_le_set_scan_response_data
          w.gap._scanResponse.getPayloadLen w.gap._scanResponse.payload] }
    refine ⟨n + 1, ?_⟩
    rw [hn]
    simp
  · obtain ⟨n, hn⟩ := startAdvertising_data_issued K radio params f
      { w with issued := w.issued ++ [Cmd.hci_le_set_scan_response_data 0 []] }
    refine ⟨n + 1, ?_⟩
    rw [hn]
    simp

/-- The commands of a call of `startAdvertising` are an initial part of
`startAdvertising_commands`, whatever the radio answers. -/
theorem startAdvertising_issued (K : Header) (radio : Radio) (params : GapAdvertisingParams)
    (w : World) :
    ∃ n, (startAdvertising K radio params w).2.issued
      = w.issued ++ List.take n (startAdvertising_commands K params w.gap) := by
  unfold startAdvertising
  split_ifs
  · exact ⟨0, by simp⟩
  · exact ⟨0, by simp⟩
  · exact ⟨0, by simp⟩
  · exact ⟨0, by simp⟩
  · simp only [startAdvertising_policy, issue, startAdvertising_commands]
    by_cases hmode : w.gap.advertisingPolicyMode ≠ .ADV_POLICY_IGNORE_WHITELIST
    · simp only [if_pos hmode]
      by_cases hfail : radio w.issued Cmd.aci_gap_configure_whitelist ≠ BLE_STATUS_SUCCESS
      · rw [if_pos hfail]
        exact ⟨1, rfl⟩
      · rw [if_neg hfail]
        obtain ⟨n, hn⟩ := startAdvertising_scanResponse_issued K radio params
          (advFilterPolicy K w.gap.advertisingPolicyMode)
          { w with issued := w.issued ++ [Cmd.aci_gap_configure_whitelist] }
        refine ⟨n + 1, ?_⟩
        rw [hn]
        simp
    · simp only [if_neg hmode]
      obtain ⟨n, hn⟩ := startAdvertising_scanResponse_issued K radio params
        (advFilterPolicy K w.gap.advertisingPolicyMode) w
      exact ⟨n, by rw [hn]; simp⟩

/-- Handling one element of a payload keeps the GAP state record and the cached payloads. -/
theorem setAdvertisingData_unit_frame (K : Header) (radio : Radio) (w : World)
    (u : PayloadUnit) :
    (setAdvertisingData_unit K radio w u).gap.state = w.gap.state ∧
      (setAdvertisingData_unit K radio w u).gap._advData = w.gap._advData ∧
      (setAdvertisingData_unit K radio w u).gap._scanResponse = w.gap._scanResponse := by
  simp only [setAdvertisingData_unit, setAppearance, issue]
  split_ifs <;> exact ⟨rfl, rfl, rfl⟩

/-- Walking a list of elements keeps the GAP state record and the cached payloads. -/
theorem setAdvertisingData_units_frame (K : Header) (radio : Radio) (us : List PayloadUnit)
    (w : World) :
    (us.foldl (setAdvertisingData_unit K radio) w).gap.state = w.gap.state ∧
      (us.foldl (setAdvertisingData_unit K radio) w).gap._advData = w.gap._advData ∧
      (us.foldl (setAdvertisingData_unit K radio) w).gap._scanResponse
        = w.gap._scanResponse := by
  induction us generalizing w with
  | nil => exact ⟨rfl, rfl, rfl⟩
  | cons u us ih =>
    obtain ⟨h1, h2, h3⟩ := setAdvertisingData_unit_frame K radio w u
    obtain ⟨i1, i2, i3⟩ := ih (setAdvertisingData_unit K radio w u)
    simp only [List.foldl_cons]
    exact ⟨i1.trans h1, i2.trans h2, i3.trans h3⟩

/-- The block of `setAdvertisingData` for a non-empty payload keeps the GAP state record and
the cached payloads. -/
theorem setAdvertisingData_elements_frame (K : Header) (radio : Radio)
    (advData : GapAdvertisingData) (w : World) :
    (setAdvertisingData_elements K radio advData w).gap.state = w.gap.state ∧
      (setAdvertisingData_elements K radio advData w).gap._advData = w.gap._advData ∧
      (setAdvertisingData_elements K radio advData w).gap._scanResponse
        = w.gap._scanResponse := by
  simp only [setAdvertisingData_elements]
  obtain ⟨i1, i2, i3⟩ := setAdvertisingData_units_frame K radio
    (payloadUnits advData.getPayloadLen advData.payload)
    (setAppearance K radio
      (((STORE_LE_16 advData.appearance ++ w.gap.deviceAppearance.drop 2).getD 1 0 <<< 8) |||
        (STORE_LE_16 advData.appearance ++ w.gap.deviceAppearance.drop 2).getD 0 0)
      { w with gap := { w.gap with
        deviceAppearance := STORE_LE_16 advData.appearance ++ w.gap.deviceAppearance.drop 2 } }).2
  refine ⟨i1.trans ?_, i2.trans ?_, i3.trans ?_⟩ <;>
    (simp only [setAppearance, issue]; split_ifs <;> rfl)

/-- The live update and caching step: a result `BLE_ERROR_NONE` means both payloads are
cached, an error means the cached payloads are the ones from before. -/
theorem setAdvertisingData_update_cache (K : Header) (radio : Radio)
    (advData scanResponse : GapAdvertisingData) (w : World) :
    ((setAdvertisingData_update K radio advData scanResponse w).1 = .BLE_ERROR_NONE →
      (setAdvertisingData_update K radio advData scanResponse w).2.gap._advData = advData ∧
      (setAdvertisingData_update K radio advData scanResponse w).2.gap._scanResponse
        = scanResponse) ∧
    ((setAdvertisingData_update K radio advData scanResponse w).1 ≠ .BLE_ERROR_NONE →
      (setAdvertisingData_update K radio advData scanResponse w).2.gap._advData
        = w.gap._advData ∧
      (setAdvertisingData_update K radio advData scanResponse w).2.gap._scanResponse
        = w.gap._scanResponse) := by
  simp only [setAdvertisingData_update, setAdvertisingData_cache, issue]
  split_ifs <;> simp

/-- The live update and caching step returns `BLE_ERROR_NONE` when advertising is not active
and when every radio command succeeds. -/
theorem setAdvertisingData_update_ok (K : Header) (radio : Radio)
    (advData scanResponse : GapAdvertisingData) (w : World)
    (h : w.gap.state.advertising = false ∨ ∀ l c, radio l c = BLE_STATUS_SUCCESS) :
    (setAdvertisingData_update K radio advData scanResponse w).1 = .BLE_ERROR_NONE := by
  simp only [setAdvertisingData_update, setAdvertisingData_cache, issue]
  rcases h with h | h
  · simp [h]
  · have h0 : ∀ l c, radio l c = 0 := h
    simp only [h0, BLE_STATUS_SUCCESS]
    split_ifs <;> simp_all

/-- The cached payloads after `setAdvertisingData`: the arguments when the result is
`BLE_ERROR_NONE`, the former ones when it is an error. -/
theorem setAdvertisingData_cache_result (K : Header) (radio : Radio)
    (advData scanResponse : GapAdvertisingData) (w : World) :
    ((setAdvertisingData K radio advData scanResponse w).1 = .BLE_ERROR_NONE →
      (setAdvertisingData K radio advData scanResponse w).2.gap._advData = advData ∧
      (setAdvertisingData K radio advData scanResponse w).2.gap._scanResponse
        = scanResponse) ∧
    ((setAdvertisingData K radio advData scanResponse w).1 ≠ .BLE_ERROR_NONE →
      (setAdvertisingData K radio advData scanResponse w).2.gap._advData = w.gap._advData ∧
      (setAdvertisingData K radio advData scanResponse w).2.gap._scanResponse
        = w.gap._scanResponse) := by
  unfold setAdvertisingData
  split_ifs
  · simp
  · obtain ⟨-, e2, e3⟩ := setAdvertisingData_elements_frame K radio advData w
    have hu := setAdvertisingData_update_cache K radio advData scanResponse
      (setAdvertisingData_elements K radio advData w)
    rw [e2, e3] at hu
    exact hu
  · exact setAdvertisingData_update_cache K radio advData scanResponse w

/-- A payload within the maximum is accepted with `BLE_ERROR_NONE` when advertising is not
active and when every radio command succeeds. -/
theorem setAdvertisingData_ok (K : Header) (radio : Radio)
    (advData scanResponse : GapAdvertisingData) (w : World)
    (hlen : advData.getPayloadLen ≤ K.GAP_ADVERTISING_DATA_MAX_PAYLOAD)
    (h : w.gap.state.advertising = false ∨ ∀ l c, radio l c = BLE_STATUS_SUCCESS) :
    (setAdvertisingData K radio advData scanResponse w).1 = .BLE_ERROR_NONE := by
  unfold setAdvertisingData
  rw [if_neg (Nat.not_lt.mpr hlen)]
  split_ifs
  · apply setAdvertisingData_update_ok
    rw [(setAdvertisingData_elements_frame K radio advData w).1]
    exact h
  · exact setAdvertisingData_update_ok K radio advData scanResponse w h

/-- The payload commands of `startAdvertising`: whatever the radio answers, every
set-advertising-data command of the call carries the cached advertising payload, and every
set-scan-response-data command carries the cached scan response when the type is
connectable-undirected or scannable-undirected and the empty payload otherwise. -/
theorem startAdvertising_pushes_cache (K : Header) (radio : Radio)
    (params : GapAdvertisingParams) (w : World) :
    ∃ l, (startAdvertising K radio params w).2.issued = w.issued ++ l ∧
      (∀ len data, Cmd.hci_le_set_advertising_data len data ∈ l →
        len = w.gap._advData.getPayloadLen ∧ data = w.gap._advData.payload) ∧
      (∀ len data, Cmd.hci_le_set_scan_response_data len data ∈ l →
        if params.advertisingType = .ADV_CONNECTABLE_UNDIRECTED ∨
            params.advertisingType = .ADV_SCANNABLE_UNDIRECTED then
          len = w.gap._scanResponse.getPayloadLen ∧ data = w.gap._scanResponse.payload
        else len = 0 ∧ data = []) := by
  obtain ⟨n, hn⟩ := startAdvertising_issued K radio params w
  refine ⟨_, hn, ?_, ?_⟩
  · intro len data hmem
    have h := List.mem_of_mem_take hmem
    simp only [startAdvertising_commands, List.mem_append, List.mem_cons] at h
    rcases h with h | h | h | h | h | h
    · split_ifs at h <;> simp at h
    · split_ifs at h
    · simpa using h
    · simp at h
    · simp at h
    · simp at h
  · intro len data hmem
    have h := List.mem_of_mem_take hmem
    simp only [startAdvertising_commands, List.mem_append, List.mem_cons] at h
    rcases h with h | h | h | h | h | h
    · split_ifs at h <;> simp at h
    · split_ifs at h with hty
      · rw [if_pos hty]; simpa using h
      · rw [if_neg hty]; simpa using h
    · simp at h
    · simp at h
    · simp at h
    · simp at h

/-- With parameters that pass the checks and a radio on which every command succeeds,
`startAdvertising` issues all of `startAdvertising_commands`. -/
theorem startAdvertising_issued_ok (K : Header) (radio : Radio) (params : GapAdvertisingParams)
    (w : World) (hty : params.advertisingType ≠ .ADV_CONNECTABLE_DIRECTED)
    (hr : intervalOutOfRange K params = false)
    (ht : params.timeout ≤ K.GAP_ADV_PARAMS_TIMEOUT_MAX)
    (hok : ∀ l c, radio l c = BLE_STATUS_SUCCESS) :
    (startAdvertising K radio params w).2.issued
      = w.issued ++ startAdvertising_commands K params w.gap := by
  have h0 : ∀ l c, radio l c = 0 := hok
  obtain ⟨ha, hd, -⟩ := setAdvParameters_frame K w.gap
  unfold startAdvertising
  rw [if_neg hty, if_neg (by simp [hr]), if_neg (fun hc => hty hc.1),
    if_neg (fun hc => absurd ht (Nat.not_le.mpr hc.2))]
  simp only [startAdvertising_policy, startAdvertising_scanResponse, startAdvertising_data,
    startAdvertising_parameters, startAdvertising_enable, startAdvertising_commands, issue, h0,
    BLE_STATUS_SUCCESS, ha, hd]
  split_ifs <;> simp_all

/-- Counterexample to C18: a scan-response payload of 32 bytes, one more than the maximum
31, is not rejected: with an in-size advertising payload on the idle controller
`setAdvertisingData` returns `BLE_ERROR_NONE` and caches the 32 bytes. -/
theorem setAdvertisingData_oversize_scanResponse :
    oversizePayload.getPayloadLen > sampleHeader.GAP_ADVERTISING_DATA_MAX_PAYLOAD ∧
      (setAdvertisingData sampleHeader radioOk samplePayload oversizePayload idleWorld).1
        = .BLE_ERROR_NONE ∧
      (setAdvertisingData sampleHeader radioOk samplePayload oversizePayload
        idleWorld).2.gap._scanResponse = oversizePayload := by
  decide

/-- C18 (amended): when the serialized length of the advertising payload exceeds the maximum,
`setAdvertisingData` returns `BLE_ERROR_BUFFER_OVERFLOW` with the world unchanged: no radio
command, same cached payloads.  The length of the scan-response payload is not checked: an
advertising payload of at most the maximum, so one of exactly the maximum, is accepted with
`BLE_ERROR_NONE` when advertising is not active, whatever the scan-response payload. -/
theorem setAdvertisingData_overflow (K : Header) (radio : Radio)
    (advData scanResponse : GapAdvertisingData) (w : World) :
    (advData.getPayloadLen > K.GAP_ADVERTISING_DATA_MAX_PAYLOAD →
      setAdvertisingData K radio advData scanResponse w = (.BLE_ERROR_BUFFER_OVERFLOW, w)) ∧
    (advData.getPayloadLen ≤ K.GAP_ADVERTISING_DATA_MAX_PAYLOAD →
      w.gap.state.advertising = false →
      (setAdvertisingData K radio advData scanResponse w).1 = .BLE_ERROR_NONE) := by
  refine ⟨?_, ?_⟩
  · intro h
    unfold setAdvertisingData
    rw [if_pos h]
  · intro hlen hadv
    exact setAdvertisingData_ok K radio advData scanResponse w hlen (Or.inl hadv)

/-- Witness of C18 (amended): an advertising payload of 32 bytes is rejected, one of exactly
31 bytes is accepted on the idle controller. -/
theorem setAdvertisingData_overflow_witness :
    setAdvertisingData sampleHeader radioOk oversizePayload sampleScanResponse idleWorld
        = (.BLE_ERROR_BUFFER_OVERFLOW, idleWorld) ∧
      (fullPayload.getPayloadLen = 31 ∧
        (setAdvertisingData sampleHeader radioOk fullPayload sampleScanResponse idleWorld).1
          = .BLE_ERROR_NONE) :=
  ⟨(setAdvertisingData_overflow sampleHeader radioOk oversizePayload sampleScanResponse
      idleWorld).1 (by decide),
   by decide,
   (setAdvertisingData_overflow sampleHeader radioOk fullPayload sampleScanResponse
      idleWorld).2 (by decide) (by decide)⟩

/-- Counterexample to C19: both sample payloads are within the maximum.  With advertising
active and a radio that fails the live update, `setAdvertisingData` returns an error and the
cached payloads are not the arguments.  And after a successful call on the idle controller, a
`startAdvertising` of type non-connectable-undirected does not push the cached scan response:
its set-scan-response-data command carries the empty payload. -/
theorem setAdvertisingData_not_always_cached :
    (samplePayload.getPayloadLen ≤ sampleHeader.GAP_ADVERTISING_DATA_MAX_PAYLOAD ∧
      sampleScanResponse.getPayloadLen ≤ sampleHeader.GAP_ADVERTISING_DATA_MAX_PAYLOAD) ∧
    ((setAdvertisingData sampleHeader (radioFail 0x41) samplePayload sampleScanResponse
        advertisingWorld).1 = .BLE_ERROR_UNSPECIFIED ∧
      (setAdvertisingData sampleHeader (radioFail 0x41) samplePayload sampleScanResponse
        advertisingWorld).2.gap._advData ≠ samplePayload ∧
      (setAdvertisingData sampleHeader (radioFail 0x41) samplePayload sampleScanResponse
        advertisingWorld).2.gap._scanResponse ≠ sampleScanResponse) ∧
    ((startAdvertising sampleHeader radioOk ⟨.ADV_NON_CONNECTABLE_UNDIRECTED, 0xA0, 0⟩
        (setAdvertisingData sampleHeader radioOk samplePayload sampleScanResponse
          idleWorld).2).2.issued
      = (setAdvertisingData sampleHeader radioOk samplePayload sampleScanResponse
          idleWorld).2.issued ++
        [.hci_le_set_scan_response_data 0 [],
         .hci_le_set_advertising_data 10 samplePayload.payload,
         .hci_le_set_advertising_parameters 0xA0 0xA1 .ADV_NON_CONNECTABLE_UNDIRECTED 0 0
           [0, 0, 0, 0, 0, 0] 7 0,
         .hci_le_set_advertise_enable 1]) := by
  decide

/-- C19 (amended): after a `setAdvertisingData` call that returns `BLE_ERROR_NONE` the cached
advertising payload and the cached scan-response payload are the arguments of the call;
after a call that returns an error (the overflow check, or a failed live update while
advertising) they are the ones from before.  A call with an advertising payload within the
maximum returns `BLE_ERROR_NONE` when advertising is not active and when every radio
command succeeds.  In the next `startAdvertising`, whatever the radio answers, every
set-advertising-data command carries the cached advertising payload, and every
set-scan-response-data command carries the cached scan response for the types
connectable-undirected and scannable-undirected and the empty payload for the other types. -/
theorem setAdvertisingData_cached_and_pushed (K : Header) (radio : Radio)
    (advData scanResponse : GapAdvertisingData) (w : World) :
    ((setAdvertisingData K radio advData scanResponse w).1 = .BLE_ERROR_NONE →
      (setAdvertisingData K radio advData scanResponse w).2.gap._advData = advData ∧
      (setAdvertisingData K radio advData scanResponse w).2.gap._scanResponse
        = scanResponse) ∧
    ((setAdvertisingData K radio advData scanResponse w).1 ≠ .BLE_ERROR_NONE →
      (setAdvertisingData K radio advData scanResponse w).2.gap._advData = w.gap._advData ∧
      (setAdvertisingData K radio advData scanResponse w).2.gap._scanResponse
        = w.gap._scanResponse) ∧
    (advData.getPayloadLen ≤ K.GAP_ADVERTISING_DATA_MAX_PAYLOAD →
      (w.gap.state.advertising = false ∨ ∀ l c, radio l c = BLE_STATUS_SUCCESS) →
      (setAdvertisingData K radio advData scanResponse w).1 = .BLE_ERROR_NONE) ∧
    (∀ (radio2 : Radio) (params : GapAdvertisingParams),
      ∃ l, (startAdvertising K radio2 params
            (setAdvertisingData K radio advData scanResponse w).2).2.issued
          = (setAdvertisingData K radio advData scanResponse w).2.issued ++ l ∧
        (∀ len data, Cmd.hci_le_set_advertising_data len data ∈ l →
          len = (setAdvertisingData K radio advData scanResponse w).2.gap._advData.getPayloadLen ∧
          data = (setAdvertisingData K radio advData scanResponse w).2.gap._advData.payload) ∧
        (∀ len data, Cmd.hci_le_set_scan_response_data len data ∈ l →
          if params.advertisingType = .ADV_CONNECTABLE_UNDIRECTED ∨
              params.advertisingType = .ADV_SCANNABLE_UNDIRECTED then
            len = (setAdvertisingData K radio advData scanResponse
                w).2.gap._scanResponse.getPayloadLen ∧
            data = (setAdvertisingData K radio advData scanResponse
                w).2.gap._scanResponse.payload
          else len = 0 ∧ data = [])) := by
  refine ⟨(setAdvertisingData_cache_result K radio advData scanResponse w).1,
    (setAdvertisingData_cache_result K radio advData scanResponse w).2,
    setAdvertisingData_ok K radio advData scanResponse w, ?_⟩
  intro radio2 params
  exact startAdvertising_pushes_cache K radio2 params _

/-- Witness of C19 (amended): the sample payloads on the idle controller are cached, and the
sample `startAdvertising` after it pushes them. -/
theorem setAdvertisingData_cached_and_pushed_witness :
    ((setAdvertisingData sampleHeader radioOk samplePayload sampleScanResponse
        idleWorld).2.gap._advData = samplePayload ∧
      (setAdvertisingData sampleHeader radioOk samplePayload sampleScanResponse
        idleWorld).2.gap._scanResponse = sampleScanResponse) ∧
    (setAdvertisingData sampleHeader radioOk samplePayload sampleScanResponse idleWorld).1
        = .BLE_ERROR_NONE ∧
    (startAdvertising sampleHeader radioOk sampleAdvParams
        (setAdvertisingData sampleHeader radioOk samplePayload sampleScanResponse
          idleWorld).2).2.issued
      = (setAdvertisingData sampleHeader radioOk samplePayload sampleScanResponse
          idleWorld).2.issued ++
        [.hci_le_set_scan_response_data 4 sampleScanResponse.payload,
         .hci_le_set_advertising_data 10 samplePayload.payload,
         .hci_le_set_advertising_parameters 160 161 .ADV_CONNECTABLE_UNDIRECTED 0 0
           [0, 0, 0, 0, 0, 0] 7 0,
         .hci_le_set_advertise_enable 1] :=
  ⟨(setAdvertisingData_cached_and_pushed sampleHeader radioOk samplePayload sampleScanResponse
      idleWorld).1 (by decide),
   (setAdvertisingData_cached_and_pushed sampleHeader radioOk samplePayload sampleScanResponse
      idleWorld).2.2.1 (by decide) (Or.inl (by decide)),
   by decide⟩

/-! ## Policy modes, reset and stubs -/

/-- Counterexample to C21: a scan is started on the idle controller under the policy
ignore-whitelist.  A DeviceFound report from a public address is then forwarded; the same
report is dropped when the policy filter-all-advertisements has been set after the scan was
started. -/
theorem policy_set_after_scan_start_filters :
    (startRadioScan sampleHeader radioOk ⟨16, 16, 0, true⟩ idleWorld).1 = .BLE_ERROR_NONE ∧
      (Discovery_CB sampleHeader radioOk .DEVICE_FOUND 0 0 samplePeer 3 [2, 1, 6] (-40)
        (startRadioScan sampleHeader radioOk ⟨16, 16, 0, true⟩ idleWorld).2).reports
        = [⟨samplePeer, -40, false, .ADV_CONNECTABLE_UNDIRECTED, 3, [2, 1, 6]⟩] ∧
      (Discovery_CB sampleHeader radioOk .DEVICE_FOUND 0 0 samplePeer 3 [2, 1, 6] (-40)
        (setScanningPolicyMode .SCAN_POLICY_FILTER_ALL_ADV
          (startRadioScan sampleHeader radioOk ⟨16, 16, 0, true⟩ idleWorld).2).2).reports
        = [] := by
  decide

/-- C21 (amended): the policy modes are plain fields written by the setters.  The scanning
policy mode is read by `startRadioScan` and again at every DeviceFound event: after
`setScanningPolicyMode(mode)`, also during a scan already started, a DeviceFound report is
forwarded exactly when `mode` is not filter-all-advertisements, the peer address type is not
a private one and the connecting flag is false.  The advertising policy mode is not read
while advertising is active: setting it commutes with `stopAdvertising` and with `Process`,
so that it takes effect at the next `startAdvertising` only. -/
theorem DeviceFound_uses_current_policy (K : Header) (radio : Radio)
    (mode : ScanningPolicyMode_t) (advMode : AdvertisingPolicyMode_t) (adv_type addr_type : Nat)
    (addr : List Nat) (data_length : Nat) (data : List Nat) (RSSI : Int) (w : World) :
    setScanningPolicyMode mode w
        = (.BLE_ERROR_NONE, { w with gap := { w.gap with scanningPolicyMode := mode } }) ∧
    (Discovery_CB K radio .DEVICE_FOUND adv_type addr_type addr data_length data RSSI
        (setScanningPolicyMode mode w).2).reports
      = (if mode ≠ .SCAN_POLICY_FILTER_ALL_ADV ∧ addr_type ≠ K.RESOLVABLE_PRIVATE_ADDR ∧
            addr_type ≠ K.NON_RESOLVABLE_PRIVATE_ADDR ∧ w.gap._connecting = false then
          w.reports ++ [⟨addr, RSSI, (advTypeTag K adv_type).2, (advTypeTag K adv_type).1,
            data_length, data⟩]
        else w.reports) ∧
    stopAdvertising radio (setAdvertisingPolicyMode advMode w).2
      = ((stopAdvertising radio w).1,
          (setAdvertisingPolicyMode advMode (stopAdvertising radio w).2).2) ∧
    Process K radio (setAdvertisingPolicyMode advMode w).2
      = (setAdvertisingPolicyMode advMode (Process K radio w)).2 := by
  refine ⟨rfl, ?_, ?_, ?_⟩
  · simp only [Discovery_CB, setScanningPolicyMode, processAdvertisementReport]
    split_ifs <;> simp_all
  · simp only [stopAdvertising, setAdvertisingPolicyMode, issue]
    split_ifs <;> rfl
  · simp only [Process, stopAdvertising, stopScan, setAdvertisingPolicyMode, issue]
    split_ifs <;> rfl

/-- The outcome of `reset`: when the reset of the base class fails the result is
`BLE_ERROR_INVALID_STATE`; otherwise it is `BLE_ERROR_NONE`, the two timeout flags are false,
the connection handle is the invalid one and both policy modes ignore the whitelist, and
every other member is as the base class left it. -/
theorem reset_eq (K : Header) (parent : World → ble_error_t × World) (w : World) :
    reset K parent w
      = if (parent w).1 ≠ .BLE_ERROR_NONE then (.BLE_ERROR_INVALID_STATE, (parent w).2)
        else (.BLE_ERROR_NONE, { (parent w).2 with gap := { (parent w).2.gap with
          AdvToFlag := false
          ScanToFlag := false
          m_connectionHandle := K.BLE_CONN_HANDLE_INVALID
          advertisingPolicyMode := .ADV_POLICY_IGNORE_WHITELIST
          scanningPolicyMode := .SCAN_POLICY_IGNORE_WHITELIST } }) := by
  simp only [reset]

/-- C22, the code at the failing input: on the busy controller `reset` returns
`BLE_ERROR_NONE`; the advertising and connected flags, both timeout flags, the connection
handle and both policy modes are back at their defaults, but the scanning flag and the
connecting flag are still true. -/
theorem reset_keeps_scanning_connecting :
    (reset sampleHeader Gap_reset busyWorld).1 = .BLE_ERROR_NONE ∧
      (reset sampleHeader Gap_reset busyWorld).2.gap.state = ⟨false, false⟩ ∧
      (reset sampleHeader Gap_reset busyWorld).2.gap.AdvToFlag = false ∧
      (reset sampleHeader Gap_reset busyWorld).2.gap.ScanToFlag = false ∧
      (reset sampleHeader Gap_reset busyWorld).2.gap.m_connectionHandle
        = sampleHeader.BLE_CONN_HANDLE_INVALID ∧
      (reset sampleHeader Gap_reset busyWorld).2.gap.advertisingPolicyMode
        = .ADV_POLICY_IGNORE_WHITELIST ∧
      (reset sampleHeader Gap_reset busyWorld).2.gap.scanningPolicyMode
        = .SCAN_POLICY_IGNORE_WHITELIST ∧
      (reset sampleHeader Gap_reset busyWorld).2.gap._scanning = true ∧
      (reset sampleHeader Gap_reset busyWorld).2.gap._connecting = true := by
  decide

/-- C23, the code at the failing inputs: each of the seven unimplemented operations, called on
the idle controller, leaves the world unchanged and returns no value at all, so in
particular not `BLE_ERROR_NOT_IMPLEMENTED`. -/
theorem stubs_return_no_value :
    (getPreferredConnectionParams (some ⟨6, 12, 0, 100⟩) idleWorld = (none, idleWorld) ∧
      setPreferredConnectionParams (some ⟨6, 12, 0, 100⟩) idleWorld = (none, idleWorld) ∧
      updateConnectionParams 1 (some ⟨6, 12, 0, 100⟩) idleWorld = (none, idleWorld) ∧
      setDeviceName (some [0x48, 0x52, 0]) idleWorld = (none, idleWorld) ∧
      getDeviceName (some [0, 0, 0]) (some 3) idleWorld = (none, idleWorld) ∧
      getAppearance (some 0) idleWorld = (none, idleWorld) ∧
      setTxPower 4 idleWorld = (none, idleWorld)) ∧
    (setTxPower 4 idleWorld).1 ≠ some .BLE_ERROR_NOT_IMPLEMENTED := by
  decide

/-! ## Timers and deferred processing -/

/-- The advertising timer after the enable step: attached with the requested timeout when the
step returns `BLE_ERROR_NONE` and the timeout is not zero, otherwise as before. -/
theorem startAdvertising_enable_advTimeout (radio : Radio) (params : GapAdvertisingParams)
    (w : World) :
    (startAdvertising_enable radio params w).2.gap.advTimeout
      = if (startAdvertising_enable radio params w).1 = .BLE_ERROR_NONE ∧ params.timeout ≠ 0
        then some params.timeout else w.gap.advTimeout := by
  simp only [startAdvertising_enable, issue]
  split_ifs <;> simp_all

/-- The advertising timer after the steps from the advertising parameters on. -/
theorem startAdvertising_parameters_advTimeout (K : Header) (radio : Radio)
    (params : GapAdvertisingParams) (f : Nat) (w : World) :
    (startAdvertising_parameters K radio params f w).2.gap.advTimeout
      = if (startAdvertising_parameters K radio params f w).1 = .BLE_ERROR_NONE ∧
            params.timeout ≠ 0
        then some params.timeout else w.gap.advTimeout := by
  simp only [startAdvertising_parameters, issue]
  split_ifs with h1 h2 h2
  · simp at h2
  · rfl
  · rw [startAdvertising_enable_advTimeout, if_pos h2]
  · rw [startAdvertising_enable_advTimeout, if_neg h2]

/-- The advertising timer after the steps from `setAdvParameters` on. -/
theorem startAdvertising_data_advTimeout (K : Header) (radio : Radio)
    (params : GapAdvertisingParams) (f : Nat) (w : World) :
    (startAdvertising_data K radio params f w).2.gap.advTimeout
      = if (startAdvertising_data K radio params f w).1 = .BLE_ERROR_NONE ∧ params.timeout ≠ 0
        then some params.timeout else w.gap.advTimeout := by
  have hs : (setAdvParameters K w.gap).advTimeout = w.gap.advTimeout := by
    unfold setAdvParameters; split_ifs <;> rfl
  simp only [startAdvertising_data, issue]
  split_ifs with h1 h2 h2
  · simp at h2
  · exact hs
  · rw [startAdvertising_parameters_advTimeout, if_pos h2]
  · rw [startAdvertising_parameters_advTimeout, if_neg h2]; exact hs

/-- The advertising timer after the steps from the scan response on. -/
theorem startAdvertising_scanResponse_advTimeout (K : Header) (radio : Radio)
    (params : GapAdvertisingParams) (f : Nat) (w : World) :
    (startAdvertising_scanResponse K radio params f w).2.gap.advTimeout
      = if (startAdvertising_scanResponse K radio params f w).1 = .BLE_ERROR_NONE ∧
            params.timeout ≠ 0
        then some params.timeout else w.gap.advTimeout := by
  simp only [startAdvertising_scanResponse, issue]
  by_cases hty : params.advertisingType = .ADV_CONNECTABLE_UNDIRECTED ∨
      params.advertisingType = .ADV_SCANNABLE_UNDIRECTED
  · simp only [if_pos hty]
    by_cases hs : BLE_STATUS_SUCCESS ≠ radio w.issued (.hci_le_set_scan_response_data
        w.gap._scanResponse.getPayloadLen w.gap._scanResponse.payload)
    · simp only [if_pos hs]
      split_ifs <;> simp_all
    · simp only [if_neg hs]
      exact startAdvertising_data_advTimeout K radio params f _
  · simp only [if_neg hty]
    exact startAdvertising_data_advTimeout K radio params f _

/-- The advertising timer after `startAdvertising`: attached with the requested timeout when
the call returns `BLE_ERROR_NONE` and the timeout is not zero, otherwise as it was before. -/
theorem startAdvertising_advTimeout (K : Header) (radio : Radio) (params : GapAdvertisingParams)
    (w : World) :
    (startAdvertising K radio params w).2.gap.advTimeout
      = if (startAdvertising K radio params w).1 = .BLE_ERROR_NONE ∧ params.timeout ≠ 0
        then some params.timeout else w.gap.advTimeout := by
  have hpolicy : (startAdvertising_policy K radio params w).2.gap.advTimeout
      = if (startAdvertising_policy K radio params w).1 = .BLE_ERROR_NONE ∧ params.timeout ≠ 0
        then some params.timeout else w.gap.advTimeout := by
    simp only [startAdvertising_policy, issue]
    by_cases hmode : w.gap.advertisingPolicyMode ≠ .ADV_POLICY_IGNORE_WHITELIST
    · simp only [if_pos hmode]
      by_cases hs : radio w.issued .aci_gap_configure_whitelist ≠ BLE_STATUS_SUCCESS
      · simp only [if_pos hs]
        split_ifs <;> simp_all
      · simp only [if_neg hs]
        exact startAdvertising_scanResponse_advTimeout K radio params _ _
    · simp only [if_neg hmode]
      exact startAdvertising_scanResponse_advTimeout K radio params _ _
  unfold startAdvertising
  by_cases h1 : params.advertisingType = .ADV_CONNECTABLE_DIRECTED
  · simp [h1]
  · rw [if_neg h1]
    by_cases h2 : intervalOutOfRange K params = true
    · simp [h2]
    · rw [if_neg h2, if_neg (fun hc => h1 hc.1)]
      by_cases h3 : params.advertisingType ≠ .ADV_CONNECTABLE_DIRECTED ∧
          params.timeout > K.GAP_ADV_PARAMS_TIMEOUT_MAX
      · simp [h3]
      · rw [if_neg h3]
        exact hpolicy

/-- C28: `startAdvertising` attaches the advertising timer exactly when it returns
`BLE_ERROR_NONE` and the requested timeout is not zero, and then with the requested timeout
(in seconds) as duration; when the timeout is zero or the call returns an error the timer is
as it was before the call. -/
theorem startAdvertising_arms_timer (K : Header) (radio : Radio) (params : GapAdvertisingParams)
    (w : World) :
    ((startAdvertising K radio params w).1 = .BLE_ERROR_NONE ∧ params.timeout ≠ 0 →
      (startAdvertising K radio params w).2.gap.advTimeout = some params.timeout) ∧
    (params.timeout = 0 ∨ (startAdvertising K radio params w).1 ≠ .BLE_ERROR_NONE →
      (startAdvertising K radio params w).2.gap.advTimeout = w.gap.advTimeout) := by
  rw [startAdvertising_advTimeout]
  refine ⟨?_, ?_⟩
  · intro h
    rw [if_pos h]
  · intro h
    rw [if_neg]
    intro hc
    rcases h with h | h
    · exact hc.2 h
    · exact h hc.1

/-- Witness of C28: on the idle controller the sample call (timeout 5 s) attaches the timer
for 5 s, the same call with timeout 0 and a call on a failing radio leave it detached. -/
theorem startAdvertising_arms_timer_witness :
    (startAdvertising sampleHeader radioOk sampleAdvParams idleWorld).2.gap.advTimeout
        = some 5 ∧
      (startAdvertising sampleHeader radioOk ⟨.ADV_CONNECTABLE_UNDIRECTED, 160, 0⟩
        idleWorld).2.gap.advTimeout = idleWorld.gap.advTimeout ∧
      (startAdvertising sampleHeader (radioFail 0x41) sampleAdvParams
        idleWorld).2.gap.advTimeout = idleWorld.gap.advTimeout :=
  ⟨(startAdvertising_arms_timer sampleHeader radioOk sampleAdvParams idleWorld).1
      (by decide),
   (startAdvertising_arms_timer sampleHeader radioOk ⟨.ADV_CONNECTABLE_UNDIRECTED, 160, 0⟩
      idleWorld).2 (Or.inl rfl),
   (startAdvertising_arms_timer sampleHeader (radioFail 0x41) sampleAdvParams idleWorld).2
      (Or.inr (by decide))⟩

/-- C29: in every state the advertising timer callback sets the advertising-timed-out flag,
requests processing once and detaches the advertising timer, and the scan timer callback
does the same with the scanning-timed-out flag and the scan timer; nothing else changes: no
radio command is issued and the advertising, scanning, connecting and connected flags are
as before. -/
theorem timeout_callbacks_only_flag (w : World) :
    advTimeoutCB w
        = { w with gap := { w.gap with AdvToFlag := true, advTimeout := none }
                   eventsSignalled := w.eventsSignalled + 1 } ∧
    scanTimeoutCB w
        = { w with gap := { w.gap with ScanToFlag := true, scanTimeout := none }
                   eventsSignalled := w.eventsSignalled + 1 } ∧
    ((advTimeoutCB w).issued = w.issued ∧ (advTimeoutCB w).gap.state = w.gap.state ∧
      (advTimeoutCB w).gap._scanning = w.gap._scanning ∧
      (advTimeoutCB w).gap._connecting = w.gap._connecting) ∧
    ((scanTimeoutCB w).issued = w.issued ∧ (scanTimeoutCB w).gap.state = w.gap.state ∧
      (scanTimeoutCB w).gap._scanning = w.gap._scanning ∧
      (scanTimeoutCB w).gap._connecting = w.gap._connecting) :=
  ⟨rfl, rfl, ⟨rfl, rfl, rfl, rfl⟩, ⟨rfl, rfl, rfl, rfl⟩⟩

/-- The calls `stopAdvertising` and `stopScan` leave the two timeout flags alone. -/
theorem stop_keeps_timeout_flags (K : Header) (radio : Radio) (w : World) :
    ((stopAdvertising radio w).2.gap.AdvToFlag = w.gap.AdvToFlag ∧
      (stopAdvertising radio w).2.gap.ScanToFlag = w.gap.ScanToFlag) ∧
    ((stopScan K radio w).2.gap.AdvToFlag = w.gap.AdvToFlag ∧
      (stopScan K radio w).2.gap.ScanToFlag = w.gap.ScanToFlag) := by
  simp only [stopAdvertising, stopScan, issue]
  refine ⟨⟨?_, ?_⟩, ⟨?_, ?_⟩⟩ <;> split_ifs <;> rfl

/-- C30: `Process` calls `stopAdvertising` exactly when the advertising-timed-out flag is
set at entry and `stopScan` exactly when the scanning-timed-out flag is set at entry, each
after clearing the flag that was set, the advertising one first; both flags are false when
`Process` returns.  With neither flag set `Process` leaves the world unchanged: no radio
command, same controller. -/
theorem Process_dispatch (K : Header) (radio : Radio) (w : World) :
    (w.gap.AdvToFlag = false → w.gap.ScanToFlag = false → Process K radio w = w) ∧
    (w.gap.AdvToFlag = true → w.gap.ScanToFlag = false →
      Process K radio w
        = (stopAdvertising radio { w with gap := { w.gap with AdvToFlag := false } }).2) ∧
    (w.gap.AdvToFlag = false → w.gap.ScanToFlag = true →
      Process K radio w
        = (stopScan K radio { w with gap := { w.gap with ScanToFlag := false } }).2) ∧
    (w.gap.AdvToFlag = true → w.gap.ScanToFlag = true →
      Process K radio w
        = (stopScan K radio
            { (stopAdvertising radio { w with gap := { w.gap with AdvToFlag := false } }).2 with
              gap := { (stopAdvertising radio
                  { w with gap := { w.gap with AdvToFlag := false } }).2.gap with
                ScanToFlag := false } }).2) ∧
    ((Process K radio w).gap.AdvToFlag = false ∧ (Process K radio w).gap.ScanToFlag = false) := by
  have hadv := fun v => (stop_keeps_timeout_flags K radio v).1
  have hscan := fun v => (stop_keeps_timeout_flags K radio v).2
  refine ⟨?_, ?_, ?_, ?_, ?_⟩
  · intro ha hs
    simp [Process, ha, hs]
  · intro ha hs
    have h2 := (hadv { w with gap := { w.gap with AdvToFlag := false } }).2
    simp only [Process, ha, if_true]
    rw [if_neg]
    rw [h2]
    simpa using hs
  · intro ha hs
    simp [Process, ha, hs]
  · intro ha hs
    have h2 := (hadv { w with gap := { w.gap with AdvToFlag := false } }).2
    simp only [Process, ha, if_true]
    rw [if_pos]
    rw [h2]
    simpa using hs
  · simp only [Process]
    split_ifs with ha hs hs
    · rw [(hscan _).1, (hscan _).2]
      exact ⟨(hadv _).1, rfl⟩
    · exact ⟨(hadv _).1, by simpa using hs⟩
    · rw [(hscan _).1, (hscan _).2]
      exact ⟨by simpa using ha, rfl⟩
    · exact ⟨by simpa using ha, by simpa using hs⟩

/-- Witness of C30: the idle controller (no flag), and the advertising controller after the
advertising timer fired, where `Process` issues the disable command and clears the flag. -/
theorem Process_dispatch_witness :
    Process sampleHeader radioOk idleWorld = idleWorld ∧
      (Process sampleHeader radioOk (advTimeoutCB advertisingWorld)
        = (stopAdvertising radioOk { advTimeoutCB advertisingWorld with
            gap := { (advTimeoutCB advertisingWorld).gap with AdvToFlag := false } }).2) ∧
      (Process sampleHeader radioOk (advTimeoutCB advertisingWorld)).issued
        = [.hci_le_set_advertise_enable 0] :=
  ⟨(Process_dispatch sampleHeader radioOk idleWorld).1 (by decide) (by decide),
   (Process_dispatch sampleHeader radioOk (advTimeoutCB advertisingWorld)).2.1 (by decide)
      (by decide),
   by decide⟩

/-! ## Command sequence of `startAdvertising` -/

/-- With parameters that pass the checks, `startAdvertising` is the part of it after the
checks. -/
theorem startAdvertising_valid_eq (K : Header) (radio : Radio) (params : GapAdvertisingParams)
    (w : World) (hty : params.advertisingType ≠ .ADV_CONNECTABLE_DIRECTED)
    (hr : intervalOutOfRange K params = false)
    (ht : params.timeout ≤ K.GAP_ADV_PARAMS_TIMEOUT_MAX) :
    startAdvertising K radio params w = startAdvertising_policy K radio params w := by
  unfold startAdvertising
  rw [if_neg hty, if_neg (by simp [hr]), if_neg (fun hc => hty hc.1),
    if_neg (fun hc => absurd ht (Nat.not_le.mpr hc.2))]

/-- The enable step against the spec: result and log. -/
theorem startAdvertising_enable_run (K : Header) (radio : Radio)
    (params : GapAdvertisingParams) (w : World) :
    ((startAdvertising_enable radio params w).1, (startAdvertising_enable radio params w).2.issued)
      = startAdvertising_spec_run K radio params w.issued [Cmd.hci_le_set_advertise_enable 1] := by
  simp only [startAdvertising_enable, issue, startAdvertising_spec_run,
    startAdvertising_spec_checked, startAdvertising_spec_error, BLE_STATUS_SUCCESS]
  split_ifs <;> simp_all

/-- The steps from the advertising parameters on against the spec: result and log. -/
theorem startAdvertising_parameters_run (K : Header) (radio : Radio)
    (params : GapAdvertisingParams) (f : Nat) (w : World) :
    ((startAdvertising_parameters K radio params f w).1,
        (startAdvertising_parameters K radio params f w).2.issued)
      = startAdvertising_spec_run K radio params w.issued
          [Cmd.hci_le_set_advertising_parameters (advIntervalMin K w.gap.advInterval)
            (advIntervalMax K w.gap.advInterval) params.advertisingType w.gap.addr_type 0
            [0, 0, 0, 0, 0, 0] 7 f,
           Cmd.hci_le_set_advertise_enable 1] := by
  rw [startAdvertising_spec_run]
  simp only [startAdvertising_parameters, issue, startAdvertising_spec_checked,
    startAdvertising_spec_error, BLE_STATUS_SUCCESS, true_and]
  split_ifs
  · rfl
  · exact startAdvertising_enable_run K radio params _

/-- The steps from `setAdvParameters` on against the spec: result and log. -/
theorem startAdvertising_data_run (K : Header) (radio : Radio)
    (params : GapAdvertisingParams) (f : Nat) (w : World) :
    ((startAdvertising_data K radio params f w).1,
        (startAdvertising_data K radio params f w).2.issued)
      = startAdvertising_spec_run K radio params w.issued
          [Cmd.hci_le_set_advertising_data w.gap._advData.getPayloadLen w.gap._advData.payload,
           Cmd.hci_le_set_advertising_parameters
            (advIntervalMin K (setAdvParameters K w.gap).advInterval)
            (advIntervalMax K (setAdvParameters K w.gap).advInterval) params.advertisingType
            w.gap.addr_type 0 [0, 0, 0, 0, 0, 0] 7 f,
           Cmd.hci_le_set_advertise_enable 1] := by
  obtain ⟨ha, hd, -⟩ := setAdvParameters_frame K w.gap
  rw [startAdvertising_spec_run]
  simp only [startAdvertising_data, issue, startAdvertising_spec_checked,
    startAdvertising_spec_error, BLE_STATUS_SUCCESS, true_and, hd]
  split_ifs
  · rfl
  · have h := startAdvertising_parameters_run K radio params f
      { w with gap := setAdvParameters K w.gap
               issued := w.issued ++ [Cmd.hci_le_set_advertising_data
                 w.gap._advData.getPayloadLen w.gap._advData.payload] }
    simp only [ha] at h
    exact h

/-- The steps from the scan response on against the spec: result and log. -/
theorem startAdvertising_scanResponse_run (K : Header) (radio : Radio)
    (params : GapAdvertisingParams) (f : Nat) (w : World) :
    ((startAdvertising_scanResponse K radio params f w).1,
        (startAdvertising_scanResponse K radio params f w).2.issued)
      = startAdvertising_spec_run K radio params w.issued
          [(if params.advertisingType = .ADV_CONNECTABLE_UNDIRECTED ∨
                params.advertisingType = .ADV_SCANNABLE_UNDIRECTED then
              Cmd.hci_le_set_scan_response_data w.gap._scanResponse.getPayloadLen
                w.gap._scanResponse.payload
            else Cmd.hci_le_set_scan_response_data 0 []),
           Cmd.hci_le_set_advertising_data w.gap._advData.getPayloadLen w.gap._advData.payload,
           Cmd.hci_le_set_advertising_parameters
            (advIntervalMin K (setAdvParameters K w.gap).advInterval)
            (advIntervalMax K (setAdvParameters K w.gap).advInterval) params.advertisingType
            w.gap.addr_type 0 [0, 0, 0, 0, 0, 0] 7 f,
           Cmd.hci_le_set_advertise_enable 1] := by
  by_cases hty : params.advertisingType = .ADV_CONNECTABLE_UNDIRECTED ∨
      params.advertisingType = .ADV_SCANNABLE_UNDIRECTED
  · have hnext := startAdvertising_data_run K radio params f
      { w with issued := w.issued ++ [Cmd.hci_le_set_scan_response_data
          w.gap._scanResponse.getPayloadLen w.gap._scanResponse.payload] }
    dsimp only at hnext
    simp only [if_pos hty]
    rw [startAdvertising_spec_run, ← hnext]
    simp only [startAdvertising_scanResponse, issue, startAdvertising_spec_checked,
      startAdvertising_spec_error, BLE_STATUS_SUCCESS, if_pos hty, decide_True, true_and]
    clear hnext
    split_ifs <;> simp_all
  · have hnext := startAdvertising_data_run K radio params f
      { w with issued := w.issued ++ [Cmd.hci_le_set_scan_response_data 0 []] }
    dsimp only at hnext
    simp only [if_neg hty]
    rw [startAdvertising_spec_run, ← hnext]
    simp [startAdvertising_scanResponse, issue, startAdvertising_spec_checked, hty]

/-- The part of `startAdvertising` after the checks against the spec: result and log. -/
theorem startAdvertising_policy_run (K : Header) (radio : Radio)
    (params : GapAdvertisingParams) (w : World) :
    ((startAdvertising_policy K radio params w).1,
        (startAdvertising_policy K radio params w).2.issued)
      = startAdvertising_spec_run K radio params w.issued
          (startAdvertising_commands K params w.gap) := by
  simp only [startAdvertising_commands]
  by_cases hmode : w.gap.advertisingPolicyMode ≠ .ADV_POLICY_IGNORE_WHITELIST
  · have hnext := startAdvertising_scanResponse_run K radio params
      (advFilterPolicy K w.gap.advertisingPolicyMode)
      { w with issued := w.issued ++ [Cmd.aci_gap_configure_whitelist] }
    dsimp only at hnext
    rw [if_pos hmode, List.singleton_append, startAdvertising_spec_run, ← hnext]
    simp only [startAdvertising_policy, issue, startAdvertising_spec_checked,
      startAdvertising_spec_error, BLE_STATUS_SUCCESS, true_and, if_pos hmode]
    by_cases hs : radio w.issued Cmd.aci_gap_configure_whitelist = 0
    · simp [hs]
    · simp [hs]
  · have hnext := startAdvertising_scanResponse_run K radio params
      (advFilterPolicy K w.gap.advertisingPolicyMode) w
    rw [if_neg hmode, List.nil_append, ← hnext]
    simp only [startAdvertising_policy, if_neg hmode]

/-- C24: with parameters that pass the checks, `startAdvertising` issues its commands in order
up to the first one whose failure it looks at and returns the error of that command, with
no later command in the log: configure-whitelist gives `BLE_ERROR_OPERATION_NOT_PERMITTED`;
scan response data, for the types connectable-undirected and scannable-undirected, gives
`BLE_STACK_BUSY` on the timeout status and `BLE_ERROR_UNSPECIFIED` otherwise; advertising
data gives `BLE_ERROR_UNSPECIFIED`; advertising parameters give `BLE_ERROR_INVALID_PARAM`;
enable gives `BLE_ERROR_UNSPECIFIED`.  In every such failure the advertising flag and the
advertising timer are as before the call. -/
theorem startAdvertising_first_failure (K : Header) (radio : Radio)
    (params : GapAdvertisingParams) (w : World)
    (hty : params.advertisingType ≠ .ADV_CONNECTABLE_DIRECTED)
    (hr : intervalOutOfRange K params = false)
    (ht : params.timeout ≤ K.GAP_ADV_PARAMS_TIMEOUT_MAX) :
    ((startAdvertising K radio params w).1, (startAdvertising K radio params w).2.issued)
        = startAdvertising_spec_run K radio params w.issued
            (startAdvertising_commands K params w.gap) ∧
    ((startAdvertising K radio params w).1 ≠ .BLE_ERROR_NONE →
      (startAdvertising K radio params w).2.gap.state.advertising = w.gap.state.advertising ∧
      (startAdvertising K radio params w).2.gap.advTimeout = w.gap.advTimeout) := by
  refine ⟨?_, ?_⟩
  · rw [startAdvertising_valid_eq K radio params w hty hr ht]
    exact startAdvertising_policy_run K radio params w
  · intro herr
    refine ⟨by rw [startAdvertising_state], ?_⟩
    rw [startAdvertising_advTimeout, if_neg (fun hc => herr hc.1)]

/-- Witness of C24: the sample call on the idle controller with the first, second, third and
fourth command failing, and on the controller with a filtering policy with the whitelist
configuration failing. -/
theorem startAdvertising_first_failure_witness :
    (startAdvertising sampleHeader (radioFailAt 0 0xFF) sampleAdvParams idleWorld).1
        = .BLE_STACK_BUSY ∧
      (startAdvertising sampleHeader (radioFailAt 0 0x41) sampleAdvParams idleWorld).1
        = .BLE_ERROR_UNSPECIFIED ∧
      (startAdvertising sampleHeader (radioFailAt 1 0x41) sampleAdvParams idleWorld).1
        = .BLE_ERROR_UNSPECIFIED ∧
      (startAdvertising sampleHeader (radioFailAt 2 0x41) sampleAdvParams idleWorld).1
        = .BLE_ERROR_INVALID_PARAM ∧
      (startAdvertising sampleHeader (radioFailAt 3 0x41) sampleAdvParams idleWorld).1
        = .BLE_ERROR_UNSPECIFIED ∧
      (startAdvertising sampleHeader (radioFailAt 0 0x41) sampleAdvParams filterReqsWorld).1
        = .BLE_ERROR_OPERATION_NOT_PERMITTED ∧
      (startAdvertising sampleHeader (radioFailAt 2 0x41) sampleAdvParams idleWorld).2.issued
        = [.hci_le_set_scan_response_data 0 [], .hci_le_set_advertising_data 0 [],
           .hci_le_set_advertising_parameters 160 161 .ADV_CONNECTABLE_UNDIRECTED 0 0
             [0, 0, 0, 0, 0, 0] 7 0] ∧
      (startAdvertising sampleHeader (radioFailAt 2 0x41) sampleAdvParams
        idleWorld).2.gap.advTimeout = idleWorld.gap.advTimeout :=
  ⟨(congrArg Prod.fst (startAdvertising_first_failure sampleHeader (radioFailAt 0 0xFF)
      sampleAdvParams idleWorld (by decide) (by decide) (by decide)).1).trans (by decide),
   (congrArg Prod.fst (startAdvertising_first_failure sampleHeader (radioFailAt 0 0x41)
      sampleAdvParams idleWorld (by decide) (by decide) (by decide)).1).trans (by decide),
   (congrArg Prod.fst (startAdvertising_first_failure sampleHeader (radioFailAt 1 0x41)
      sampleAdvParams idleWorld (by decide) (by decide) (by decide)).1).trans (by decide),
   (congrArg Prod.fst (startAdvertising_first_failure sampleHeader (radioFailAt 2 0x41)
      sampleAdvParams idleWorld (by decide) (by decide) (by decide)).1).trans (by decide),
   (congrArg Prod.fst (startAdvertising_first_failure sampleHeader (radioFailAt 3 0x41)
      sampleAdvParams idleWorld (by decide) (by decide) (by decide)).1).trans (by decide),
   (congrArg Prod.fst (startAdvertising_first_failure sampleHeader (radioFailAt 0 0x41)
      sampleAdvParams filterReqsWorld (by decide) (by decide) (by decide)).1).trans
      (by decide),
   (congrArg Prod.snd (startAdvertising_first_failure sampleHeader (radioFailAt 2 0x41)
      sampleAdvParams idleWorld (by decide) (by decide) (by decide)).1).trans (by decide),
   ((startAdvertising_first_failure sampleHeader (radioFailAt 2 0x41) sampleAdvParams
      idleWorld (by decide) (by decide) (by decide)).2 (by decide)).2⟩

/-- The whitelist configuration is not among the commands of the steps from the scan
response on. -/
theorem startAdvertising_scanResponse_no_whitelist (K : Header) (radio : Radio)
    (params : GapAdvertisingParams) (f : Nat) (w : World) :
    ∃ l, (startAdvertising_scanResponse K radio params f w).2.issued = w.issued ++ l ∧
      Cmd.aci_gap_configure_whitelist ∉ l := by
  obtain ⟨n, hn⟩ := startAdvertising_scanResponse_issued K radio params f w
  refine ⟨_, hn, ?_⟩
  intro hmem
  have h := List.mem_of_mem_take hmem
  simp only [List.mem_cons, List.mem_singleton] at h
  rcases h with h | h | h | h | h
  · split_ifs at h
  · simp at h
  · simp at h
  · simp at h
  · simp at h

/-- C25: with parameters that pass the checks, `startAdvertising` issues the
configure-whitelist command exactly when the advertising policy mode is not
ignore-whitelist; it is then the first command of the call and is issued once; when its
status is not success the call ends with `BLE_ERROR_OPERATION_NOT_PERMITTED`, no other
command issued and the controller unchanged. -/
theorem startAdvertising_whitelist_first (K : Header) (radio : Radio)
    (params : GapAdvertisingParams) (w : World)
    (hty : params.advertisingType ≠ .ADV_CONNECTABLE_DIRECTED)
    (hr : intervalOutOfRange K params = false)
    (ht : params.timeout ≤ K.GAP_ADV_PARAMS_TIMEOUT_MAX) :
    ∃ l, (startAdvertising K radio params w).2.issued = w.issued ++ l ∧
      (Cmd.aci_gap_configure_whitelist ∈ l ↔
        w.gap.advertisingPolicyMode ≠ .ADV_POLICY_IGNORE_WHITELIST) ∧
      (w.gap.advertisingPolicyMode ≠ .ADV_POLICY_IGNORE_WHITELIST →
        ∃ rest, l = Cmd.aci_gap_configure_whitelist :: rest ∧
          Cmd.aci_gap_configure_whitelist ∉ rest) ∧
      (w.gap.advertisingPolicyMode ≠ .ADV_POLICY_IGNORE_WHITELIST →
        radio w.issued Cmd.aci_gap_configure_whitelist ≠ BLE_STATUS_SUCCESS →
        startAdvertising K radio params w
          = (.BLE_ERROR_OPERATION_NOT_PERMITTED,
              { w with issued := w.issued ++ [Cmd.aci_gap_configure_whitelist] })) := by
  rw [startAdvertising_valid_eq K radio params w hty hr ht]
  by_cases hmode : w.gap.advertisingPolicyMode ≠ .ADV_POLICY_IGNORE_WHITELIST
  · by_cases hs : radio w.issued Cmd.aci_gap_configure_whitelist ≠ BLE_STATUS_SUCCESS
    · have hfail : startAdvertising_policy K radio params w
          = (.BLE_ERROR_OPERATION_NOT_PERMITTED,
              { w with issued := w.issued ++ [Cmd.aci_gap_configure_whitelist] }) := by
        simp only [startAdvertising_policy, issue, if_pos hmode, if_pos hs]
      rw [hfail]
      exact ⟨[Cmd.aci_gap_configure_whitelist], rfl, by simp [hmode],
        fun _ => ⟨[], rfl, by simp⟩, fun _ _ => rfl⟩
    · have hcont : startAdvertising_policy K radio params w
          = startAdvertising_scanResponse K radio params
              (advFilterPolicy K w.gap.advertisingPolicyMode)
              { w with issued := w.issued ++ [Cmd.aci_gap_configure_whitelist] } := by
        simp only [startAdvertising_policy, issue, if_pos hmode, if_neg hs]
      obtain ⟨l, hl, hnot⟩ := startAdvertising_scanResponse_no_whitelist K radio params
        (advFilterPolicy K w.gap.advertisingPolicyMode)
        { w with issued := w.issued ++ [Cmd.aci_gap_configure_whitelist] }
      rw [hcont]
      refine ⟨Cmd.aci_gap_configure_whitelist :: l, ?_, by simp [hmode],
        fun _ => ⟨l, rfl, hnot⟩, fun _ h => absurd h hs⟩
      rw [hl]
      simp
  · have hign : startAdvertising_policy K radio params w
        = startAdvertising_scanResponse K radio params
            (advFilterPolicy K w.gap.advertisingPolicyMode) w := by
      simp only [startAdvertising_policy, if_neg hmode]
    obtain ⟨l, hl, hnot⟩ := startAdvertising_scanResponse_no_whitelist K radio params
      (advFilterPolicy K w.gap.advertisingPolicyMode) w
    rw [hign]
    exact ⟨l, hl, ⟨fun h => absurd h hnot, fun h => absurd h hmode⟩,
      fun h => absurd h hmode, fun h => absurd h hmode⟩

/-- Witness of C25: with the policy filter-all-requests and the whitelist configuration
failing, the sample call ends after that one command. -/
theorem startAdvertising_whitelist_first_witness :
    (∃ l, (startAdvertising sampleHeader radioOk sampleAdvParams idleWorld).2.issued
        = idleWorld.issued ++ l ∧
      (Cmd.aci_gap_configure_whitelist ∈ l ↔
        idleWorld.gap.advertisingPolicyMode ≠ .ADV_POLICY_IGNORE_WHITELIST)) ∧
    startAdvertising sampleHeader (radioFailAt 0 0x41) sampleAdvParams filterReqsWorld
      = (.BLE_ERROR_OPERATION_NOT_PERMITTED,
          { filterReqsWorld with issued := [Cmd.aci_gap_configure_whitelist] }) :=
  ⟨(startAdvertising_whitelist_first sampleHeader radioOk sampleAdvParams idleWorld
      (by decide) (by decide) (by decide)).imp (fun _ h => ⟨h.1, h.2.1⟩),
   by
    obtain ⟨_, _, _, _, h⟩ := startAdvertising_whitelist_first sampleHeader
      (radioFailAt 0 0x41) sampleAdvParams filterReqsWorld (by decide) (by decide)
      (by decide)
    exact h (by decide) (by decide)⟩

/-- The advertising-parameters command of `startAdvertising`: whatever the radio answers,
every such command of the call carries the minimum and maximum computed from the effective
advertising interval (the one `setAdvParameters` stores), the requested type, the address
type of the controller, the direct address type 0, all channels and the filter policy of
the advertising policy mode. -/
theorem startAdvertising_parameters_command (K : Header) (radio : Radio)
    (params : GapAdvertisingParams) (w : World) :
    ∃ l, (startAdvertising K radio params w).2.issued = w.issued ++ l ∧
      ∀ imin imax ty own dty daddr ch fp,
        Cmd.hci_le_set_advertising_parameters imin imax ty own dty daddr ch fp ∈ l →
        imin = advIntervalMin K (setAdvParameters K w.gap).advInterval ∧
        imax = advIntervalMax K (setAdvParameters K w.gap).advInterval ∧
        ty = params.advertisingType ∧ own = w.gap.addr_type ∧ dty = 0 ∧ ch = 7 ∧
        fp = advFilterPolicy K w.gap.advertisingPolicyMode := by
  obtain ⟨n, hn⟩ := startAdvertising_issued K radio params w
  refine ⟨_, hn, ?_⟩
  intro imin imax ty own dty daddr ch fp hmem
  have h := List.mem_of_mem_take hmem
  simp only [startAdvertising_commands, List.mem_append, List.mem_cons] at h
  rcases h with h | h | h | h | h | h
  · split_ifs at h <;> simp at h
  · split_ifs at h
  · simp at h
  · simp only [Cmd.hci_le_set_advertising_parameters.injEq] at h
    obtain ⟨h1, h2, h3, h4, h5, -, h7, h8⟩ := h
    exact ⟨h1, h2, h3, h4, h5, h7, h8⟩
  · simp at h
  · simp at h

/-- The 16-bit arithmetic of the two interval bounds. -/
theorem advInterval_bounds (K : Header) (E : Nat) :
    advIntervalMax K E = (advIntervalMin K E + 1) % 2 ^ 16 ∧
    (advIntervalMin K E < 2 ^ 16 - 1 → advIntervalMax K E = advIntervalMin K E + 1) ∧
    (E < 2 ^ 16 → E ≠ K.GAP_ADV_PARAMS_INTERVAL_MAX → advIntervalMin K E = E) ∧
    (E < 2 ^ 16 → E = K.GAP_ADV_PARAMS_INTERVAL_MAX → 1 ≤ K.GAP_ADV_PARAMS_INTERVAL_MAX →
      advIntervalMin K E = K.GAP_ADV_PARAMS_INTERVAL_MAX - 1) ∧
    (E ≤ K.GAP_ADV_PARAMS_INTERVAL_MAX → K.GAP_ADV_PARAMS_INTERVAL_MAX < 2 ^ 16 - 1 →
      advIntervalMax K E ≤ K.GAP_ADV_PARAMS_INTERVAL_MAX) := by
  have h16 : (2 : Nat) ^ 16 = 65536 := by norm_num
  simp only [advIntervalMax, advIntervalMin, h16]
  refine ⟨trivial, ?_, ?_, ?_, ?_⟩
  · intro h
    split_ifs at h ⊢ <;> omega
  · intro h1 h2
    rw [if_neg h2]
    omega
  · intro h1 h2 h3
    rw [if_pos h2]
    omega
  · intro h1 h2
    split_ifs <;> omega

/-- The advertising-parameters command of `startAdvertising`, for every input: its maximum
is its minimum plus one as computed on 16 bits, which is the minimum plus one whenever the
minimum is below 0xFFFF.  Its minimum is the effective advertising interval `E` (a 16-bit
value), except that for `E` equal to `GAP_ADV_PARAMS_INTERVAL_MAX` (at least 1) it is
`GAP_ADV_PARAMS_INTERVAL_MAX - 1`; hence the maximum does not exceed the ceiling when `E`
does not (the ceiling being below 0xFFFF).  The command carries the requested type, the
address type of the controller and the filter policy of the policy mode: ignore gives no
whitelist, filter-scan-requests whitelist for scan only, filter-connection-requests
whitelist for connections only, filter-all-requests whitelist for all. -/
theorem startAdvertising_interval_clamp (K : Header) (radio : Radio)
    (params : GapAdvertisingParams) (w : World) :
    ∃ l, (startAdvertising K radio params w).2.issued = w.issued ++ l ∧
      ∀ imin imax ty own dty daddr ch fp,
        Cmd.hci_le_set_advertising_parameters imin imax ty own dty daddr ch fp ∈ l →
        imax = (imin + 1) % 2 ^ 16 ∧
        (imin < 2 ^ 16 - 1 → imax = imin + 1) ∧
        ((setAdvParameters K w.gap).advInterval < 2 ^ 16 →
          (setAdvParameters K w.gap).advInterval ≠ K.GAP_ADV_PARAMS_INTERVAL_MAX →
          imin = (setAdvParameters K w.gap).advInterval) ∧
        ((setAdvParameters K w.gap).advInterval < 2 ^ 16 →
          (setAdvParameters K w.gap).advInterval = K.GAP_ADV_PARAMS_INTERVAL_MAX →
          1 ≤ K.GAP_ADV_PARAMS_INTERVAL_MAX →
          imin = K.GAP_ADV_PARAMS_INTERVAL_MAX - 1) ∧
        ((setAdvParameters K w.gap).advInterval ≤ K.GAP_ADV_PARAMS_INTERVAL_MAX →
          K.GAP_ADV_PARAMS_INTERVAL_MAX < 2 ^ 16 - 1 →
          imax ≤ K.GAP_ADV_PARAMS_INTERVAL_MAX) ∧
        ty = params.advertisingType ∧ own = w.gap.addr_type ∧
        (w.gap.advertisingPolicyMode = .ADV_POLICY_IGNORE_WHITELIST →
          fp = K.NO_WHITE_LIST_USE) ∧
        (w.gap.advertisingPolicyMode = .ADV_POLICY_FILTER_SCAN_REQS →
          fp = K.WHITE_LIST_FOR_ONLY_SCAN) ∧
        (w.gap.advertisingPolicyMode = .ADV_POLICY_FILTER_CONN_REQS →
          fp = K.WHITE_LIST_FOR_ONLY_CONN) ∧
        (w.gap.advertisingPolicyMode = .ADV_POLICY_FILTER_ALL_REQS →
          fp = K.WHITE_LIST_FOR_ALL) := by
  obtain ⟨l, hl, hcmd⟩ := startAdvertising_parameters_command K radio params w
  refine ⟨l, hl, ?_⟩
  intro imin imax ty own dty daddr ch fp hmem
  obtain ⟨h1, h2, h3, h4, -, -, h7⟩ := hcmd imin imax ty own dty daddr ch fp hmem
  obtain ⟨b1, b2, b3, b4, b5⟩ := advInterval_bounds K (setAdvParameters K w.gap).advInterval
  subst h1 h2
  refine ⟨b1, b2, b3, b4, b5, h3, h4, ?_, ?_, ?_, ?_⟩ <;>
    (intro hm; rw [h7, hm]; rfl)

/-- The advertising-parameters command of the sample call on the idle controller, with
minimum 160 and maximum 161, and of the call at the ceiling 0x4000, where the minimum is
clamped to 0x3FFF and the maximum is 0x4000. -/
theorem startAdvertising_interval_clamp_witness :
    Cmd.hci_le_set_advertising_parameters 160 161 .ADV_CONNECTABLE_UNDIRECTED 0 0
        [0, 0, 0, 0, 0, 0] 7 0
      ∈ (startAdvertising sampleHeader radioOk sampleAdvParams idleWorld).2.issued ∧
    (startAdvertising sampleHeader radioOk ceilingAdvParams ceilingWorld).2.issued
      = [.hci_le_set_scan_response_data 0 [], .hci_le_set_advertising_data 0 [],
         .hci_le_set_advertising_parameters 0x3FFF 0x4000 .ADV_CONNECTABLE_UNDIRECTED 0 0
           [0, 0, 0, 0, 0, 0] 7 0,
         .hci_le_set_advertise_enable 1] ∧
    (∃ l, (startAdvertising sampleHeader radioOk sampleAdvParams idleWorld).2.issued
        = idleWorld.issued ++ l ∧
      ∀ imin imax ty own dty daddr ch fp,
        Cmd.hci_le_set_advertising_parameters imin imax ty own dty daddr ch fp ∈ l →
        (imin < 2 ^ 16 - 1 → imax = imin + 1)) :=
  ⟨by decide, by decide,
   (startAdvertising_interval_clamp sampleHeader radioOk sampleAdvParams idleWorld).imp
    (fun _ h => ⟨h.1, fun imin imax ty own dty daddr ch fp hmem =>
      (h.2 imin imax ty own dty daddr ch fp hmem).2.1⟩)⟩

/-- On a connected controller with a 16-bit minimum connection interval the effective
advertising interval is a 16-bit value other than 0xFFFF. -/
theorem setAdvParameters_connected_no_wrap (K : Header) (g : BlueNRG1Gap)
    (hc : g.state.connected = true) (h16 : g.conn_min_interval < 2 ^ 16) :
    (setAdvParameters K g).advInterval < 2 ^ 16 - 1 := by
  have e32 : (2 : Nat) ^ 32 = 4294967296 := by norm_num
  have e16 : (2 : Nat) ^ 16 = 65536 := by norm_num
  simp only [setAdvParameters, hc, if_true, MSEC_TO_ADVERTISEMENT_DURATION_UNITS, e32, e16]
    at h16 ⊢
  have hms : (5 * g.conn_min_interval - 4 * K.GUARD_INT) / 4 < 81920 := by omega
  generalize (5 * g.conn_min_interval - 4 * K.GUARD_INT) / 4 = ms at hms ⊢
  have h0 : ms % 4294967296 = ms := Nat.mod_eq_of_lt (by omega)
  have h1 : ms * 1000 % 4294967296 = ms * 1000 := Nat.mod_eq_of_lt (by omega)
  rw [h0, h1]
  omega

/-- Where the maximum is the minimum plus one: with a ceiling from 1 to 0xFFFE, whenever the
effective interval is the range-checked interval of `params` (the controller is not
connected and the call is made with the stored parameters) or is derived from a 16-bit
connection interval, every advertising-parameters command of `startAdvertising` has its
maximum equal to its minimum plus one. -/
theorem startAdvertising_interval_plus_one (K : Header) (radio : Radio)
    (params : GapAdvertisingParams) (w : World)
    (hmin : 1 ≤ K.GAP_ADV_PARAMS_INTERVAL_MAX)
    (hmax : K.GAP_ADV_PARAMS_INTERVAL_MAX < 2 ^ 16 - 1)
    (hr : intervalOutOfRange K params = false)
    (hin : (w.gap.state.connected = true ∧ w.gap.conn_min_interval < 2 ^ 16) ∨
      (w.gap.state.connected = false ∧ w.gap._advParams = params)) :
    ∃ l, (startAdvertising K radio params w).2.issued = w.issued ++ l ∧
      ∀ imin imax ty own dty daddr ch fp,
        Cmd.hci_le_set_advertising_parameters imin imax ty own dty daddr ch fp ∈ l →
        imax = imin + 1 := by
  have hE : (setAdvParameters K w.gap).advInterval < 2 ^ 16 - 1 := by
    rcases hin with ⟨hc, h16⟩ | ⟨hc, hp⟩
    · exact setAdvParameters_connected_no_wrap K w.gap hc h16
    · have hle : params.intervalInADVUnits ≤ K.GAP_ADV_PARAMS_INTERVAL_MAX := by
        simp only [intervalOutOfRange] at hr
        split_ifs at hr <;> simp at hr <;> omega
      simp only [setAdvParameters, hc, hp]
      simp only [Bool.false_eq_true, if_false]
      omega
  obtain ⟨l, hl, hcmd⟩ := startAdvertising_parameters_command K radio params w
  refine ⟨l, hl, ?_⟩
  intro imin imax ty own dty daddr ch fp hmem
  obtain ⟨h1, h2, -⟩ := hcmd imin imax ty own dty daddr ch fp hmem
  have hb := (advInterval_bounds K (setAdvParameters K w.gap).advInterval).2.1
  rw [h1, h2]
  apply hb
  have h65 : (2 : Nat) ^ 16 = 65536 := by norm_num
  simp only [advIntervalMin, h65] at hE hmax ⊢
  split_ifs <;> omega

/-- Instances of the two cases: the sample call on the idle controller, made with the stored
parameters, and on the connected controller. -/
theorem startAdvertising_interval_plus_one_witness :
    (∃ l, (startAdvertising sampleHeader radioOk sampleAdvParams idleWorld).2.issued
        = idleWorld.issued ++ l ∧
      ∀ imin imax ty own dty daddr ch fp,
        Cmd.hci_le_set_advertising_parameters imin imax ty own dty daddr ch fp ∈ l →
        imax = imin + 1) ∧
    (∃ l, (startAdvertising sampleHeader radioOk sampleAdvParams connectedWorld).2.issued
        = connectedWorld.issued ++ l ∧
      ∀ imin imax ty own dty daddr ch fp,
        Cmd.hci_le_set_advertising_parameters imin imax ty own dty daddr ch fp ∈ l →
        imax = imin + 1) :=
  ⟨startAdvertising_interval_plus_one sampleHeader radioOk sampleAdvParams idleWorld
      (by decide) (by decide) (by decide) (Or.inr ⟨by decide, by decide⟩),
   startAdvertising_interval_plus_one sampleHeader radioOk sampleAdvParams connectedWorld
      (by decide) (by decide) (by decide) (Or.inl ⟨by decide, by decide⟩)⟩

/-- The effective advertising interval, from which `startAdvertising` computes the bounds of
its advertising-parameters command, for every input.  When the controller is not connected
`setAdvParameters` reads it from the advertising parameters stored in the controller
(`_advParams`); it is the interval supplied in `params` when the call is made with the
stored parameters.
When connected it is derived from the minimum connection interval: `conn_min_interval * 1.25`
minus the guard interval, truncated to whole milliseconds, converted to advertising units on
16 bits; it then depends neither on `params` nor on the stored parameters. -/
theorem effective_advertising_interval (K : Header) (radio : Radio)
    (params : GapAdvertisingParams) (w : World) :
    (w.gap.state.connected = false →
      (setAdvParameters K w.gap).advInterval = w.gap._advParams.intervalInADVUnits) ∧
    (w.gap.state.connected = false → w.gap._advParams = params →
      (setAdvParameters K w.gap).advInterval = params.intervalInADVUnits) ∧
    (w.gap.state.connected = true →
      (setAdvParameters K w.gap).advInterval
        = MSEC_TO_ADVERTISEMENT_DURATION_UNITS
            (((5 * w.gap.conn_min_interval - 4 * K.GUARD_INT) / 4) % 2 ^ 32) % 2 ^ 16 ∧
      (4 * K.GUARD_INT ≤ 5 * w.gap.conn_min_interval →
        (5 * w.gap.conn_min_interval - 4 * K.GUARD_INT) / 4
          = 5 * w.gap.conn_min_interval / 4 - K.GUARD_INT) ∧
      ∀ stored : GapAdvertisingParams,
        (setAdvParameters K { w.gap with _advParams := stored }).advInterval
          = (setAdvParameters K w.gap).advInterval) ∧
    (∃ l, (startAdvertising K radio params w).2.issued = w.issued ++ l ∧
      ∀ imin imax ty own dty daddr ch fp,
        Cmd.hci_le_set_advertising_parameters imin imax ty own dty daddr ch fp ∈ l →
        imin = advIntervalMin K (setAdvParameters K w.gap).advInterval ∧
        imax = advIntervalMax K (setAdvParameters K w.gap).advInterval) := by
  refine ⟨?_, ?_, ?_, ?_⟩
  · intro hc
    simp [setAdvParameters, hc]
  · intro hc hp
    simp [setAdvParameters, hc, hp]
  · intro hc
    refine ⟨by simp [setAdvParameters, hc], by omega, ?_⟩
    intro stored
    simp [setAdvParameters, hc]
  · obtain ⟨l, hl, hcmd⟩ := startAdvertising_parameters_command K radio params w
    refine ⟨l, hl, ?_⟩
    intro imin imax ty own dty daddr ch fp hmem
    exact ⟨(hcmd imin imax ty own dty daddr ch fp hmem).1,
      (hcmd imin imax ty own dty daddr ch fp hmem).2.1⟩

/-- The effective advertising interval at two inputs: not connected, the sample call made
with the stored parameters uses the interval 160; connected with minimum connection interval
80 (100 ms), the effective interval is 152 units (95 ms), whatever the caller supplies. -/
theorem effective_advertising_interval_witness :
    (setAdvParameters sampleHeader idleWorld.gap).advInterval
        = sampleAdvParams.intervalInADVUnits ∧
      (setAdvParameters sampleHeader connectedWorld.gap).advInterval
        = MSEC_TO_ADVERTISEMENT_DURATION_UNITS (((5 * 80 - 4 * 5) / 4) % 2 ^ 32) % 2 ^ 16 ∧
      (setAdvParameters sampleHeader connectedWorld.gap).advInterval = 152 ∧
      (startAdvertising sampleHeader radioOk sampleAdvParams connectedWorld).2.issued
        = [.hci_le_set_scan_response_data 0 [], .hci_le_set_advertising_data 0 [],
           .hci_le_set_advertising_parameters 152 153 .ADV_CONNECTABLE_UNDIRECTED 0 0
             [0, 0, 0, 0, 0, 0] 7 0,
           .hci_le_set_advertise_enable 1] :=
  ⟨(effective_advertising_interval sampleHeader radioOk sampleAdvParams idleWorld).2.1
      (by decide) (by decide),
   ((effective_advertising_interval sampleHeader radioOk sampleAdvParams
      connectedWorld).2.2.1 (by decide)).1,
   by decide, by decide⟩

/-! ## Discovery events -/

/-- A DeviceFound event: the report is appended to the reports of the application when the
scanning policy mode is not filter-all-advertisements, the peer address type is not a
private one and the connecting flag is false; otherwise the world is unchanged. -/
theorem Discovery_CB_device_found_eq (K : Header) (radio : Radio) (adv_type addr_type : Nat)
    (addr : List Nat) (data_length : Nat) (data : List Nat) (RSSI : Int) (w : World) :
    Discovery_CB K radio .DEVICE_FOUND adv_type addr_type addr data_length data RSSI w
      = if w.gap.scanningPolicyMode ≠ .SCAN_POLICY_FILTER_ALL_ADV ∧
            addr_type ≠ K.RESOLVABLE_PRIVATE_ADDR ∧ addr_type ≠ K.NON_RESOLVABLE_PRIVATE_ADDR ∧
            w.gap._connecting = false then
          { w with reports := w.reports ++
              [⟨addr, RSSI, (advTypeTag K adv_type).2, (advTypeTag K adv_type).1, data_length,
                data⟩] }
        else w := by
  simp only [Discovery_CB, processAdvertisementReport]
  split_ifs <;> simp_all

/-- C31: a DeviceFound event appends exactly one report to the reports of the application
when the scanning policy mode is not filter-all-advertisements, the peer address type is
neither private-resolvable nor private-non-resolvable and the connecting flag is false, and
appends none otherwise.  The report carries the peer address, the RSSI, the payload length
and the payload of the event.  The event issues no radio command and leaves the controller,
the signalled events and the waits as they were. -/
theorem DeviceFound_forwarding (K : Header) (radio : Radio) (adv_type addr_type : Nat)
    (addr : List Nat) (data_length : Nat) (data : List Nat) (RSSI : Int) (w : World) :
    ((w.gap.scanningPolicyMode ≠ .SCAN_POLICY_FILTER_ALL_ADV ∧
        addr_type ≠ K.RESOLVABLE_PRIVATE_ADDR ∧ addr_type ≠ K.NON_RESOLVABLE_PRIVATE_ADDR ∧
        w.gap._connecting = false) →
      ∃ r : Report,
        (Discovery_CB K radio .DEVICE_FOUND adv_type addr_type addr data_length data RSSI
          w).reports = w.reports ++ [r] ∧
        r.peerAddr = addr ∧ r.rssi = RSSI ∧ r.advertisingDataLen = data_length ∧
        r.advertisingData = data) ∧
    (¬ (w.gap.scanningPolicyMode ≠ .SCAN_POLICY_FILTER_ALL_ADV ∧
        addr_type ≠ K.RESOLVABLE_PRIVATE_ADDR ∧ addr_type ≠ K.NON_RESOLVABLE_PRIVATE_ADDR ∧
        w.gap._connecting = false) →
      (Discovery_CB K radio .DEVICE_FOUND adv_type addr_type addr data_length data RSSI
        w).reports = w.reports) ∧
    (((Discovery_CB K radio .DEVICE_FOUND adv_type addr_type addr data_length data RSSI
        w).reports.length = w.reports.length + 1) ↔
      (w.gap.scanningPolicyMode ≠ .SCAN_POLICY_FILTER_ALL_ADV ∧
        addr_type ≠ K.RESOLVABLE_PRIVATE_ADDR ∧ addr_type ≠ K.NON_RESOLVABLE_PRIVATE_ADDR ∧
        w.gap._connecting = false)) ∧
    (Discovery_CB K radio .DEVICE_FOUND adv_type addr_type addr data_length data RSSI
        w).issued = w.issued ∧
    (Discovery_CB K radio .DEVICE_FOUND adv_type addr_type addr data_length data RSSI
        w).gap = w.gap ∧
    (Discovery_CB K radio .DEVICE_FOUND adv_type addr_type addr data_length data RSSI
        w).eventsSignalled = w.eventsSignalled ∧
    (Discovery_CB K radio .DEVICE_FOUND adv_type addr_type addr data_length data RSSI
        w).waits = w.waits := by
  rw [Discovery_CB_device_found_eq]
  refine ⟨?_, ?_, ?_, ?_, ?_, ?_, ?_⟩
  · intro h
    rw [if_pos h]
    exact ⟨_, rfl, rfl, rfl, rfl, rfl⟩
  · intro h
    rw [if_neg h]
  · constructor
    · intro h
      by_contra hc
      rw [if_neg hc] at h
      omega
    · intro h
      rw [if_pos h]
      simp
  all_goals split_ifs <;> rfl

/-- Witness of C31: an `ADV_IND` report from a public address is forwarded on the idle
controller and dropped on the one with a connection attempt pending. -/
theorem DeviceFound_forwarding_witness :
    (∃ r : Report,
        (Discovery_CB sampleHeader radioOk .DEVICE_FOUND 0 0 samplePeer 3 [2, 1, 6] (-40)
          idleWorld).reports = idleWorld.reports ++ [r] ∧
        r.peerAddr = samplePeer ∧ r.rssi = -40 ∧ r.advertisingDataLen = 3 ∧
        r.advertisingData = [2, 1, 6]) ∧
      (Discovery_CB sampleHeader radioOk .DEVICE_FOUND 0 0 samplePeer 3 [2, 1, 6] (-40)
        connectingWorld).reports = connectingWorld.reports ∧
      (Discovery_CB sampleHeader radioOk .DEVICE_FOUND 0 0 samplePeer 3 [2, 1, 6] (-40)
        idleWorld).reports = [⟨samplePeer, -40, false, .ADV_CONNECTABLE_UNDIRECTED, 3, [2, 1, 6]⟩] :=
  ⟨(DeviceFound_forwarding sampleHeader radioOk 0 0 samplePeer 3 [2, 1, 6] (-40) idleWorld).1
      (by decide),
   (DeviceFound_forwarding sampleHeader radioOk 0 0 samplePeer 3 [2, 1, 6] (-40)
      connectingWorld).2.1 (by decide),
   by decide⟩

/-- The tag of the `switch (adv_type)` when its case labels are distinct, as they are in a
`switch` statement. -/
theorem advTypeTag_cases (K : Header) (adv_type : Nat)
    (hd : [K.ADV_IND, K.ADV_DIRECT_IND, K.ADV_SCAN_IND, K.SCAN_RSP, K.ADV_NONCONN_IND].Nodup) :
    (adv_type = K.ADV_IND → advTypeTag K adv_type = (.ADV_CONNECTABLE_UNDIRECTED, false)) ∧
    (adv_type = K.ADV_DIRECT_IND →
      advTypeTag K adv_type = (.ADV_CONNECTABLE_DIRECTED, false)) ∧
    (adv_type = K.ADV_SCAN_IND ∨ adv_type = K.SCAN_RSP →
      advTypeTag K adv_type = (.ADV_SCANNABLE_UNDIRECTED, true)) ∧
    (adv_type = K.ADV_NONCONN_IND →
      advTypeTag K adv_type = (.ADV_NON_CONNECTABLE_UNDIRECTED, false)) ∧
    (adv_type ∉ [K.ADV_IND, K.ADV_DIRECT_IND, K.ADV_SCAN_IND, K.SCAN_RSP, K.ADV_NONCONN_IND] →
      advTypeTag K adv_type = (.ADV_CONNECTABLE_UNDIRECTED, false)) ∧
    ((advTypeTag K adv_type).1 ≠ .ADV_SCANNABLE_UNDIRECTED →
      (advTypeTag K adv_type).2 = false) := by
  simp only [List.nodup_cons, List.mem_cons, List.mem_singleton, List.not_mem_nil, not_or,
    List.nodup_nil, or_false, not_false_eq_true, and_true] at hd
  obtain ⟨⟨h12, h13, h14, h15⟩, ⟨h23, h24, h25⟩, ⟨-, h35⟩, h45⟩ := hd
  simp only [advTypeTag, List.mem_cons, List.mem_singleton, List.not_mem_nil, not_or, or_false]
  refine ⟨?_, ?_, ?_, ?_, ?_, ?_⟩
  · intro h
    rw [if_pos h]
  · intro h
    subst h
    rw [if_neg (Ne.symm h12), if_pos rfl]
  · intro h
    rw [if_neg (by rcases h with h | h <;> (subst h; first | exact Ne.symm h13 | exact Ne.symm h14)),
      if_neg (by rcases h with h | h <;> (subst h; first | exact Ne.symm h23 | exact Ne.symm h24)),
      if_pos h]
  · intro h
    subst h
    rw [if_neg (Ne.symm h15), if_neg (Ne.symm h25),
      if_neg (by rintro (h | h); exacts [h35 h.symm, h45 h.symm]), if_pos rfl]
  · rintro ⟨n1, n2, n3, n4, n5⟩
    rw [if_neg n1, if_neg n2, if_neg (by rintro (h | h); exacts [n3 h, n4 h]), if_neg n5]
  · split_ifs <;> simp

/-- C32: in a forwarded report the advertising-type tag and the `isScanResponse` flag are
the values of the function `advTypeTag` at the PDU type, whatever that is: `ADV_IND` gives
connectable-undirected, `ADV_DIRECT_IND` connectable-directed, `ADV_SCAN_IND` and `SCAN_RSP`
scannable-undirected with the flag set, `ADV_NONCONN_IND` non-connectable-undirected, every
other PDU type connectable-undirected; the flag is false whenever the tag is not
scannable-undirected.  The five case labels are distinct, as in every `switch`. -/
theorem DeviceFound_type_tag (K : Header) (radio : Radio) (adv_type addr_type : Nat)
    (addr : List Nat) (data_length : Nat) (data : List Nat) (RSSI : Int) (w : World)
    (hd : [K.ADV_IND, K.ADV_DIRECT_IND, K.ADV_SCAN_IND, K.SCAN_RSP, K.ADV_NONCONN_IND].Nodup)
    (hfw : w.gap.scanningPolicyMode ≠ .SCAN_POLICY_FILTER_ALL_ADV ∧
      addr_type ≠ K.RESOLVABLE_PRIVATE_ADDR ∧ addr_type ≠ K.NON_RESOLVABLE_PRIVATE_ADDR ∧
      w.gap._connecting = false) :
    ∃ r : Report,
      (Discovery_CB K radio .DEVICE_FOUND adv_type addr_type addr data_length data RSSI
        w).reports = w.reports ++ [r] ∧
      (r.type, r.isScanResponse) = advTypeTag K adv_type ∧
      (adv_type = K.ADV_IND →
        r.type = .ADV_CONNECTABLE_UNDIRECTED ∧ r.isScanResponse = false) ∧
      (adv_type = K.ADV_DIRECT_IND →
        r.type = .ADV_CONNECTABLE_DIRECTED ∧ r.isScanResponse = false) ∧
      (adv_type = K.ADV_SCAN_IND ∨ adv_type = K.SCAN_RSP →
        r.type = .ADV_SCANNABLE_UNDIRECTED ∧ r.isScanResponse = true) ∧
      (adv_type = K.ADV_NONCONN_IND →
        r.type = .ADV_NON_CONNECTABLE_UNDIRECTED ∧ r.isScanResponse = false) ∧
      (adv_type ∉ [K.ADV_IND, K.ADV_DIRECT_IND, K.ADV_SCAN_IND, K.SCAN_RSP,
          K.ADV_NONCONN_IND] →
        r.type = .ADV_CONNECTABLE_UNDIRECTED ∧ r.isScanResponse = false) ∧
      (r.type ≠ .ADV_SCANNABLE_UNDIRECTED → r.isScanResponse = false) := by
  obtain ⟨c1, c2, c3, c4, c5, c6⟩ := advTypeTag_cases K adv_type hd
  refine ⟨⟨addr, RSSI, (advTypeTag K adv_type).2, (advTypeTag K adv_type).1, data_length,
    data⟩, ?_, rfl, ?_, ?_, ?_, ?_, ?_, c6⟩
  · rw [Discovery_CB_device_found_eq, if_pos hfw]
  · intro h
    exact ⟨congrArg Prod.fst (c1 h), congrArg Prod.snd (c1 h)⟩
  · intro h
    exact ⟨congrArg Prod.fst (c2 h), congrArg Prod.snd (c2 h)⟩
  · intro h
    exact ⟨congrArg Prod.fst (c3 h), congrArg Prod.snd (c3 h)⟩
  · intro h
    exact ⟨congrArg Prod.fst (c4 h), congrArg Prod.snd (c4 h)⟩
  · intro h
    exact ⟨congrArg Prod.fst (c5 h), congrArg Prod.snd (c5 h)⟩

/-- Witness of C32: a `SCAN_RSP` report (PDU type 4) and a report of the unknown PDU type 9
from a public address on the idle controller. -/
theorem DeviceFound_type_tag_witness :
    (∃ r : Report,
        (Discovery_CB sampleHeader radioOk .DEVICE_FOUND 4 0 samplePeer 3 [2, 1, 6] (-40)
          idleWorld).reports = idleWorld.reports ++ [r] ∧
        r.type = .ADV_SCANNABLE_UNDIRECTED ∧ r.isScanResponse = true) ∧
      (∃ r : Report,
        (Discovery_CB sampleHeader radioOk .DEVICE_FOUND 9 0 samplePeer 3 [2, 1, 6] (-40)
          idleWorld).reports = idleWorld.reports ++ [r] ∧
        r.type = .ADV_CONNECTABLE_UNDIRECTED ∧ r.isScanResponse = false) :=
  ⟨(DeviceFound_type_tag sampleHeader radioOk 4 0 samplePeer 3 [2, 1, 6] (-40) idleWorld
      (by decide) (by decide)).imp
      (fun _ h => ⟨h.1, h.2.2.2.2.1 (Or.inr rfl)⟩),
   (DeviceFound_type_tag sampleHeader radioOk 9 0 samplePeer 3 [2, 1, 6] (-40) idleWorld
      (by decide) (by decide)).imp
      (fun _ h => ⟨h.1, h.2.2.2.2.2.2.1 (by decide)⟩)⟩

/-- A DiscoveryComplete event: the scanning flag is cleared, the delay is waited for, and
then `makeConnection` runs when the connecting flag is set. -/
theorem Discovery_CB_complete_eq (K : Header) (radio : Radio) (adv_type addr_type : Nat)
    (addr : List Nat) (data_length : Nat) (data : List Nat) (RSSI : Int) (w : World) :
    Discovery_CB K radio .DISCOVERY_COMPLETE adv_type addr_type addr data_length data RSSI w
      = if w.gap._connecting = true then
          makeConnection K radio { w with
            gap := { w.gap with _scanning := false }
            waits := w.waits ++ [(w.gap._scanningParams.interval * 5 / 8) % 2 ^ 16] }
        else
          { w with
            gap := { w.gap with _scanning := false }
            waits := w.waits ++ [(w.gap._scanningParams.interval * 5 / 8) % 2 ^ 16] } := by
  simp only [Discovery_CB]

/-- Handling one element of a payload issues no payload command: what it appends to the log
is neither a set-scan-response-data nor a set-advertising-data command. -/
theorem setAdvertisingData_unit_issued (K : Header) (radio : Radio) (w : World)
    (u : PayloadUnit) :
    ∃ l, (setAdvertisingData_unit K radio w u).issued = w.issued ++ l ∧
      ∀ c ∈ l, ∀ len data,
        c ≠ Cmd.hci_le_set_scan_response_data len data ∧
        c ≠ Cmd.hci_le_set_advertising_data len data := by
  simp only [setAdvertisingData_unit, setAppearance, issue]
  split_ifs
  all_goals first
    | refine ⟨[_], rfl, ?_⟩
    | refine ⟨[], (List.append_nil _).symm, ?_⟩
  all_goals simp

/-- Walking a list of elements issues no payload command. -/
theorem setAdvertisingData_units_issued (K : Header) (radio : Radio) (us : List PayloadUnit)
    (w : World) :
    ∃ l, (us.foldl (setAdvertisingData_unit K radio) w).issued = w.issued ++ l ∧
      ∀ c ∈ l, ∀ len data,
        c ≠ Cmd.hci_le_set_scan_response_data len data ∧
        c ≠ Cmd.hci_le_set_advertising_data len data := by
  induction us generalizing w with
  | nil => exact ⟨[], by simp, by simp⟩
  | cons u us ih =>
    obtain ⟨l1, h1, n1⟩ := setAdvertisingData_unit_issued K radio w u
    obtain ⟨l2, h2, n2⟩ := ih (setAdvertisingData_unit K radio w u)
    refine ⟨l1 ++ l2, ?_, ?_⟩
    · simp only [List.foldl_cons]
      rw [h2, h1, List.append_assoc]
    · intro c hc
      rcases List.mem_append.mp hc with hc | hc
      · exact n1 c hc
      · exact n2 c hc

/-- The block of `setAdvertisingData` for a non-empty payload issues no payload command. -/
theorem setAdvertisingData_elements_issued (K : Header) (radio : Radio)
    (advData : GapAdvertisingData) (w : World) :
    ∃ l, (setAdvertisingData_elements K radio advData w).issued = w.issued ++ l ∧
      ∀ c ∈ l, ∀ len data,
        c ≠ Cmd.hci_le_set_scan_response_data len data ∧
        c ≠ Cmd.hci_le_set_advertising_data len data := by
  simp only [setAdvertisingData_elements]
  obtain ⟨l2, h2, n2⟩ := setAdvertisingData_units_issued K radio
    (payloadUnits advData.getPayloadLen advData.payload)
    (setAppearance K radio
      (((STORE_LE_16 advData.appearance ++ w.gap.deviceAppearance.drop 2).getD 1 0 <<< 8) |||
        (STORE_LE_16 advData.appearance ++ w.gap.deviceAppearance.drop 2).getD 0 0)
      { w with gap := { w.gap with
        deviceAppearance := STORE_LE_16 advData.appearance ++ w.gap.deviceAppearance.drop 2 } }).2
  have h1 : ∃ l1, (setAppearance K radio
      (((STORE_LE_16 advData.appearance ++ w.gap.deviceAppearance.drop 2).getD 1 0 <<< 8) |||
        (STORE_LE_16 advData.appearance ++ w.gap.deviceAppearance.drop 2).getD 0 0)
      { w with gap := { w.gap with
        deviceAppearance := STORE_LE_16 advData.appearance ++ w.gap.deviceAppearance.drop 2 }
        }).2.issued = w.issued ++ l1 ∧
      ∀ c ∈ l1, ∀ len data,
        c ≠ Cmd.hci_le_set_scan_response_data len data ∧
        c ≠ Cmd.hci_le_set_advertising_data len data := by
    simp only [setAppearance, issue]
    split_ifs
    all_goals refine ⟨[_], rfl, ?_⟩
    all_goals simp
  obtain ⟨l1, h1, n1⟩ := h1
  refine ⟨l1 ++ l2, ?_, ?_⟩
  · rw [h2, h1, List.append_assoc]
  · intro c hc
    rcases List.mem_append.mp hc with hc | hc
    · exact n1 c hc
    · exact n2 c hc

/-- The live update step of `setAdvertisingData`: nothing is issued when advertising is not
active; otherwise the scan response data and then the advertising data are issued, up to
the first failure, with the status translation of `startAdvertising`. -/
theorem setAdvertisingData_update_outcome (K : Header) (radio : Radio)
    (advData scanResponse : GapAdvertisingData) (w : World) :
    (w.gap.state.advertising = false →
      (setAdvertisingData_update K radio advData scanResponse w).1 = .BLE_ERROR_NONE ∧
      (setAdvertisingData_update K radio advData scanResponse w).2.issued = w.issued) ∧
    (w.gap.state.advertising = true →
      (radio w.issued (.hci_le_set_scan_response_data scanResponse.getPayloadLen
            scanResponse.payload) ≠ BLE_STATUS_SUCCESS →
        (setAdvertisingData_update K radio advData scanResponse w).1
          = (if radio w.issued (.hci_le_set_scan_response_data scanResponse.getPayloadLen
                scanResponse.payload) = K.BLE_STATUS_TIMEOUT then .BLE_STACK_BUSY
              else .BLE_ERROR_UNSPECIFIED) ∧
        (setAdvertisingData_update K radio advData scanResponse w).1
          = startAdvertising_spec_error K
              (.hci_le_set_scan_response_data scanResponse.getPayloadLen scanResponse.payload)
              (radio w.issued (.hci_le_set_scan_response_data scanResponse.getPayloadLen
                scanResponse.payload)) ∧
        (setAdvertisingData_update K radio advData scanResponse w).2.issued
          = w.issued ++ [.hci_le_set_scan_response_data scanResponse.getPayloadLen
              scanResponse.payload]) ∧
      (radio w.issued (.hci_le_set_scan_response_data scanResponse.getPayloadLen
            scanResponse.payload) = BLE_STATUS_SUCCESS →
        radio (w.issued ++ [.hci_le_set_scan_response_data scanResponse.getPayloadLen
            scanResponse.payload])
          (.hci_le_set_advertising_data advData.getPayloadLen advData.payload)
          ≠ BLE_STATUS_SUCCESS →
        (setAdvertisingData_update K radio advData scanResponse w).1 = .BLE_ERROR_UNSPECIFIED ∧
        (setAdvertisingData_update K radio advData scanResponse w).1
          = startAdvertising_spec_error K
              (.hci_le_set_advertising_data advData.getPayloadLen advData.payload)
              (radio (w.issued ++ [.hci_le_set_scan_response_data scanResponse.getPayloadLen
                  scanResponse.payload])
                (.hci_le_set_advertising_data advData.getPayloadLen advData.payload)) ∧
        (setAdvertisingData_update K radio advData scanResponse w).2.issued
          = w.issued ++ [.hci_le_set_scan_response_data scanResponse.getPayloadLen
                scanResponse.payload,
              .hci_le_set_advertising_data advData.getPayloadLen advData.payload]) ∧
      (radio w.issued (.hci_le_set_scan_response_data scanResponse.getPayloadLen
            scanResponse.payload) = BLE_STATUS_SUCCESS →
        radio (w.issued ++ [.hci_le_set_scan_response_data scanResponse.getPayloadLen
            scanResponse.payload])
          (.hci_le_set_advertising_data advData.getPayloadLen advData.payload)
          = BLE_STATUS_SUCCESS →
        (setAdvertisingData_update K radio advData scanResponse w).1 = .BLE_ERROR_NONE ∧
        (setAdvertisingData_update K radio advData scanResponse w).2.issued
          = w.issued ++ [.hci_le_set_scan_response_data scanResponse.getPayloadLen
                scanResponse.payload,
              .hci_le_set_advertising_data advData.getPayloadLen advData.payload])) := by
  simp only [setAdvertisingData_update, setAdvertisingData_cache, issue,
    startAdvertising_spec_error, BLE_STATUS_SUCCESS]
  refine ⟨?_, ?_⟩
  · intro h
    simp [h]
  · intro h
    refine ⟨?_, ?_, ?_⟩
    · intro hs
      rw [if_pos h, if_pos (Ne.symm hs)]
      split_ifs <;> exact ⟨rfl, rfl, rfl⟩
    · intro hs ha
      rw [if_pos h, if_neg (by simp [hs]), if_pos ha]
      exact ⟨rfl, rfl, by simp⟩
    · intro hs ha
      rw [if_pos h, if_neg (by simp [hs]), if_neg (by simp [ha])]
      exact ⟨rfl, by simp⟩

/-- C34: `setAdvertisingData` with an advertising payload within the maximum.  The walk over
the elements of the payload issues the commands `pre`, none of which is a payload command
(and none at all for an empty payload).  When advertising is not active no payload command
follows and the result is `BLE_ERROR_NONE`.  When advertising is active the
set-scan-response-data command with the new scan response follows, and after it, when it
succeeds, the set-advertising-data command with the new payload; the status translation is
that of `startAdvertising`: a failed scan response gives `BLE_STACK_BUSY` on the timeout
status and `BLE_ERROR_UNSPECIFIED` otherwise, failed advertising data gives
`BLE_ERROR_UNSPECIFIED`, and the result is `BLE_ERROR_NONE` when both succeed. -/
theorem setAdvertisingData_live_update (K : Header) (radio : Radio)
    (advData scanResponse : GapAdvertisingData) (w : World)
    (hlen : advData.getPayloadLen ≤ K.GAP_ADVERTISING_DATA_MAX_PAYLOAD) :
    ∃ pre : List Cmd,
      (∀ c ∈ pre, ∀ len data,
        c ≠ Cmd.hci_le_set_scan_response_data len data ∧
        c ≠ Cmd.hci_le_set_advertising_data len data) ∧
      (advData.getPayloadLen = 0 → pre = []) ∧
      (w.gap.state.advertising = false →
        (setAdvertisingData K radio advData scanResponse w).1 = .BLE_ERROR_NONE ∧
        (setAdvertisingData K radio advData scanResponse w).2.issued = w.issued ++ pre) ∧
      (w.gap.state.advertising = true →
        (radio (w.issued ++ pre) (.hci_le_set_scan_response_data scanResponse.getPayloadLen
              scanResponse.payload) ≠ BLE_STATUS_SUCCESS →
          (setAdvertisingData K radio advData scanResponse w).1
            = (if radio (w.issued ++ pre) (.hci_le_set_scan_response_data
                  scanResponse.getPayloadLen scanResponse.payload) = K.BLE_STATUS_TIMEOUT then
                .BLE_STACK_BUSY
              else .BLE_ERROR_UNSPECIFIED) ∧
          (setAdvertisingData K radio advData scanResponse w).1
            = startAdvertising_spec_error K
                (.hci_le_set_scan_response_data scanResponse.getPayloadLen scanResponse.payload)
                (radio (w.issued ++ pre) (.hci_le_set_scan_response_data
                  scanResponse.getPayloadLen scanResponse.payload)) ∧
          (setAdvertisingData K radio advData scanResponse w).2.issued
            = w.issued ++ pre ++ [.hci_le_set_scan_response_data scanResponse.getPayloadLen
                scanResponse.payload]) ∧
        (radio (w.issued ++ pre) (.hci_le_set_scan_response_data scanResponse.getPayloadLen
              scanResponse.payload) = BLE_STATUS_SUCCESS →
          radio (w.issued ++ pre ++ [.hci_le_set_scan_response_data scanResponse.getPayloadLen
              scanResponse.payload])
            (.hci_le_set_advertising_data advData.getPayloadLen advData.payload)
            ≠ BLE_STATUS_SUCCESS →
          (setAdvertisingData K radio advData scanResponse w).1 = .BLE_ERROR_UNSPECIFIED ∧
          (setAdvertisingData K radio advData scanResponse w).1
            = startAdvertising_spec_error K
                (.hci_le_set_advertising_data advData.getPayloadLen advData.payload)
                (radio (w.issued ++ pre ++ [.hci_le_set_scan_response_data
                    scanResponse.getPayloadLen scanResponse.payload])
                  (.hci_le_set_advertising_data advData.getPayloadLen advData.payload)) ∧
          (setAdvertisingData K radio advData scanResponse w).2.issued
            = w.issued ++ pre ++ [.hci_le_set_scan_response_data scanResponse.getPayloadLen
                  scanResponse.payload,
                .hci_le_set_advertising_data advData.getPayloadLen advData.payload]) ∧
        (radio (w.issued ++ pre) (.hci_le_set_scan_response_data scanResponse.getPayloadLen
              scanResponse.payload) = BLE_STATUS_SUCCESS →
          radio (w.issued ++ pre ++ [.hci_le_set_scan_response_data scanResponse.getPayloadLen
              scanResponse.payload])
            (.hci_le_set_advertising_data advData.getPayloadLen advData.payload)
            = BLE_STATUS_SUCCESS →
          (setAdvertisingData K radio advData scanResponse w).1 = .BLE_ERROR_NONE ∧
          (setAdvertisingData K radio advData scanResponse w).2.issued
            = w.issued ++ pre ++ [.hci_le_set_scan_response_data scanResponse.getPayloadLen
                  scanResponse.payload,
                .hci_le_set_advertising_data advData.getPayloadLen advData.payload])) := by
  unfold setAdvertisingData
  rw [if_neg (Nat.not_lt.mpr hlen)]
  by_cases h0 : advData.getPayloadLen ≠ 0
  · rw [if_pos h0]
    obtain ⟨pre, hpre, npre⟩ := setAdvertisingData_elements_issued K radio advData w
    have hst := (setAdvertisingData_elements_frame K radio advData w).1
    have hu := setAdvertisingData_update_outcome K radio advData scanResponse
      (setAdvertisingData_elements K radio advData w)
    rw [hpre, hst] at hu
    exact ⟨pre, npre, fun h => absurd h h0, hu.1, hu.2⟩
  · rw [if_neg h0]
    have hu := setAdvertisingData_update_outcome K radio advData scanResponse w
    refine ⟨[], by simp, fun _ => rfl, ?_, ?_⟩
    · simp only [List.append_nil]
      exact hu.1
    · simp only [List.append_nil]
      exact hu.2

/-- Witness of C34: the sample payloads, within the maximum.  On the idle controller nothing
but the commands of the element walk is issued; on the advertising controller the two
payload commands follow them, and a scan response failing with the timeout status gives
`BLE_STACK_BUSY` with no advertising data command. -/
theorem setAdvertisingData_live_update_witness :
    (∃ pre : List Cmd,
        (∀ c ∈ pre, ∀ len data,
          c ≠ Cmd.hci_le_set_scan_response_data len data ∧
          c ≠ Cmd.hci_le_set_advertising_data len data) ∧
        (setAdvertisingData sampleHeader radioOk samplePayload sampleScanResponse idleWorld).1
          = .BLE_ERROR_NONE ∧
        (setAdvertisingData sampleHeader radioOk samplePayload sampleScanResponse
          idleWorld).2.issued = idleWorld.issued ++ pre) ∧
      (setAdvertisingData sampleHeader radioOk samplePayload sampleScanResponse
          advertisingWorld).1 = .BLE_ERROR_NONE ∧
      (setAdvertisingData sampleHeader radioOk samplePayload sampleScanResponse
          advertisingWorld).2.issued
        = [.aci_gatt_update_char_value 5 8 0 2 [0x40, 0x03],
           .aci_hal_set_tx_power_level 1 7,
           .aci_gatt_update_char_value 5 8 0 2 [0x40, 0x03],
           .hci_le_set_scan_response_data 4 [3, 8, 0x48, 0x52],
           .hci_le_set_advertising_data 10 [2, 1, 6, 2, 0x0A, 4, 3, 0x19, 0x40, 0x03]] ∧
      (setAdvertisingData sampleHeader
          (radioFailOn (.hci_le_set_scan_response_data 4 [3, 8, 0x48, 0x52]) 0xFF)
          samplePayload sampleScanResponse advertisingWorld).1 = .BLE_STACK_BUSY ∧
      (setAdvertisingData sampleHeader
          (radioFailOn (.hci_le_set_scan_response_data 4 [3, 8, 0x48, 0x52]) 0xFF)
          samplePayload sampleScanResponse advertisingWorld).2.issued
        = [.aci_gatt_update_char_value 5 8 0 2 [0x40, 0x03],
           .aci_hal_set_tx_power_level 1 7,
           .aci_gatt_update_char_value 5 8 0 2 [0x40, 0x03],
           .hci_le_set_scan_response_data 4 [3, 8, 0x48, 0x52]] :=
  ⟨(setAdvertisingData_live_update sampleHeader radioOk samplePayload sampleScanResponse
      idleWorld (by decide)).imp (fun _ h => ⟨h.1, h.2.2.1 (by decide)⟩),
   by decide, by decide, by decide, by decide⟩

/-! ## Failed stops and the address type -/

/-- After `Process` both timeout flags are false. -/
theorem Process_flags_cleared (K : Header) (radio : Radio) (w : World) :
    (Process K radio w).gap.AdvToFlag = false ∧ (Process K radio w).gap.ScanToFlag = false := by
  have hadv := fun v => (stop_keeps_timeout_flags K radio v).1
  have hscan := fun v => (stop_keeps_timeout_flags K radio v).2
  simp only [Process]
  split_ifs with ha hs hs
  · rw [(hscan _).1, (hscan _).2]
    exact ⟨(hadv _).1, rfl⟩
  · exact ⟨(hadv _).1, by simpa using hs⟩
  · rw [(hscan _).1, (hscan _).2]
    exact ⟨by simpa using ha, rfl⟩
  · exact ⟨by simpa using ha, by simpa using hs⟩

/-- C36: after every `Process` call both timeout flags are false, and a `Process` call that
follows it with no timer fired in between changes nothing and issues no radio command,
whatever the radio would answer.  The flag is cleared and the stop attempted once even when
the stop fails: with the advertising-timed-out flag set on an advertising controller and a
failing disable command, the outcome is the world with the flag cleared and the one command
issued, the advertising flag still set; likewise for the scanning-timed-out flag and the
terminate command, and for both together. -/
theorem Process_failed_stop_not_retried (K : Header) (radio radio2 : Radio) (w : World) :
    ((Process K radio w).gap.AdvToFlag = false ∧ (Process K radio w).gap.ScanToFlag = false) ∧
    (Process K radio2 (Process K radio w) = Process K radio w ∧
      (Process K radio2 (Process K radio w)).issued = (Process K radio w).issued) ∧
    (w.gap.AdvToFlag = true → w.gap.ScanToFlag = false → w.gap.state.advertising = true →
      radio w.issued (.hci_le_set_advertise_enable 0) ≠ 0 →
      Process K radio w
        = { w with gap := { w.gap with AdvToFlag := false }
                   issued := w.issued ++ [.hci_le_set_advertise_enable 0] } ∧
      (Process K radio w).gap.state.advertising = true) ∧
    (w.gap.AdvToFlag = false → w.gap.ScanToFlag = true → w.gap._scanning = true →
      radio w.issued (.aci_gap_terminate_gap_proc K.GAP_OBSERVATION_PROC)
        ≠ BLE_STATUS_SUCCESS →
      Process K radio w
        = { w with gap := { w.gap with ScanToFlag := false }
                   issued := w.issued ++ [.aci_gap_terminate_gap_proc K.GAP_OBSERVATION_PROC] } ∧
      (Process K radio w).gap._scanning = true) ∧
    (w.gap.AdvToFlag = true → w.gap.ScanToFlag = true → w.gap.state.advertising = true →
      w.gap._scanning = true →
      radio w.issued (.hci_le_set_advertise_enable 0) ≠ 0 →
      radio (w.issued ++ [.hci_le_set_advertise_enable 0])
        (.aci_gap_terminate_gap_proc K.GAP_OBSERVATION_PROC) ≠ BLE_STATUS_SUCCESS →
      Process K radio w
        = { w with gap := { w.gap with AdvToFlag := false, ScanToFlag := false }
                   issued := w.issued ++ [.hci_le_set_advertise_enable 0,
                     .aci_gap_terminate_gap_proc K.GAP_OBSERVATION_PROC] } ∧
      (Process K radio w).gap.state.advertising = true ∧
      (Process K radio w).gap._scanning = true) := by
  have hflags := Process_flags_cleared K radio w
  have hidem : Process K radio2 (Process K radio w) = Process K radio w := by
    generalize Process K radio w = v at hflags
    simp [Process, hflags.1, hflags.2]
  refine ⟨hflags, ⟨hidem, by rw [hidem]⟩, ?_, ?_, ?_⟩
  · intro ha hs hadv hfail
    simp [Process, stopAdvertising, stopScan, issue, ha, hs, hadv, hfail]
  · intro ha hs hscan hfail
    simp [Process, stopAdvertising, stopScan, issue, ha, hs, hscan, hfail]
  · intro ha hs hadv hscan hfail1 hfail2
    simp [Process, stopAdvertising, stopScan, issue, ha, hs, hadv, hscan, hfail1, hfail2]

/-- Witness of C36: both timers fired on a controller that advertises and scans, and the
radio fails both stops; `Process` clears both flags, issues the two commands once, leaves
both role flags set, and a second `Process` issues nothing. -/
theorem Process_failed_stop_not_retried_witness :
    (Process sampleHeader (radioFail 0x41) timedOutWorld
        = { timedOutWorld with
            gap := { timedOutWorld.gap with AdvToFlag := false, ScanToFlag := false }
            issued := timedOutWorld.issued ++ [.hci_le_set_advertise_enable 0,
              .aci_gap_terminate_gap_proc sampleHeader.GAP_OBSERVATION_PROC] } ∧
      (Process sampleHeader (radioFail 0x41) timedOutWorld).gap.state.advertising = true ∧
      (Process sampleHeader (radioFail 0x41) timedOutWorld).gap._scanning = true) ∧
    (Process sampleHeader (radioFail 0x41)
        (Process sampleHeader (radioFail 0x41) timedOutWorld)).issued
      = [.hci_le_set_advertise_enable 0, .aci_gap_terminate_gap_proc 0x80] :=
  ⟨(Process_failed_stop_not_retried sampleHeader (radioFail 0x41) (radioFail 0x41)
      timedOutWorld).2.2.2.2 (by decide) (by decide) (by decide) (by decide) (by decide)
      (by decide),
   by decide⟩

/-- A `setAddress` call keeps the address type public or random-static. -/
theorem setAddress_addr_type (K : Header) (radio : Radio) (type : Nat) (address : List Nat)
    (w : World)
    (h : w.gap.addr_type = AddressType.PUBLIC ∨ w.gap.addr_type = AddressType.RANDOM_STATIC) :
    (setAddress K radio type address w).2.gap.addr_type = AddressType.PUBLIC ∨
      (setAddress K radio type address w).2.gap.addr_type = AddressType.RANDOM_STATIC := by
  simp only [setAddress, setAddress_commit, issue]
  split_ifs <;> simp_all

/-- C37: starting from a controller whose address type is public or random-static, after any
sequence of `setAddress` calls, each with any type and address and whether it succeeds or
not, the address type is still public or random-static, so neither random-private type, and
`getAddress` called with two non-null arguments does not return
`BLE_ERROR_NOT_IMPLEMENTED`. -/
theorem addr_type_never_private (K : Header) (radio radio2 : Radio) (configData : ConfigData)
    (calls : List (Nat × List Nat)) (typeP : Nat) (address : List Nat) (w : World)
    (h : w.gap.addr_type = AddressType.PUBLIC ∨ w.gap.addr_type = AddressType.RANDOM_STATIC) :
    ((calls.foldl (fun v c => (setAddress K radio c.1 c.2 v).2) w).gap.addr_type
        = AddressType.PUBLIC ∨
      (calls.foldl (fun v c => (setAddress K radio c.1 c.2 v).2) w).gap.addr_type
        = AddressType.RANDOM_STATIC) ∧
    ((calls.foldl (fun v c => (setAddress K radio c.1 c.2 v).2) w).gap.addr_type
        ≠ AddressType.RANDOM_PRIVATE_RESOLVABLE ∧
      (calls.foldl (fun v c => (setAddress K radio c.1 c.2 v).2) w).gap.addr_type
        ≠ AddressType.RANDOM_PRIVATE_NON_RESOLVABLE) ∧
    (getAddress K radio2 configData (some typeP) (some address)
        (calls.foldl (fun v c => (setAddress K radio c.1 c.2 v).2) w)).1
      ≠ .BLE_ERROR_NOT_IMPLEMENTED := by
  have hinv : (calls.foldl (fun v c => (setAddress K radio c.1 c.2 v).2) w).gap.addr_type
        = AddressType.PUBLIC ∨
      (calls.foldl (fun v c => (setAddress K radio c.1 c.2 v).2) w).gap.addr_type
        = AddressType.RANDOM_STATIC := by
    induction calls generalizing w with
    | nil => exact h
    | cons c cs ih =>
      simp only [List.foldl_cons]
      exact ih _ (setAddress_addr_type K radio c.1 c.2 w h)
  refine ⟨hinv, ?_, ?_⟩
  · rcases hinv with e | e <;> rw [e] <;> exact ⟨by decide, by decide⟩
  · simp only [getAddress, issue]
    rcases hinv with e | e
    · rw [if_neg (by simp), if_pos e]
      split_ifs <;> simp
    · have e2 : ¬ (calls.foldl (fun v c => (setAddress K radio c.1 c.2 v).2) w).gap.addr_type
          = AddressType.PUBLIC := by
        rw [e]
        decide
      rw [if_neg (by simp), if_neg e2, if_pos e]
      simp

/-- Witness of C37: from the idle controller (public address), a rejected private type, a
malformed static address, a well-formed one and the other private type in turn; the
address type is then random-static and `getAddress` answers. -/
theorem addr_type_never_private_witness :
    ((([(2, samplePeer), (1, samplePeer), (1, sampleStatic), (3, sampleStatic)] :
          List (Nat × List Nat)).foldl
        (fun v c => (setAddress sampleHeader radioOk c.1 c.2 v).2) idleWorld).gap.addr_type
        = AddressType.PUBLIC ∨
      (([(2, samplePeer), (1, samplePeer), (1, sampleStatic), (3, sampleStatic)] :
          List (Nat × List Nat)).foldl
        (fun v c => (setAddress sampleHeader radioOk c.1 c.2 v).2) idleWorld).gap.addr_type
        = AddressType.RANDOM_STATIC) ∧
    (([(2, samplePeer), (1, samplePeer), (1, sampleStatic), (3, sampleStatic)] :
          List (Nat × List Nat)).foldl
        (fun v c => (setAddress sampleHeader radioOk c.1 c.2 v).2) idleWorld).gap.addr_type
      = 1 ∧
    (getAddress sampleHeader radioOk sampleConfigData (some 0) (some [0, 0, 0, 0, 0, 0])
        (([(2, samplePeer), (1, samplePeer), (1, sampleStatic), (3, sampleStatic)] :
            List (Nat × List Nat)).foldl
          (fun v c => (setAddress sampleHeader radioOk c.1 c.2 v).2) idleWorld)).1
      = .BLE_ERROR_NONE :=
  ⟨(addr_type_never_private sampleHeader radioOk radioOk sampleConfigData
      [(2, samplePeer), (1, samplePeer), (1, sampleStatic), (3, sampleStatic)] 0
      [0, 0, 0, 0, 0, 0] idleWorld (Or.inl rfl)).1,
   by decide, by decide⟩

/-! ## The connecting flag -/

/-- One step of a trace on a radio that fails every create-connection command: a connecting
flag that is set stays set and no report is forwarded. -/
theorem applyCall_connecting (K : Header) (radio : Radio)
    (parent : World → ble_error_t × World) (c : GapCall) (w : World)
    (hparent : ∀ v, (parent v).2.gap._connecting = v.gap._connecting ∧
      (parent v).2.reports = v.reports)
    (hfail : ∀ l si sw pt pa ot cmin cmax lat sup l1 l2,
      radio l (.aci_gap_create_connection si sw pt pa ot cmin cmax lat sup l1 l2)
        ≠ BLE_STATUS_SUCCESS)
    (hc : w.gap._connecting = true) :
    (applyCall K radio parent c w).gap._connecting = true ∧
      (applyCall K radio parent c w).reports = w.reports := by
  cases c with
  | stopScan =>
    simp only [applyCall, stopScan, issue]
    split_ifs <;> exact ⟨hc, rfl⟩
  | stopAdvertising =>
    simp only [applyCall, stopAdvertising, issue]
    split_ifs <;> exact ⟨hc, rfl⟩
  | disconnect connectionHandle reason =>
    simp only [applyCall, disconnect, issue]
    split_ifs <;> exact ⟨hc, rfl⟩
  | Process =>
    simp only [applyCall, Process, stopAdvertising, stopScan, issue]
    split_ifs <;> exact ⟨hc, rfl⟩
  | reset =>
    simp only [applyCall, reset_eq]
    split_ifs <;> exact ⟨(hparent w).1.trans hc, (hparent w).2⟩
  | setAdvertisingPolicyMode mode => exact ⟨hc, rfl⟩
  | setScanningPolicyMode mode => exact ⟨hc, rfl⟩
  | deviceFound adv_type addr_type addr data_length data RSSI =>
    simp only [applyCall]
    rw [Discovery_CB_device_found_eq, if_neg (by simp [hc])]
    exact ⟨hc, rfl⟩
  | discoveryComplete =>
    simp only [applyCall]
    rw [Discovery_CB_complete_eq, if_pos hc]
    simp only [makeConnection, createConnection_eq]
    rw [if_neg (hfail _ _ _ _ _ _ _ _ _ _ _ _)]
    exact ⟨hc, rfl⟩
  | createConnection =>
    simp only [applyCall, createConnection_eq]
    rw [if_neg (hfail _ _ _ _ _ _ _ _ _ _ _ _)]
    exact ⟨hc, rfl⟩
  | connect peerAddr peerAddrType scanParams =>
    simp only [applyCall, connect, setScanParams, stopScan, createConnection_eq, issue]
    split_ifs with h1 h2 h3
    · exact ⟨rfl, rfl⟩
    · exact ⟨rfl, rfl⟩
    · exact absurd h3 (hfail _ _ _ _ _ _ _ _ _ _ _ _)
    · exact ⟨rfl, rfl⟩
  | startRadioScan scanningParams =>
    simp only [applyCall, startRadioScan, issue]
    split_ifs <;> exact ⟨hc, rfl⟩
  | advTimeoutCB => exact ⟨hc, rfl⟩
  | scanTimeoutCB => exact ⟨hc, rfl⟩

/-- A trace on a radio that fails every create-connection command: a connecting flag that is
set stays set and no report is forwarded. -/
theorem runCalls_connecting (K : Header) (radio : Radio)
    (parent : World → ble_error_t × World) (calls : List GapCall) (w : World)
    (hparent : ∀ v, (parent v).2.gap._connecting = v.gap._connecting ∧
      (parent v).2.reports = v.reports)
    (hfail : ∀ l si sw pt pa ot cmin cmax lat sup l1 l2,
      radio l (.aci_gap_create_connection si sw pt pa ot cmin cmax lat sup l1 l2)
        ≠ BLE_STATUS_SUCCESS)
    (hc : w.gap._connecting = true) :
    (runCalls K radio parent calls w).gap._connecting = true ∧
      (runCalls K radio parent calls w).reports = w.reports := by
  induction calls generalizing w with
  | nil => exact ⟨hc, rfl⟩
  | cons c cs ih =>
    obtain ⟨h1, h2⟩ := applyCall_connecting K radio parent c w hparent hfail hc
    obtain ⟨i1, i2⟩ := ih (applyCall K radio parent c w) h1
    simp only [runCalls, List.foldl_cons] at i1 i2 ⊢
    exact ⟨i1, i2.trans h2⟩

/-- C35: the connecting flag is cleared by a create-connection command that succeeds and by
nothing else.  `stopScan`, `stopAdvertising`, `disconnect`, `Process`, `reset` (the reset of
the base class has no access to the flag), the two policy setters and DeviceFound events
leave it as it is.  `createConnection` leaves it as it is when its command fails and clears
it when the command succeeds.  While the flag is set a DeviceFound event changes nothing.
Hence, on a radio that fails every create-connection command, after any trace of calls and
events from a controller with the flag set, the flag is still set and no report has been
forwarded. -/
theorem connecting_cleared_only_by_createConnection (K : Header) (radio : Radio)
    (parent : World → ble_error_t × World) (w : World)
    (hparent : ∀ v, (parent v).2.gap._connecting = v.gap._connecting ∧
      (parent v).2.reports = v.reports) :
    ((stopScan K radio w).2.gap._connecting = w.gap._connecting ∧
      (stopAdvertising radio w).2.gap._connecting = w.gap._connecting ∧
      (∀ connectionHandle reason,
        (disconnect K radio connectionHandle reason w).2.gap._connecting
          = w.gap._connecting) ∧
      (Process K radio w).gap._connecting = w.gap._connecting ∧
      (reset K parent w).2.gap._connecting = w.gap._connecting ∧
      (∀ mode, (setAdvertisingPolicyMode mode w).2.gap._connecting = w.gap._connecting) ∧
      (∀ mode, (setScanningPolicyMode mode w).2.gap._connecting = w.gap._connecting) ∧
      (∀ adv_type addr_type addr data_length data RSSI,
        (Discovery_CB K radio .DEVICE_FOUND adv_type addr_type addr data_length data RSSI
          w).gap._connecting = w.gap._connecting)) ∧
    (radio w.issued (.aci_gap_create_connection w.gap.scanInterval w.gap.scanWindow
          w.gap._peerAddrType w.gap._peerAddr w.gap.addr_type w.gap.conn_min_interval
          w.gap.conn_max_interval 0 K.SUPERV_TIMEOUT K.CONN_L1 K.CONN_L1)
        ≠ BLE_STATUS_SUCCESS →
      (createConnection K radio w).1 = .BLE_ERROR_UNSPECIFIED ∧
      (createConnection K radio w).2.gap._connecting = w.gap._connecting) ∧
    (radio w.issued (.aci_gap_create_connection w.gap.scanInterval w.gap.scanWindow
          w.gap._peerAddrType w.gap._peerAddr w.gap.addr_type w.gap.conn_min_interval
          w.gap.conn_max_interval 0 K.SUPERV_TIMEOUT K.CONN_L1 K.CONN_L1)
        = BLE_STATUS_SUCCESS →
      (createConnection K radio w).1 = .BLE_ERROR_NONE ∧
      (createConnection K radio w).2.gap._connecting = false) ∧
    (w.gap._connecting = true →
      ∀ adv_type addr_type addr data_length data RSSI,
        Discovery_CB K radio .DEVICE_FOUND adv_type addr_type addr data_length data RSSI w
          = w) ∧
    (w.gap._connecting = true →
      (∀ l si sw pt pa ot cmin cmax lat sup l1 l2,
        radio l (.aci_gap_create_connection si sw pt pa ot cmin cmax lat sup l1 l2)
          ≠ BLE_STATUS_SUCCESS) →
      ∀ calls : List GapCall,
        (runCalls K radio parent calls w).gap._connecting = true ∧
        (runCalls K radio parent calls w).reports = w.reports) := by
  refine ⟨⟨?_, ?_, ?_, ?_, ?_, fun _ => rfl, fun _ => rfl, ?_⟩, ?_, ?_, ?_, ?_⟩
  · simp only [stopScan, issue]
    split_ifs <;> rfl
  · simp only [stopAdvertising, issue]
    split_ifs <;> rfl
  · intro connectionHandle reason
    simp only [disconnect, issue]
    split_ifs <;> rfl
  · simp only [Process, stopAdvertising, stopScan, issue]
    split_ifs <;> rfl
  · simp only [reset_eq]
    split_ifs <;> exact (hparent w).1
  · intro adv_type addr_type addr data_length data RSSI
    rw [Discovery_CB_device_found_eq]
    split_ifs <;> rfl
  · intro hs
    rw [createConnection_eq, if_neg hs]
    exact ⟨rfl, rfl⟩
  · intro hs
    rw [createConnection_eq, if_pos hs]
    exact ⟨rfl, rfl⟩
  · intro hc adv_type addr_type addr data_length data RSSI
    rw [Discovery_CB_device_found_eq, if_neg (by simp [hc])]
  · intro hc hfail calls
    exact runCalls_connecting K radio parent calls w hparent hfail hc

/-- Witness of C35: from the controller with a connection attempt pending, on a radio that
fails every command, a trace of a DeviceFound event, a stop, a failed connection attempt,
`Process`, a reset, a DiscoveryComplete event and a second DeviceFound event leaves the flag
set and forwards nothing; on a radio that succeeds `createConnection` clears the flag. -/
theorem connecting_cleared_only_by_createConnection_witness :
    ((runCalls sampleHeader (radioFail 0x41) Gap_reset
          [.deviceFound 0 0 samplePeer 3 [2, 1, 6] (-40), .stopScan, .createConnection,
           .Process, .reset, .discoveryComplete,
           .deviceFound 0 0 samplePeer 3 [2, 1, 6] (-40)] connectingWorld).gap._connecting
        = true ∧
      (runCalls sampleHeader (radioFail 0x41) Gap_reset
          [.deviceFound 0 0 samplePeer 3 [2, 1, 6] (-40), .stopScan, .createConnection,
           .Process, .reset, .discoveryComplete,
           .deviceFound 0 0 samplePeer 3 [2, 1, 6] (-40)] connectingWorld).reports
        = connectingWorld.reports) ∧
    ((createConnection sampleHeader radioOk connectingWorld).1 = .BLE_ERROR_NONE ∧
      (createConnection sampleHeader radioOk connectingWorld).2.gap._connecting = false) ∧
    (runCalls sampleHeader (radioFail 0x41) Gap_reset
          [.deviceFound 0 0 samplePeer 3 [2, 1, 6] (-40), .stopScan, .createConnection,
           .Process, .reset, .discoveryComplete,
           .deviceFound 0 0 samplePeer 3 [2, 1, 6] (-40)] connectingWorld).issued
      = [.aci_gap_create_connection 0 0 0 [0, 0, 0, 0, 0, 0] 0 0 0 0 60 2 2,
         .aci_gap_create_connection 0 0 0 [0, 0, 0, 0, 0, 0] 0 0 0 0 60 2 2] :=
  ⟨(connecting_cleared_only_by_createConnection sampleHeader (radioFail 0x41) Gap_reset
      connectingWorld (fun _ => ⟨rfl, rfl⟩)).2.2.2.2 (by decide)
      (fun _ _ _ _ _ _ _ _ _ _ _ _ => (by decide : (0x41 : Nat) ≠ 0)) _,
   (connecting_cleared_only_by_createConnection sampleHeader radioOk Gap_reset
      connectingWorld (fun _ => ⟨rfl, rfl⟩)).2.2.1 (by decide),
   by decide⟩

/-! ## The scan response of a non-connectable advertisement -/

/-- The enable step gives the same result on two radios that agree on every command other
than the empty scan response. -/
theorem startAdvertising_enable_congr (r1 r2 : Radio) (params : GapAdvertisingParams)
    (w : World)
    (h : ∀ l c, c ≠ Cmd.hci_le_set_scan_response_data 0 [] → r1 l c = r2 l c) :
    startAdvertising_enable r1 params w = startAdvertising_enable r2 params w := by
  simp only [startAdvertising_enable, issue]
  rw [h _ _ (by simp)]

/-- The steps from the advertising parameters on give the same result on two radios that
agree on every command other than the empty scan response. -/
theorem startAdvertising_parameters_congr (K : Header) (r1 r2 : Radio)
    (params : GapAdvertisingParams) (f : Nat) (w : World)
    (h : ∀ l c, c ≠ Cmd.hci_le_set_scan_response_data 0 [] → r1 l c = r2 l c) :
    startAdvertising_parameters K r1 params f w
      = startAdvertising_parameters K r2 params f w := by
  simp only [startAdvertising_parameters, issue]
  rw [h _ _ (by simp), startAdvertising_enable_congr r1 r2 params _ h]

/-- The steps from `setAdvParameters` on give the same result on two radios that agree on
every command other than the empty scan response. -/
theorem startAdvertising_data_congr (K : Header) (r1 r2 : Radio)
    (params : GapAdvertisingParams) (f : Nat) (w : World)
    (h : ∀ l c, c ≠ Cmd.hci_le_set_scan_response_data 0 [] → r1 l c = r2 l c) :
    startAdvertising_data K r1 params f w = startAdvertising_data K r2 params f w := by
  simp only [startAdvertising_data, issue]
  rw [h _ _ (by simp), startAdvertising_parameters_congr K r1 r2 params f _ h]

/-- The steps from `setAdvParameters` on issue the advertising data first. -/
theorem startAdvertising_data_first (K : Header) (radio : Radio)
    (params : GapAdvertisingParams) (f : Nat) (w : World) :
    ∃ l, (startAdvertising_data K radio params f w).2.issued
      = w.issued ++ Cmd.hci_le_set_advertising_data w.gap._advData.getPayloadLen
          w.gap._advData.payload :: l := by
  obtain ⟨n, hn⟩ := startAdvertising_data_issued K radio params f w
  rw [hn]
  cases n with
  | zero =>
    exfalso
    have hlen := congrArg List.length hn
    simp only [startAdvertising_data, issue] at hlen
    split_ifs at hlen
    · simp at hlen
    · obtain ⟨m, hm⟩ := startAdvertising_parameters_issued K radio params f
        { w with gap := setAdvParameters K w.gap
                 issued := w.issued ++ [Cmd.hci_le_set_advertising_data
                   (setAdvParameters K w.gap)._advData.getPayloadLen
                   (setAdvParameters K w.gap)._advData.payload] }
      rw [hm] at hlen
      simp at hlen
  | succ m => exact ⟨List.take m _, rfl⟩

/-- C38: `startAdvertising` with the type non-connectable-undirected and parameters that
pass the checks.  Every set-scan-response-data command of the call carries the empty
payload of length 0, whatever the cached scan response is.  When the whitelist
configuration is not needed or succeeds, that command is issued and the set-advertising-data
command with the cached payload follows it, whatever the status of the scan response
command.  The whole outcome, result and world, is the same on two radios that differ only
in the status they give to the empty scan response command. -/
theorem startAdvertising_nonconnectable_scanResponse (K : Header) (r1 r2 : Radio)
    (params : GapAdvertisingParams) (w : World)
    (hty : params.advertisingType = .ADV_NON_CONNECTABLE_UNDIRECTED)
    (hr : intervalOutOfRange K params = false)
    (ht : params.timeout ≤ K.GAP_ADV_PARAMS_TIMEOUT_MAX)
    (hagree : ∀ l c, c ≠ Cmd.hci_le_set_scan_response_data 0 [] → r1 l c = r2 l c) :
    startAdvertising K r1 params w = startAdvertising K r2 params w ∧
    ((w.gap.advertisingPolicyMode = .ADV_POLICY_IGNORE_WHITELIST ∨
        r1 w.issued .aci_gap_configure_whitelist = BLE_STATUS_SUCCESS) →
      ∃ l, (startAdvertising K r1 params w).2.issued
        = w.issued ++
            (if w.gap.advertisingPolicyMode ≠ .ADV_POLICY_IGNORE_WHITELIST then
              [Cmd.aci_gap_configure_whitelist] else []) ++
            Cmd.hci_le_set_scan_response_data 0 [] ::
            Cmd.hci_le_set_advertising_data w.gap._advData.getPayloadLen
              w.gap._advData.payload :: l) ∧
    (∃ l, (startAdvertising K r1 params w).2.issued = w.issued ++ l ∧
      ∀ len data, Cmd.hci_le_set_scan_response_data len data ∈ l → len = 0 ∧ data = []) := by
  have hnd : params.advertisingType ≠ .ADV_CONNECTABLE_DIRECTED := by
    rw [hty]
    decide
  have hnt : ¬ (params.advertisingType = .ADV_CONNECTABLE_UNDIRECTED ∨
      params.advertisingType = .ADV_SCANNABLE_UNDIRECTED) := by
    rw [hty]
    decide
  have hsr : ∀ (radio : Radio) (f : Nat) (v : World),
      startAdvertising_scanResponse K radio params f v
        = startAdvertising_data K radio params f
            { v with issued := v.issued ++ [Cmd.hci_le_set_scan_response_data 0 []] } := by
    intro radio f v
    simp only [startAdvertising_scanResponse, issue, if_neg hnt]
  refine ⟨?_, ?_, ?_⟩
  · rw [startAdvertising_valid_eq K r1 params w hnd hr ht,
      startAdvertising_valid_eq K r2 params w hnd hr ht]
    simp only [startAdvertising_policy, issue, hsr]
    rw [hagree _ _ (by simp)]
    split_ifs
    · rfl
    · exact startAdvertising_data_congr K r1 r2 params _ _ hagree
    · exact startAdvertising_data_congr K r1 r2 params _ _ hagree
  · intro hcond
    rw [startAdvertising_valid_eq K r1 params w hnd hr ht]
    by_cases hmode : w.gap.advertisingPolicyMode ≠ .ADV_POLICY_IGNORE_WHITELIST
    · have hs : r1 w.issued .aci_gap_configure_whitelist = BLE_STATUS_SUCCESS := by
        rcases hcond with h | h
        · exact absurd h hmode
        · exact h
      have e : startAdvertising_policy K r1 params w
          = startAdvertising_data K r1 params (advFilterPolicy K w.gap.advertisingPolicyMode)
              { w with issued := w.issued ++ [Cmd.aci_gap_configure_whitelist] ++
                  [Cmd.hci_le_set_scan_response_data 0 []] } := by
        simp only [startAdvertising_policy, issue, hsr, if_pos hmode]
        rw [if_neg (by simp [hs])]
      obtain ⟨l, hl⟩ := startAdvertising_data_first K r1 params
        (advFilterPolicy K w.gap.advertisingPolicyMode)
        { w with issued := w.issued ++ [Cmd.aci_gap_configure_whitelist] ++
            [Cmd.hci_le_set_scan_response_data 0 []] }
      refine ⟨l, ?_⟩
      rw [e, hl, if_pos hmode]
      simp
    · have e : startAdvertising_policy K r1 params w
          = startAdvertising_data K r1 params (advFilterPolicy K w.gap.advertisingPolicyMode)
              { w with issued := w.issued ++ [Cmd.hci_le_set_scan_response_data 0 []] } := by
        simp only [startAdvertising_policy, issue, hsr, if_neg hmode]
      obtain ⟨l, hl⟩ := startAdvertising_data_first K r1 params
        (advFilterPolicy K w.gap.advertisingPolicyMode)
        { w with issued := w.issued ++ [Cmd.hci_le_set_scan_response_data 0 []] }
      refine ⟨l, ?_⟩
      rw [e, hl, if_neg hmode]
      simp
  · obtain ⟨l, hl, -, hsc⟩ := startAdvertising_pushes_cache K r1 params w
    refine ⟨l, hl, ?_⟩
    intro len data hmem
    have h := hsc len data hmem
    rw [if_neg hnt] at h
    exact h

/-- Witness of C38: the non-connectable sample call on the idle controller with a cached
scan response, on a radio that succeeds and on one that fails the empty scan response
command: same outcome, `BLE_ERROR_NONE`, with the empty scan response and then the
advertising data issued. -/
theorem startAdvertising_nonconnectable_scanResponse_witness :
    startAdvertising sampleHeader radioOk sampleNonConnParams
        { idleWorld with gap := { idleGap with _scanResponse := sampleScanResponse } }
      = startAdvertising sampleHeader
          (radioFailOn (.hci_le_set_scan_response_data 0 []) 0x41) sampleNonConnParams
          { idleWorld with gap := { idleGap with _scanResponse := sampleScanResponse } } ∧
    (startAdvertising sampleHeader
        (radioFailOn (.hci_le_set_scan_response_data 0 []) 0x41) sampleNonConnParams
        { idleWorld with gap := { idleGap with _scanResponse := sampleScanResponse } }).1
      = .BLE_ERROR_NONE ∧
    (startAdvertising sampleHeader
        (radioFailOn (.hci_le_set_scan_response_data 0 []) 0x41) sampleNonConnParams
        { idleWorld with gap := { idleGap with _scanResponse := sampleScanResponse } }).2.issued
      = [.hci_le_set_scan_response_data 0 [], .hci_le_set_advertising_data 0 [],
         .hci_le_set_advertising_parameters 160 161 .ADV_NON_CONNECTABLE_UNDIRECTED 0 0
           [0, 0, 0, 0, 0, 0] 7 0,
         .hci_le_set_advertise_enable 1] :=
  ⟨(startAdvertising_nonconnectable_scanResponse sampleHeader radioOk
      (radioFailOn (.hci_le_set_scan_response_data 0 []) 0x41) sampleNonConnParams
      { idleWorld with gap := { idleGap with _scanResponse := sampleScanResponse } }
      (by decide) (by decide) (by decide)
      (fun _ c hc => by simp [radioOk, radioFailOn, hc])).1,
   by decide, by decide⟩

end BlueNRG1
